import Mathlib

/-!
# Vulkan buffer-device-address demo: a shallow embedding of `main.c`

The program drives the Vulkan API, which is external to the repository.  The
embedding therefore threads an explicit state through every function of
`main.c` and takes the answers of the Vulkan implementation from a `Driver`
record, one field per call site.  Every API call the program issues is appended
to a trace, together with the arguments the claims talk about.

Machine integers are natural numbers reduced modulo `2 ^ 32` or `2 ^ 64` at the
places where the C code computes with `uint32_t`, `size_t` or `VkDeviceSize`
(`size_t` is taken to be 64 bits wide, as on the x64 targets of the project).
Handles are natural numbers, `VK_NULL_HANDLE` being `0`.
-/

namespace VulkanVariableBuffers

/-! ## Constants of `main.c` and of `vulkan.h` -/

/-- `ADDITIONAL_ADDRESS_BUFFER_SIZE` of `enum MY_CONSTANTS`. -/
def ADDITIONAL_ADDRESS_BUFFER_SIZE : Nat := 64

/-- `MAX_VULKAN_GLOBAL_EXT_PROPS` of `enum MY_CONSTANTS`. -/
def MAX_VULKAN_GLOBAL_EXT_PROPS : Nat := 256

/-- `MAX_GPU_COUNT` of `enum MY_CONSTANTS`. -/
def MAX_GPU_COUNT : Nat := 8

/-- `MAX_QUEUE_FAMILY_PROPERTY_COUNT` of `enum MY_CONSTANTS`. -/
def MAX_QUEUE_FAMILY_PROPERTY_COUNT : Nat := 8

/-- `VkResult` codes are plain integers. -/
abbrev VkResult := Int

def VK_SUCCESS : VkResult := 0
def VK_TIMEOUT : VkResult := 2
def VK_ERROR_INITIALIZATION_FAILED : VkResult := -3
def VK_ERROR_DEVICE_LOST : VkResult := -4
def VK_ERROR_UNKNOWN : VkResult := -13

def VK_NULL_HANDLE : Nat := 0

def VK_MEMORY_PROPERTY_DEVICE_LOCAL_BIT : Nat := 1
def VK_MEMORY_PROPERTY_HOST_VISIBLE_BIT : Nat := 2
def VK_MEMORY_PROPERTY_HOST_COHERENT_BIT : Nat := 4

def VK_BUFFER_USAGE_TRANSFER_SRC_BIT : Nat := 1
def VK_BUFFER_USAGE_TRANSFER_DST_BIT : Nat := 2
def VK_BUFFER_USAGE_STORAGE_BUFFER_BIT : Nat := 32
def VK_BUFFER_USAGE_SHADER_DEVICE_ADDRESS_BIT : Nat := 131072

def VK_MEMORY_ALLOCATE_DEVICE_ADDRESS_BIT : Nat := 2

def VK_ACCESS_SHADER_READ_BIT : Nat := 32
def VK_ACCESS_SHADER_WRITE_BIT : Nat := 64
def VK_ACCESS_TRANSFER_READ_BIT : Nat := 2048
def VK_ACCESS_TRANSFER_WRITE_BIT : Nat := 4096

def VK_PIPELINE_STAGE_COMPUTE_SHADER_BIT : Nat := 2048
def VK_PIPELINE_STAGE_TRANSFER_BIT : Nat := 4096

def VK_QUEUE_COMPUTE_BIT : Nat := 2
def VK_QUEUE_TRANSFER_BIT : Nat := 4

/-- `UINT64_MAX` of `stdint.h`. -/
def UINT64_MAX : Nat := 2 ^ 64 - 1

/-! ## The memory-property table -/

structure VkMemoryType where
  propertyFlags : Nat
  heapIndex : Nat
deriving DecidableEq, Repr

structure VkMemoryHeap where
  size : Nat
  flags : Nat
deriving DecidableEq, Repr

/-- The table `VkPhysicalDeviceMemoryProperties`; the two fixed-size arrays are
total functions of the index. -/
structure VkPhysicalDeviceMemoryProperties where
  memoryTypeCount : Nat
  memoryTypes : Nat → VkMemoryType
  memoryHeapCount : Nat
  memoryHeaps : Nat → VkMemoryHeap

structure VkMemoryRequirements where
  size : Nat
  alignment : Nat
  memoryTypeBits : Nat
deriving DecidableEq, Repr

/-! ## The memory-type selection loops of `AllocateMemoryAndBuffers` -/

/-- The shape shared by the three `for (memoryTypeIndex = 0; ...)` loops: skip
an index whose bit `1U << memoryTypeIndex` is clear in `memoryTypeBits`, stop at
the first index whose `if` condition `found` holds, run off the end otherwise.
`fuel` bounds the number of iterations left. -/
def memoryTypeLoop (memoryTypeCount memoryTypeBits : Nat) (found : Nat → Bool) :
    Nat → Nat → Nat
  | 0, memoryTypeIndex => memoryTypeIndex
  | fuel + 1, memoryTypeIndex =>
    if memoryTypeIndex < memoryTypeCount then
      if memoryTypeBits &&& ((1 <<< memoryTypeIndex) % 2 ^ 32) = 0 then
        memoryTypeLoop memoryTypeCount memoryTypeBits found fuel (memoryTypeIndex + 1)
      else if found memoryTypeIndex then
        memoryTypeIndex
      else
        memoryTypeLoop memoryTypeCount memoryTypeBits found fuel (memoryTypeIndex + 1)
    else
      memoryTypeIndex

/-- The `if` condition of the first loop (host visible and host coherent). -/
def hostVisibleFound (p : VkPhysicalDeviceMemoryProperties) (size : Nat)
    (memoryTypeIndex : Nat) : Bool :=
  let memoryType := p.memoryTypes memoryTypeIndex
  (memoryType.propertyFlags &&& VK_MEMORY_PROPERTY_HOST_VISIBLE_BIT != 0) &&
  (memoryType.propertyFlags &&& VK_MEMORY_PROPERTY_HOST_COHERENT_BIT != 0) &&
  decide ((p.memoryHeaps memoryType.heapIndex).size ≥ size)

/-- The `if` condition of the second and of the third loop (device local). -/
def deviceLocalFound (p : VkPhysicalDeviceMemoryProperties) (size : Nat)
    (memoryTypeIndex : Nat) : Bool :=
  let memoryType := p.memoryTypes memoryTypeIndex
  (memoryType.propertyFlags &&& VK_MEMORY_PROPERTY_DEVICE_LOCAL_BIT != 0) &&
  decide ((p.memoryHeaps memoryType.heapIndex).size ≥ size)

/-- Value of `memoryTypeIndex` after the first loop (staging buffer). -/
def hostMemoryTypeIndex (p : VkPhysicalDeviceMemoryProperties)
    (hostMemBufRequirements : VkMemoryRequirements) : Nat :=
  memoryTypeLoop p.memoryTypeCount hostMemBufRequirements.memoryTypeBits
    (hostVisibleFound p hostMemBufRequirements.size) p.memoryTypeCount 0

/-- The `max` macro of `main.c`. -/
def max (a b : Nat) : Nat := if a > b then a else b

/-- The constant `deviceMemTotalSize`: `max(bufferSize * 2, requirement)` in
`VkDeviceSize` arithmetic. -/
def deviceMemTotalSize (bufferSize : Nat) (deviceMemBufRequirements : VkMemoryRequirements) : Nat :=
  max ((bufferSize * 2) % 2 ^ 64) deviceMemBufRequirements.size

/-- Value of `memoryTypeIndex` after the second loop (the two working buffers). -/
def deviceMemoryTypeIndex (p : VkPhysicalDeviceMemoryProperties) (bufferSize : Nat)
    (deviceMemBufRequirements : VkMemoryRequirements) : Nat :=
  memoryTypeLoop p.memoryTypeCount deviceMemBufRequirements.memoryTypeBits
    (deviceLocalFound p (deviceMemTotalSize bufferSize deviceMemBufRequirements))
    p.memoryTypeCount 0

/-- Value of `memoryTypeIndex` after the third loop (address-table buffer). -/
def addressMemoryTypeIndex (p : VkPhysicalDeviceMemoryProperties)
    (deviceMemBufRequirements : VkMemoryRequirements) : Nat :=
  memoryTypeLoop p.memoryTypeCount deviceMemBufRequirements.memoryTypeBits
    (deviceLocalFound p deviceMemBufRequirements.size) p.memoryTypeCount 0

/-- An index is eligible for a loop when the loop does not skip it and its `if`
condition holds. -/
def eligible (memoryTypeBits : Nat) (found : Nat → Bool) (i : Nat) : Prop :=
  memoryTypeBits.testBit i = true ∧ found i = true

/-! ## Arguments of the API calls -/

/-- The fields of `VkBufferCreateInfo` that `main.c` sets to something other
than a constant (`sharingMode` is always exclusive, `pNext` always `NULL`). -/
structure VkBufferCreateInfo where
  flags : Nat
  size : Nat
  usage : Nat
  pQueueFamilyIndices : List Nat
deriving DecidableEq, Repr

/-- The structure `VkMemoryAllocateInfo`.  `pNext` is either `NULL` (`none`) or
points to a `VkMemoryAllocateFlagsInfo`, of which the `flags` field is kept. -/
structure VkMemoryAllocateInfo where
  pNext : Option Nat
  allocationSize : Nat
  memoryTypeIndex : Nat
deriving DecidableEq, Repr

structure VkBufferCopy where
  srcOffset : Nat
  dstOffset : Nat
  size : Nat
deriving DecidableEq, Repr

structure VkBufferMemoryBarrier where
  srcAccessMask : Nat
  dstAccessMask : Nat
  srcQueueFamilyIndex : Nat
  dstQueueFamilyIndex : Nat
  buffer : Nat
  offset : Nat
  size : Nat
deriving DecidableEq, Repr

/-- One entry of the trace: an API call with the arguments that matter, or one
of the three messages of the result check. -/
inductive Call where
  | vkCreateBuffer (pCreateInfo : VkBufferCreateInfo) (slot : Nat)
  | vkGetBufferMemoryRequirements (buffer : Nat)
  | vkAllocateMemory (pAllocateInfo : VkMemoryAllocateInfo) (slot : Nat)
  | vkBindBufferMemory (buffer memory memoryOffset : Nat)
  | vkMapMemory (memory offset size : Nat)
  | vkUnmapMemory (memory : Nat)
  | vkGetBufferDeviceAddress (buffer : Nat)
  | vkGetBufferDeviceAddressEXT (buffer : Nat)
  | vkCreateShaderModule (codeSize : Nat)
  | vkCreateDescriptorSetLayout
  | vkCreatePipelineLayout (setLayout : Nat)
  | vkCreateComputePipelines (module layout total_data_elem_count : Nat)
  | vkCreateDescriptorPool
  | vkAllocateDescriptorSets (descriptorPool setLayout : Nat)
  | vkUpdateDescriptorSets (dstSet buffer offset range : Nat)
  | vkCreateCommandPool (queueFamilyIndex : Nat)
  | vkAllocateCommandBuffers (commandPool commandBufferCount : Nat)
  | vkGetDeviceQueue (queueFamilyIndex queueIndex : Nat)
  | vkBeginCommandBuffer (commandBuffer : Nat)
  | vkCmdBindPipeline (commandBuffer pipeline : Nat)
  | vkCmdBindDescriptorSets (commandBuffer layout descriptorSet : Nat)
  | vkCmdCopyBuffer (commandBuffer srcBuffer dstBuffer : Nat) (region : VkBufferCopy)
  | vkCmdPipelineBarrier (commandBuffer srcStageMask dstStageMask : Nat)
      (bufferBarriers : List VkBufferMemoryBarrier)
  | vkCmdDispatch (commandBuffer groupCountX groupCountY groupCountZ : Nat)
  | vkEndCommandBuffer (commandBuffer : Nat)
  | vkCreateFence
  | vkQueueSubmit (queue : Nat) (commandBuffers : List Nat) (fence : Nat)
  | vkWaitForFences (fence timeout : Nat)
  | resultError (i : Nat) (value : Int)
  | firstFiveSum (value : Int)
  | sameAsElemCount
  | vkDestroyFence (fence : Nat)
  | vkFreeCommandBuffers (commandPool : Nat) (commandBuffers : List Nat)
  | vkDestroyCommandPool (commandPool : Nat)
  | vkDestroyDescriptorPool (descriptorPool : Nat)
  | vkDestroyDescriptorSetLayout (descriptorSetLayout : Nat)
  | vkDestroyPipelineLayout (pipelineLayout : Nat)
  | vkDestroyPipeline (pipeline : Nat)
  | vkDestroyShaderModule (shaderModule : Nat)
  | vkDestroyBuffer (buffer : Nat)
  | vkFreeMemory (memory : Nat)
  | vkDestroyDevice (device : Nat)
  | vkDestroyInstance (inst : Nat)
deriving DecidableEq, Repr

/-- The answers of the Vulkan implementation and of the C library to the calls
of `RunComputeTest`, one field per call site.  A creation call answers with its
`VkResult` and with the value it leaves in the handle it was given (every such
handle is `VK_NULL_HANDLE` before the call).  The buffers and memories are told
apart by their slot in `deviceBuffers` and `deviceMemories`, the two
`vkMapMemory` calls by `0` (allocation) and `1` (result check). -/
structure Driver where
  vkCreateBuffer : Nat → VkResult × Nat
  vkGetBufferMemoryRequirements : Nat → VkMemoryRequirements
  vkAllocateMemory : Nat → VkResult × Nat
  vkBindBufferMemory : Nat → VkResult
  vkMapMemory : Nat → VkResult
  vkGetBufferDeviceAddress : Nat → Nat
  fopen : Option Nat
  vkCreateShaderModule : VkResult × Nat
  vkCreateDescriptorSetLayout : VkResult × Nat
  vkCreatePipelineLayout : VkResult × Nat
  vkCreateComputePipelines : VkResult × Nat
  vkCreateDescriptorPool : VkResult × Nat
  vkAllocateDescriptorSets : VkResult × Nat
  vkCreateCommandPool : VkResult × Nat
  vkAllocateCommandBuffers : VkResult × Nat
  vkGetDeviceQueue : Nat
  vkBeginCommandBuffer : VkResult
  vkEndCommandBuffer : VkResult
  vkCreateFence : VkResult × Nat
  vkQueueSubmit : VkResult
  vkWaitForFences : VkResult
  readBack : Nat → Nat

/-! ## Host memory behind the mapped pointer -/

/-- The bytes reachable from the pointer `hostBuffer` that `vkMapMemory`
returns, addressed by their offset from it, and the list of the stores made
through that pointer, each as (offset, length), in program order. -/
structure HostMem where
  bytes : Nat → Nat
  writes : List (Nat × Nat)

/-- Store the `len` low bytes of `v`, little endian, at offset `off`. -/
def HostMem.store (m : HostMem) (off len v : Nat) : HostMem :=
  { bytes := fun a => if off ≤ a ∧ a < off + len then (v / 256 ^ (a - off)) % 256 else m.bytes a
    writes := m.writes ++ [(off, len)] }

/-- The call `memset(p, c, len)` for `p` at offset `off`. -/
def HostMem.memset (m : HostMem) (off c len : Nat) : HostMem :=
  { bytes := fun a => if off ≤ a ∧ a < off + len then c % 256 else m.bytes a
    writes := m.writes ++ [(off, len)] }

/-- Read the little-endian unsigned value of the `len` bytes at offset `off`. -/
def loadBytes (bytes : Nat → Nat) (off : Nat) : Nat → Nat
  | 0 => 0
  | len + 1 => bytes off % 256 + 256 * loadBytes bytes (off + 1) len

/-- Conversion of an unsigned value to `int` (32 bits, two's complement). -/
def toInt32 (x : Nat) : Int :=
  if x % 2 ^ 32 < 2 ^ 31 then ((x % 2 ^ 32 : Nat) : Int) else ((x % 2 ^ 32 : Nat) : Int) - 2 ^ 32

/-- The element `p[i]` of an `int*` at offset `0`. -/
def loadInt32 (bytes : Nat → Nat) (i : Nat) : Int :=
  toInt32 (loadBytes bytes (4 * i) 4)

/-- The element `p[i]` of a `VkDeviceAddress*` (64 bits) at offset `base`. -/
def loadAddress (bytes : Nat → Nat) (base i : Nat) : Nat :=
  loadBytes bytes (base + 8 * i) 8

/-- The loop `for (int i = 0; i < elemCount; i++) srcMem[i] = i;`. -/
def fillLoop (elemCount : Int) : Nat → Nat → HostMem → HostMem
  | 0, _, m => m
  | fuel + 1, i, m =>
    if (i : Int) < elemCount then fillLoop elemCount fuel (i + 1) (m.store (4 * i) 4 i) else m

/-! ## The state of a run and the statement sequences -/

/-- The local variables of `RunComputeTest` that hold handles. -/
structure Handles where
  deviceMemories : List Nat
  deviceBuffers : List Nat
  computeShaderModule : Nat
  computePipeline : Nat
  descriptorSetLayout : Nat
  pipelineLayout : Nat
  descriptorPool : Nat
  commandPool : Nat
  commandBuffers : List Nat
  fence : Nat
deriving DecidableEq, Repr

/-- The handles, the host memory of the staging allocation, and the trace. -/
structure RunState where
  handles : Handles
  host : HostMem
  trace : List Call

/-- The declarations at the top of `RunComputeTest`: every handle is
`VK_NULL_HANDLE`. -/
def Handles.init : Handles :=
  { deviceMemories := [VK_NULL_HANDLE, VK_NULL_HANDLE, VK_NULL_HANDLE]
    deviceBuffers := [VK_NULL_HANDLE, VK_NULL_HANDLE, VK_NULL_HANDLE, VK_NULL_HANDLE]
    computeShaderModule := VK_NULL_HANDLE
    computePipeline := VK_NULL_HANDLE
    descriptorSetLayout := VK_NULL_HANDLE
    pipelineLayout := VK_NULL_HANDLE
    descriptorPool := VK_NULL_HANDLE
    commandPool := VK_NULL_HANDLE
    commandBuffers := [VK_NULL_HANDLE]
    fence := VK_NULL_HANDLE }

/-- The state at the start of `RunComputeTest`; `bytes` is what the staging
memory holds when it is first mapped. -/
def RunState.init (bytes : Nat → Nat) : RunState :=
  { handles := Handles.init, host := { bytes := bytes, writes := [] }, trace := [] }

/-- Assignment to `deviceBuffers[i]`. -/
def Handles.setBuffer (h : Handles) (i v : Nat) : Handles :=
  { h with deviceBuffers := h.deviceBuffers.set i v }

/-- Assignment to `deviceMemories[i]`. -/
def Handles.setMemory (h : Handles) (i v : Nat) : Handles :=
  { h with deviceMemories := h.deviceMemories.set i v }

/-- A run of statements that ends in at most one checked call: the API calls it
issues, in order, what it stores into the handles and into the mapped host
memory, and the `VkResult` that the code tests with `!= VK_SUCCESS` right after
(`none` when the statements end without such a test). -/
structure Step where
  calls : List Call
  store : Handles → Handles := id
  host : HostMem → HostMem := id
  res : Option VkResult

/-- The effect of the statements of a step on the state. -/
def Step.run (st : Step) (s : RunState) : RunState :=
  { handles := st.store s.handles, host := st.host s.host, trace := s.trace ++ st.calls }

/-- Straight-line code with early exits: run the steps in order; after a checked
call whose result is not `VK_SUCCESS` leave with that result (`return res;` in
the helper functions, `break;` in `RunComputeTest`); at the end the result is the
last one tested, `VK_SUCCESS`. -/
def runSteps : List Step → RunState → VkResult × RunState
  | [], s => (VK_SUCCESS, s)
  | st :: rest, s =>
    match st.res with
    | some res => if res ≠ VK_SUCCESS then (res, st.run s) else runSteps rest (st.run s)
    | none => runSteps rest (st.run s)

/-! ## `AllocateMemoryAndBuffers` -/

/-- The initializer of `hostBufCreateInfo`. -/
def hostBufCreateInfo (bufferSize queueFamilyIndex : Nat) : VkBufferCreateInfo :=
  { flags := 0
    size := (bufferSize + ADDITIONAL_ADDRESS_BUFFER_SIZE) % 2 ^ 64
    usage := VK_BUFFER_USAGE_TRANSFER_SRC_BIT ||| VK_BUFFER_USAGE_TRANSFER_DST_BIT
    pQueueFamilyIndices := [queueFamilyIndex] }

/-- The initializer of `deviceBufCreateInfo`. -/
def deviceBufCreateInfo (bufferSize queueFamilyIndex : Nat) : VkBufferCreateInfo :=
  { flags := 0
    size := bufferSize
    usage := VK_BUFFER_USAGE_STORAGE_BUFFER_BIT ||| VK_BUFFER_USAGE_TRANSFER_SRC_BIT |||
      VK_BUFFER_USAGE_TRANSFER_DST_BIT ||| VK_BUFFER_USAGE_SHADER_DEVICE_ADDRESS_BIT
    pQueueFamilyIndices := [queueFamilyIndex] }

/-- The initializer of `addressWrapperDeviceBufCreateInfo` (the function never
passes it to a call). -/
def addressWrapperDeviceBufCreateInfo (queueFamilyIndex : Nat) : VkBufferCreateInfo :=
  { flags := 0
    size := ADDITIONAL_ADDRESS_BUFFER_SIZE
    usage := VK_BUFFER_USAGE_STORAGE_BUFFER_BIT ||| VK_BUFFER_USAGE_TRANSFER_SRC_BIT |||
      VK_BUFFER_USAGE_TRANSFER_DST_BIT
    pQueueFamilyIndices := [queueFamilyIndex] }

/-- The initializer of `hostMemAllocInfo`. -/
def hostMemAllocInfo (pMemoryProperties : VkPhysicalDeviceMemoryProperties)
    (hostMemBufRequirements : VkMemoryRequirements) : VkMemoryAllocateInfo :=
  { pNext := none
    allocationSize := hostMemBufRequirements.size
    memoryTypeIndex := hostMemoryTypeIndex pMemoryProperties hostMemBufRequirements }

/-- The initializer of `deviceMemAllocInfo`; `pNext` points to
`memAllocFlagsInfo`, whose flags are `VK_MEMORY_ALLOCATE_DEVICE_ADDRESS_BIT`. -/
def deviceMemAllocInfo (pMemoryProperties : VkPhysicalDeviceMemoryProperties) (bufferSize : Nat)
    (deviceMemBufRequirements : VkMemoryRequirements) : VkMemoryAllocateInfo :=
  { pNext := some VK_MEMORY_ALLOCATE_DEVICE_ADDRESS_BIT
    allocationSize := deviceMemTotalSize bufferSize deviceMemBufRequirements
    memoryTypeIndex := deviceMemoryTypeIndex pMemoryProperties bufferSize deviceMemBufRequirements }

/-- The variable `deviceMemAllocInfo` after the two assignments that precede the
third allocation: `allocationSize` and `memoryTypeIndex` are overwritten, the
other fields keep the values of the initializer. -/
def addressMemAllocInfo (pMemoryProperties : VkPhysicalDeviceMemoryProperties) (bufferSize : Nat)
    (workingRequirements deviceMemBufRequirements : VkMemoryRequirements) : VkMemoryAllocateInfo :=
  { deviceMemAllocInfo pMemoryProperties bufferSize workingRequirements with
    allocationSize := deviceMemBufRequirements.size
    memoryTypeIndex := addressMemoryTypeIndex pMemoryProperties deviceMemBufRequirements }

/-- One address query at the end of `AllocateMemoryAndBuffers`: through
`s_vkGetBufferDeviceAddressEXT` when that pointer is not `NULL`, through
`vkGetBufferDeviceAddress` otherwise.  Returns the address and the call made. -/
def queryAddress (d : Driver) (s_vkGetBufferDeviceAddressEXT : Option (Nat → Nat))
    (buffer : Nat) : Nat × Call :=
  match s_vkGetBufferDeviceAddressEXT with
  | some f => (f buffer, Call.vkGetBufferDeviceAddressEXT buffer)
  | none => (d.vkGetBufferDeviceAddress buffer, Call.vkGetBufferDeviceAddress buffer)

/-- The stores of `AllocateMemoryAndBuffers` through the mapped pointer: the
loop over `srcMem`, the `memset` of `addrMem` (which is `hostBuffer +
bufferSize`), and the two assignments `addrMem[0]` and `addrMem[1]`. -/
def initStaging (bufferSize addr0 addr1 : Nat) (m : HostMem) : HostMem :=
  let elemCount : Int := toInt32 (bufferSize / 4)
  let m := fillLoop elemCount elemCount.toNat 0 m
  let m := m.memset bufferSize 0 ADDITIONAL_ADDRESS_BUFFER_SIZE
  let m := m.store (bufferSize + 8 * 0) 8 addr0
  m.store (bufferSize + 8 * 1) 8 addr1

/-- The statements of `AllocateMemoryAndBuffers`, one step per checked call.
`b0` to `b3` and `m0` to `m2` name the values that the creation calls leave in
`deviceBuffers[0..3]` and `deviceMemories[0..2]`. -/
def allocateSteps (d : Driver) (s_vkGetBufferDeviceAddressEXT : Option (Nat → Nat))
    (pMemoryProperties : VkPhysicalDeviceMemoryProperties) (bufferSize queueFamilyIndex : Nat) :
    List Step :=
  let b0 := (d.vkCreateBuffer 0).2
  let b1 := (d.vkCreateBuffer 1).2
  let b2 := (d.vkCreateBuffer 2).2
  let b3 := (d.vkCreateBuffer 3).2
  let m0 := (d.vkAllocateMemory 0).2
  let m1 := (d.vkAllocateMemory 1).2
  let m2 := (d.vkAllocateMemory 2).2
  let a0 := queryAddress d s_vkGetBufferDeviceAddressEXT b1
  let a1 := queryAddress d s_vkGetBufferDeviceAddressEXT b2
  [ -- deviceBuffers[0]: the host temporal buffer
    { calls := [.vkCreateBuffer (hostBufCreateInfo bufferSize queueFamilyIndex) 0]
      store := fun h => h.setBuffer 0 b0
      res := some (d.vkCreateBuffer 0).1 },
    { calls := [.vkGetBufferMemoryRequirements b0,
        .vkAllocateMemory (hostMemAllocInfo pMemoryProperties (d.vkGetBufferMemoryRequirements 0)) 0]
      store := fun h => h.setMemory 0 m0
      res := some (d.vkAllocateMemory 0).1 },
    { calls := [.vkBindBufferMemory b0 m0 0]
      res := some (d.vkBindBufferMemory 0) },
    -- deviceBuffers[1] and deviceBuffers[2]: the two working buffers
    { calls := [.vkCreateBuffer (deviceBufCreateInfo bufferSize queueFamilyIndex) 1]
      store := fun h => h.setBuffer 1 b1
      res := some (d.vkCreateBuffer 1).1 },
    { calls := [.vkCreateBuffer (deviceBufCreateInfo bufferSize queueFamilyIndex) 2]
      store := fun h => h.setBuffer 2 b2
      res := some (d.vkCreateBuffer 2).1 },
    { calls := [.vkGetBufferMemoryRequirements b1,
        .vkAllocateMemory
          (deviceMemAllocInfo pMemoryProperties bufferSize (d.vkGetBufferMemoryRequirements 1)) 1]
      store := fun h => h.setMemory 1 m1
      res := some (d.vkAllocateMemory 1).1 },
    { calls := [.vkBindBufferMemory b1 m1 0]
      res := some (d.vkBindBufferMemory 1) },
    { calls := [.vkBindBufferMemory b2 m1 bufferSize]
      res := some (d.vkBindBufferMemory 2) },
    -- deviceBuffers[3]: the address storage buffer, created from `deviceBufCreateInfo`
    { calls := [.vkCreateBuffer (deviceBufCreateInfo bufferSize queueFamilyIndex) 3]
      store := fun h => h.setBuffer 3 b3
      res := some (d.vkCreateBuffer 3).1 },
    { calls := [.vkGetBufferMemoryRequirements b3,
        .vkAllocateMemory
          (addressMemAllocInfo pMemoryProperties bufferSize (d.vkGetBufferMemoryRequirements 1)
            (d.vkGetBufferMemoryRequirements 3)) 2]
      store := fun h => h.setMemory 2 m2
      res := some (d.vkAllocateMemory 2).1 },
    { calls := [.vkBindBufferMemory b3 m2 0]
      res := some (d.vkBindBufferMemory 3) },
    -- initialize the source host visible temporal buffer
    { calls := [.vkMapMemory m0 0 bufferSize]
      res := some (d.vkMapMemory 0) },
    { calls := [a0.2, a1.2, .vkUnmapMemory m0]
      host := initStaging bufferSize a0.1 a1.1
      res := none } ]

/-- The function `AllocateMemoryAndBuffers`.  The arrays `deviceMemories` and
`deviceBuffers` live in the state; `s_vkGetBufferDeviceAddressEXT` is the global
function pointer. -/
def AllocateMemoryAndBuffers (d : Driver) (s_vkGetBufferDeviceAddressEXT : Option (Nat → Nat))
    (pMemoryProperties : VkPhysicalDeviceMemoryProperties) (bufferSize queueFamilyIndex : Nat)
    (s : RunState) : VkResult × RunState :=
  runSteps (allocateSteps d s_vkGetBufferDeviceAddressEXT pMemoryProperties bufferSize
    queueFamilyIndex) s

/-! ## Recording helpers -/

/-- The function `WriteBufferAndSync`: the calls it records, in order. -/
def WriteBufferAndSync (commandBuffer queueFamilyIndex dataDeviceBuffer addressDeviceBuffer
    srcHostBuffer size : Nat) : List Call :=
  let copyRegion : VkBufferCopy := { srcOffset := 0, dstOffset := 0, size := size }
  let c1 := Call.vkCmdCopyBuffer commandBuffer srcHostBuffer dataDeviceBuffer copyRegion
  let copyRegion : VkBufferCopy :=
    { copyRegion with srcOffset := size, size := ADDITIONAL_ADDRESS_BUFFER_SIZE }
  let c2 := Call.vkCmdCopyBuffer commandBuffer srcHostBuffer addressDeviceBuffer copyRegion
  let bufferBarriers : List VkBufferMemoryBarrier :=
    [ { srcAccessMask := VK_ACCESS_TRANSFER_WRITE_BIT
        dstAccessMask := VK_ACCESS_SHADER_READ_BIT
        srcQueueFamilyIndex := queueFamilyIndex
        dstQueueFamilyIndex := queueFamilyIndex
        buffer := dataDeviceBuffer
        offset := 0
        size := size },
      { srcAccessMask := VK_ACCESS_TRANSFER_WRITE_BIT
        dstAccessMask := VK_ACCESS_SHADER_READ_BIT
        srcQueueFamilyIndex := queueFamilyIndex
        dstQueueFamilyIndex := queueFamilyIndex
        buffer := addressDeviceBuffer
        offset := 0
        size := ADDITIONAL_ADDRESS_BUFFER_SIZE } ]
  [c1, c2,
   Call.vkCmdPipelineBarrier commandBuffer VK_PIPELINE_STAGE_TRANSFER_BIT
     VK_PIPELINE_STAGE_COMPUTE_SHADER_BIT bufferBarriers]

/-- The function `SyncAndReadBuffer`: the calls it records, in order. -/
def SyncAndReadBuffer (commandBuffer queueFamilyIndex dstHostBuffer srcDeviceBuffer size : Nat) :
    List Call :=
  let bufferBarrier : VkBufferMemoryBarrier :=
    { srcAccessMask := VK_ACCESS_SHADER_WRITE_BIT
      dstAccessMask := VK_ACCESS_TRANSFER_READ_BIT
      srcQueueFamilyIndex := queueFamilyIndex
      dstQueueFamilyIndex := queueFamilyIndex
      buffer := srcDeviceBuffer
      offset := 0
      size := size }
  let copyRegion : VkBufferCopy := { srcOffset := 0, dstOffset := 0, size := size }
  [Call.vkCmdPipelineBarrier commandBuffer VK_PIPELINE_STAGE_COMPUTE_SHADER_BIT
     VK_PIPELINE_STAGE_TRANSFER_BIT [bufferBarrier],
   Call.vkCmdCopyBuffer commandBuffer srcDeviceBuffer dstHostBuffer copyRegion]

/-! ## Pipeline, descriptor set and command buffer -/

/-- The statements of `CreateShaderModule`; `d.fopen` is `none` when the shader
file cannot be opened and the length of the file otherwise. -/
def shaderModuleSteps (d : Driver) : List Step :=
  [ { calls := []
      res := some (if d.fopen.isNone then VK_ERROR_INITIALIZATION_FAILED else VK_SUCCESS) },
    { calls := [.vkCreateShaderModule (d.fopen.getD 0)]
      store := fun h => { h with computeShaderModule := d.vkCreateShaderModule.2 }
      res := some d.vkCreateShaderModule.1 } ]

/-- The function `CreateShaderModule`. -/
def CreateShaderModule (d : Driver) (s : RunState) : VkResult × RunState :=
  runSteps (shaderModuleSteps d) s

/-- The statements of `CreateComputePipeline`. -/
def computePipelineSteps (d : Driver) (computeShaderModule totalDataElemCount : Nat) : List Step :=
  [ { calls := [.vkCreateDescriptorSetLayout]
      store := fun h => { h with descriptorSetLayout := d.vkCreateDescriptorSetLayout.2 }
      res := some d.vkCreateDescriptorSetLayout.1 },
    { calls := [.vkCreatePipelineLayout d.vkCreateDescriptorSetLayout.2]
      store := fun h => { h with pipelineLayout := d.vkCreatePipelineLayout.2 }
      res := some d.vkCreatePipelineLayout.1 },
    { calls := [.vkCreateComputePipelines computeShaderModule d.vkCreatePipelineLayout.2
        totalDataElemCount]
      store := fun h => { h with computePipeline := d.vkCreateComputePipelines.2 }
      res := some d.vkCreateComputePipelines.1 } ]

/-- The function `CreateComputePipeline`. -/
def CreateComputePipeline (d : Driver) (computeShaderModule totalDataElemCount : Nat)
    (s : RunState) : VkResult × RunState :=
  runSteps (computePipelineSteps d computeShaderModule totalDataElemCount) s

/-- The statements of `CreateDescriptorSets`; the descriptor set it leaves in
`*pDescSets` is `d.vkAllocateDescriptorSets.2`. -/
def descriptorSetsSteps (d : Driver) (addressWrapperBuffer bufferSize descLayout : Nat) :
    List Step :=
  [ { calls := [.vkCreateDescriptorPool]
      store := fun h => { h with descriptorPool := d.vkCreateDescriptorPool.2 }
      res := some d.vkCreateDescriptorPool.1 },
    { calls := [.vkAllocateDescriptorSets d.vkCreateDescriptorPool.2 descLayout]
      res := some d.vkAllocateDescriptorSets.1 },
    { calls := [.vkUpdateDescriptorSets d.vkAllocateDescriptorSets.2 addressWrapperBuffer 0
        bufferSize]
      res := none } ]

/-- The function `CreateDescriptorSets`. -/
def CreateDescriptorSets (d : Driver) (addressWrapperBuffer bufferSize descLayout : Nat)
    (s : RunState) : VkResult × RunState :=
  runSteps (descriptorSetsSteps d addressWrapperBuffer bufferSize descLayout) s

/-- The statements of `InitializeCommandBuffer`. -/
def commandBufferSteps (d : Driver) (queueFamilyIndex commandBufferCount : Nat) : List Step :=
  [ { calls := [.vkCreateCommandPool queueFamilyIndex]
      store := fun h => { h with commandPool := d.vkCreateCommandPool.2 }
      res := some d.vkCreateCommandPool.1 },
    { calls := [.vkAllocateCommandBuffers d.vkCreateCommandPool.2 commandBufferCount]
      store := fun h =>
        { h with commandBuffers := h.commandBuffers.set 0 d.vkAllocateCommandBuffers.2 }
      res := some d.vkAllocateCommandBuffers.1 } ]

/-- The function `InitializeCommandBuffer`. -/
def InitializeCommandBuffer (d : Driver) (queueFamilyIndex commandBufferCount : Nat)
    (s : RunState) : VkResult × RunState :=
  runSteps (commandBufferSteps d queueFamilyIndex commandBufferCount) s

/-! ## `RunComputeTest` -/

/-- The process-wide variables of `main.c`. -/
structure Globals where
  s_instance : Nat
  s_specDevice : Nat
  s_specQueueFamilyIndex : Nat
  s_memoryProperties : VkPhysicalDeviceMemoryProperties
  s_vkGetBufferDeviceAddressEXT : Option (Nat → Nat)

/-- The constant `elemCount` of `RunComputeTest` (a `uint32_t`). -/
def elemCount : Nat := 25 * 1024 * 1024 % 2 ^ 32

/-- The constant `bufferSize` of `RunComputeTest`, `elemCount * sizeof(int)`. -/
def bufferSize : Nat := elemCount * 4 % 2 ^ 64

/-- The loop `for (int i = 1; i < (int)elemCount; i++)` of the result check: the
message printed at the first index whose value is not `i * 2`, if any. -/
def verifyLoop (elemCount : Int) (dstMem : Nat → Nat) : Nat → Nat → List Call
  | 0, _ => []
  | fuel + 1, i =>
    if (i : Int) < elemCount then
      if loadInt32 dstMem i ≠ (i : Int) * 2 then
        [Call.resultError i (loadInt32 dstMem i)]
      else
        verifyLoop elemCount dstMem fuel (i + 1)
    else
      []

/-- The sum `a + b` of two `int` values as the compiled code computes it: in 32
bits, two's complement, with wrap-around. -/
def addInt32 (a b : Int) : Int := toInt32 ((a + b) % 2 ^ 32).toNat

/-- The result check between `vkMapMemory` and `vkUnmapMemory`, for a read-back
memory `dstMem` and an element count `n`: the messages printed, in order.  The
sum of the five elements is formed left to right in `int`. -/
def verifyResult (n : Nat) (dstMem : Nat → Nat) : List Call :=
  verifyLoop (toInt32 n) dstMem (toInt32 n).toNat 1 ++
  [Call.firstFiveSum (addInt32 (addInt32 (addInt32 (addInt32 (loadInt32 dstMem 1)
      (loadInt32 dstMem 2)) (loadInt32 dstMem 3)) (loadInt32 dstMem 4)) (loadInt32 dstMem 5))] ++
  (if loadInt32 dstMem 0 = toInt32 n then [Call.sameAsElemCount] else [])

/-- The commands `RunComputeTest` records between `vkBeginCommandBuffer` and
`vkEndCommandBuffer`, for the command buffer `cb`, the buffers `b0` to `b3` held
in `deviceBuffers[0..3]`, an element count `n` and a payload of `size` bytes. -/
def recordCommands (cb computePipeline pipelineLayout descriptorSet queueFamilyIndex
    b0 b1 b2 b3 n size : Nat) : List Call :=
  [Call.vkCmdBindPipeline cb computePipeline,
   Call.vkCmdBindDescriptorSets cb pipelineLayout descriptorSet] ++
  WriteBufferAndSync cb queueFamilyIndex b2 b3 b0 size ++
  [Call.vkCmdDispatch cb (n / 1024) 1 1] ++
  SyncAndReadBuffer cb queueFamilyIndex b0 b1 size

/-- The statements of `RunComputeTest` from `vkGetDeviceQueue` to the check of
`vkBeginCommandBuffer`. -/
def beginStep (d : Driver) (g : Globals) : Step :=
  { calls := [.vkGetDeviceQueue g.s_specQueueFamilyIndex 0,
      .vkBeginCommandBuffer d.vkAllocateCommandBuffers.2]
    res := some d.vkBeginCommandBuffer }

/-- The statements of `RunComputeTest` that record the commands, up to the
check of `vkEndCommandBuffer`. -/
def recordStep (d : Driver) (g : Globals) : Step :=
  { calls := recordCommands d.vkAllocateCommandBuffers.2 d.vkCreateComputePipelines.2
        d.vkCreatePipelineLayout.2 d.vkAllocateDescriptorSets.2 g.s_specQueueFamilyIndex
        (d.vkCreateBuffer 0).2 (d.vkCreateBuffer 1).2 (d.vkCreateBuffer 2).2
        (d.vkCreateBuffer 3).2 elemCount bufferSize ++
      [.vkEndCommandBuffer d.vkAllocateCommandBuffers.2]
    res := some d.vkEndCommandBuffer }

/-- The statements of `RunComputeTest` from `vkCreateFence` to the end of the
`do` block: submission, wait, and the result check. -/
def completionSteps (d : Driver) : List Step :=
  let cb := d.vkAllocateCommandBuffers.2
  let queue := d.vkGetDeviceQueue
  let fence := d.vkCreateFence.2
  let m0 := (d.vkAllocateMemory 0).2
  [ { calls := [.vkCreateFence]
      store := fun h => { h with fence := fence }
      res := some d.vkCreateFence.1 },
    { calls := [.vkQueueSubmit queue [cb] fence]
      res := some d.vkQueueSubmit },
    { calls := [.vkWaitForFences fence UINT64_MAX]
      res := some d.vkWaitForFences },
    { calls := [.vkMapMemory m0 0 bufferSize]
      res := some (d.vkMapMemory 1) },
    { calls := verifyResult elemCount d.readBack ++ [.vkUnmapMemory m0]
      res := none } ]

/-- The statements of the `do` block of `RunComputeTest` that follow the call of
`InitializeCommandBuffer`. -/
def submitSteps (d : Driver) (g : Globals) : List Step :=
  beginStep d g :: recordStep d g :: completionSteps d

/-- The block `do { ... } while (false)` of `RunComputeTest`; the first
component is the value of `result` when the block is left. -/
def runBlock (d : Driver) (g : Globals) (s : RunState) : VkResult × RunState :=
  let commandBufferCount := 1
  let r := AllocateMemoryAndBuffers d g.s_vkGetBufferDeviceAddressEXT g.s_memoryProperties
    bufferSize g.s_specQueueFamilyIndex s
  if r.1 ≠ VK_SUCCESS then r else
  let r := CreateShaderModule d r.2
  if r.1 ≠ VK_SUCCESS then r else
  let r := CreateComputePipeline d d.vkCreateShaderModule.2 elemCount r.2
  if r.1 ≠ VK_SUCCESS then r else
  let r := CreateDescriptorSets d (d.vkCreateBuffer 3).2 ADDITIONAL_ADDRESS_BUFFER_SIZE
    d.vkCreateDescriptorSetLayout.2 r.2
  if r.1 ≠ VK_SUCCESS then r else
  let r := InitializeCommandBuffer d g.s_specQueueFamilyIndex commandBufferCount r.2
  if r.1 ≠ VK_SUCCESS then r else
  runSteps (submitSteps d g) r.2

/-- One of the two release loops at the end of `RunComputeTest`: one release
call for every handle of the array that is not `VK_NULL_HANDLE`, in index
order. -/
def releaseAll (release : Nat → Call) (handles : List Nat) : List Call :=
  (handles.filter (fun h => h ≠ VK_NULL_HANDLE)).map release

/-- The release section of `RunComputeTest`, after the `do` block: the calls it
issues for the handles `h`.  It assigns to no handle. -/
def teardown (h : Handles) : List Call :=
  (if h.fence ≠ VK_NULL_HANDLE then [Call.vkDestroyFence h.fence] else []) ++
  (if h.commandPool ≠ VK_NULL_HANDLE then
    [Call.vkFreeCommandBuffers h.commandPool h.commandBuffers,
     Call.vkDestroyCommandPool h.commandPool]
   else []) ++
  (if h.descriptorPool ≠ VK_NULL_HANDLE then [Call.vkDestroyDescriptorPool h.descriptorPool]
   else []) ++
  (if h.descriptorSetLayout ≠ VK_NULL_HANDLE then
    [Call.vkDestroyDescriptorSetLayout h.descriptorSetLayout] else []) ++
  (if h.pipelineLayout ≠ VK_NULL_HANDLE then [Call.vkDestroyPipelineLayout h.pipelineLayout]
   else []) ++
  (if h.computePipeline ≠ VK_NULL_HANDLE then [Call.vkDestroyPipeline h.computePipeline]
   else []) ++
  (if h.computeShaderModule ≠ VK_NULL_HANDLE then
    [Call.vkDestroyShaderModule h.computeShaderModule] else []) ++
  releaseAll Call.vkDestroyBuffer h.deviceBuffers ++
  releaseAll Call.vkFreeMemory h.deviceMemories

/-- The function `RunComputeTest`: the `do` block, then the release section.
`bytes` is the content of the staging memory when it is first mapped. -/
def RunComputeTest (d : Driver) (g : Globals) (bytes : Nat → Nat) : RunState :=
  let s := (runBlock d g (RunState.init bytes)).2
  { s with trace := s.trace ++ teardown s.handles }

/-! ## Device initialization and `main` -/

/-- The answers of the Vulkan implementation and of the user to the calls of
`InitializeInstanceAndeDevice`.  `InitializeInstance` is reduced to its result
and to the value it leaves in `s_instance`; the two-call enumerations answer
with their `VkResult` and with what they write back; `inputError` is set when
reading the device index leaves `errno` different from zero on the code path that
checks it. -/
structure DeviceEnv where
  InitializeInstance : VkResult × Nat
  vkEnumeratePhysicalDevicesCount : VkResult × Nat
  vkEnumeratePhysicalDevices : VkResult × Nat
  inputError : Bool
  deviceIndex : Nat
  vkEnumerateDeviceExtensionPropertiesCount : VkResult × Nat
  vkEnumerateDeviceExtensionProperties : VkResult × List String
  vkGetInstanceProcAddr : Option (Nat → Nat)
  bufferDeviceAddress : Bool
  memoryProperties : VkPhysicalDeviceMemoryProperties
  queueFamilyProperties : List Nat
  vkCreateDevice : VkResult × Nat

/-- `VK_KHR_BUFFER_DEVICE_ADDRESS_EXTENSION_NAME` of `vulkan.h`. -/
def VK_KHR_BUFFER_DEVICE_ADDRESS_EXTENSION_NAME : String := "VK_KHR_buffer_device_address"

/-- The initial values of the process-wide variables. -/
def Globals.init : Globals :=
  { s_instance := VK_NULL_HANDLE
    s_specDevice := VK_NULL_HANDLE
    s_specQueueFamilyIndex := 0
    s_memoryProperties :=
      { memoryTypeCount := 0
        memoryTypes := fun _ => { propertyFlags := 0, heapIndex := 0 }
        memoryHeapCount := 0
        memoryHeaps := fun _ => { size := 0, flags := 0 } }
    s_vkGetBufferDeviceAddressEXT := none }

/-- The loop of `InitializeDevice` over the queue families: the first index
whose `queueFlags` share a bit with `queueFlag`, if there is one. -/
def queueFamilyLoop (queueFlag : Nat) (queueFamilyProperties : List Nat)
    (queueFamilyPropertyCount : Nat) : Nat → Nat → Option Nat
  | 0, _ => none
  | fuel + 1, i =>
    if i < queueFamilyPropertyCount then
      if queueFamilyProperties.getD i 0 &&& queueFlag ≠ 0 then some i
      else queueFamilyLoop queueFlag queueFamilyProperties queueFamilyPropertyCount fuel (i + 1)
    else none

/-- The flag `supportBufferDeviceAddress` of `InitializeDevice`: some reported
device extension is named `VK_KHR_buffer_device_address`. -/
def supportBufferDeviceAddress (extProps : List String) : Bool :=
  extProps.any (fun extensionName => extensionName == VK_KHR_BUFFER_DEVICE_ADDRESS_EXTENSION_NAME)

/-- The variable `gpu_count` of `InitializeDevice` after the second call of
`vkEnumeratePhysicalDevices`: the first count clamped to `MAX_GPU_COUNT`, then
what the second call writes back, which is no more than it was given. -/
def gpu_count (e : DeviceEnv) : Nat :=
  Nat.min
    (if e.vkEnumeratePhysicalDevicesCount.2 > MAX_GPU_COUNT then MAX_GPU_COUNT
      else e.vkEnumeratePhysicalDevicesCount.2)
    e.vkEnumeratePhysicalDevices.2

/-- The variable `extPropCount` of `InitializeDevice` after the clamp to
`MAX_VULKAN_GLOBAL_EXT_PROPS`. -/
def extPropCount (e : DeviceEnv) : Nat :=
  if e.vkEnumerateDeviceExtensionPropertiesCount.2 > MAX_VULKAN_GLOBAL_EXT_PROPS then
    MAX_VULKAN_GLOBAL_EXT_PROPS
  else e.vkEnumerateDeviceExtensionPropertiesCount.2

/-- The value of `supportBufferDeviceAddress` that `InitializeDevice` computes
from the extensions the second enumeration call writes: the core entry point
`vkGetBufferDeviceAddress` is available when the device lists the extension. -/
def coreAvailable (e : DeviceEnv) : Bool :=
  supportBufferDeviceAddress (e.vkEnumerateDeviceExtensionProperties.2.take (extPropCount e))

/-- The statement `if (!supportBufferDeviceAddress) { s_vkGetBufferDeviceAddressEXT =
vkGetInstanceProcAddr(...); ... }` of `InitializeDevice`, without the `return`
inside it. -/
def resolveExt (e : DeviceEnv) (g : Globals) : Globals :=
  if coreAvailable e then g else { g with s_vkGetBufferDeviceAddressEXT := e.vkGetInstanceProcAddr }

/-- The variable `queueFamilyPropertyCount` of `InitializeDevice` after the
clamp to `MAX_QUEUE_FAMILY_PROPERTY_COUNT`. -/
def queueFamilyPropertyCount (e : DeviceEnv) : Nat :=
  if e.queueFamilyProperties.length % 2 ^ 32 > MAX_QUEUE_FAMILY_PROPERTY_COUNT then
    MAX_QUEUE_FAMILY_PROPERTY_COUNT
  else e.queueFamilyProperties.length % 2 ^ 32

/-- The value of `queue_info.queueFamilyIndex` after the loop over the queue
families: the index the loop stops at, and the zero of the initializer when it
finds none. -/
def selectedQueueFamilyIndex (e : DeviceEnv) (queueFlag : Nat) : Nat :=
  (queueFamilyLoop queueFlag e.queueFamilyProperties (queueFamilyPropertyCount e)
    (queueFamilyPropertyCount e) 0).getD 0

/-- The function `InitializeDevice`. -/
def InitializeDevice (e : DeviceEnv) (queueFlag : Nat) (g : Globals) : VkResult × Globals :=
  if e.vkEnumeratePhysicalDevicesCount.1 ≠ VK_SUCCESS then
    (e.vkEnumeratePhysicalDevicesCount.1, g)
  else if e.vkEnumeratePhysicalDevices.1 ≠ VK_SUCCESS then
    (e.vkEnumeratePhysicalDevices.1, g)
  else if e.inputError then (VK_ERROR_DEVICE_LOST, g)
  else if e.deviceIndex ≥ gpu_count e then (VK_ERROR_DEVICE_LOST, g)
  else if e.vkEnumerateDeviceExtensionPropertiesCount.1 ≠ VK_SUCCESS then
    (e.vkEnumerateDeviceExtensionPropertiesCount.1, g)
  else if e.vkEnumerateDeviceExtensionProperties.1 ≠ VK_SUCCESS then
    (e.vkEnumerateDeviceExtensionProperties.1, g)
  else if !coreAvailable e && e.vkGetInstanceProcAddr.isNone then
    (VK_ERROR_UNKNOWN, resolveExt e g)
  else if !e.bufferDeviceAddress then (VK_ERROR_UNKNOWN, resolveExt e g)
  else
    (e.vkCreateDevice.1,
      { resolveExt e g with
        s_memoryProperties := e.memoryProperties
        s_specQueueFamilyIndex := selectedQueueFamilyIndex e queueFlag
        s_specDevice := e.vkCreateDevice.2 })

/-- The function `InitializeInstanceAndeDevice`. -/
def InitializeInstanceAndeDevice (e : DeviceEnv) (g : Globals) : VkResult × Globals :=
  let g := { g with s_instance := e.InitializeInstance.2 }
  let result := e.InitializeInstance.1
  if result ≠ VK_SUCCESS then (result, g) else
  InitializeDevice e (VK_QUEUE_COMPUTE_BIT ||| VK_QUEUE_TRANSFER_BIT) g

/-- The function `DestroyInstanceAndDevice`: the calls it makes. -/
def DestroyInstanceAndDevice (g : Globals) : List Call :=
  (if g.s_specDevice ≠ VK_NULL_HANDLE then [Call.vkDestroyDevice g.s_specDevice] else []) ++
  (if g.s_instance ≠ VK_NULL_HANDLE then [Call.vkDestroyInstance g.s_instance] else [])

/-- Index `i` qualifies for the staging allocation: it is inside the table, bit
`i` of the type bitmask is set, the type is host visible and host coherent, and
its heap holds at least `size` bytes. -/
def hostCandidate (p : VkPhysicalDeviceMemoryProperties) (memoryTypeBits size i : Nat) : Prop :=
  i < p.memoryTypeCount ∧ memoryTypeBits.testBit i = true ∧
  (p.memoryTypes i).propertyFlags &&& VK_MEMORY_PROPERTY_HOST_VISIBLE_BIT ≠ 0 ∧
  (p.memoryTypes i).propertyFlags &&& VK_MEMORY_PROPERTY_HOST_COHERENT_BIT ≠ 0 ∧
  (p.memoryHeaps (p.memoryTypes i).heapIndex).size ≥ size

/-- Index `i` qualifies for a device-local allocation: it is inside the table,
bit `i` of the type bitmask is set, the type is device local, and its heap holds
at least `size` bytes. -/
def deviceCandidate (p : VkPhysicalDeviceMemoryProperties) (memoryTypeBits size i : Nat) : Prop :=
  i < p.memoryTypeCount ∧ memoryTypeBits.testBit i = true ∧
  (p.memoryTypes i).propertyFlags &&& VK_MEMORY_PROPERTY_DEVICE_LOCAL_BIT ≠ 0 ∧
  (p.memoryHeaps (p.memoryTypes i).heapIndex).size ≥ size

/-! ## Concrete inputs -/

/-- A table of three memory types over two heaps: type 0 is device local, types
1 and 2 are host visible and host coherent. -/
def sampleProperties : VkPhysicalDeviceMemoryProperties :=
  { memoryTypeCount := 3
    memoryTypes := fun i =>
      if i = 0 then { propertyFlags := 1, heapIndex := 0 }
      else { propertyFlags := 6, heapIndex := 1 }
    memoryHeapCount := 2
    memoryHeaps := fun _ => { size := 4096, flags := 0 } }

/-- A memory requirement of 100 bytes that every memory type satisfies. -/
def sampleRequirements : VkMemoryRequirements :=
  { size := 100, alignment := 16, memoryTypeBits := 7 }

/-- A driver that answers every call with `VK_SUCCESS` and a fresh handle,
reports the sample requirements for every buffer and opens the shader file. -/
def acceptingDriver : Driver :=
  { vkCreateBuffer := fun i => (VK_SUCCESS, 11 + i)
    vkGetBufferMemoryRequirements := fun _ => sampleRequirements
    vkAllocateMemory := fun i => (VK_SUCCESS, 21 + i)
    vkBindBufferMemory := fun _ => VK_SUCCESS
    vkMapMemory := fun _ => VK_SUCCESS
    vkGetBufferDeviceAddress := fun b => (4096 * b) % 2 ^ 64
    fopen := some 1024
    vkCreateShaderModule := (VK_SUCCESS, 31)
    vkCreateDescriptorSetLayout := (VK_SUCCESS, 32)
    vkCreatePipelineLayout := (VK_SUCCESS, 33)
    vkCreateComputePipelines := (VK_SUCCESS, 34)
    vkCreateDescriptorPool := (VK_SUCCESS, 35)
    vkAllocateDescriptorSets := (VK_SUCCESS, 36)
    vkCreateCommandPool := (VK_SUCCESS, 37)
    vkAllocateCommandBuffers := (VK_SUCCESS, 38)
    vkGetDeviceQueue := 39
    vkBeginCommandBuffer := VK_SUCCESS
    vkEndCommandBuffer := VK_SUCCESS
    vkCreateFence := (VK_SUCCESS, 40)
    vkQueueSubmit := VK_SUCCESS
    vkWaitForFences := VK_SUCCESS
    readBack := fun _ => 0 }

/-- The accepting driver, except that no memory type is compatible with any
buffer: every reported `memoryTypeBits` is zero. -/
def incompatibleDriver : Driver :=
  { acceptingDriver with
    vkGetBufferMemoryRequirements := fun _ => { size := 100, alignment := 16, memoryTypeBits := 0 } }

/-- Process-wide variables after a device initialization that found the sample
memory table, queue family 0 and the core address query. -/
def sampleGlobals : Globals :=
  { s_instance := 1
    s_specDevice := 2
    s_specQueueFamilyIndex := 0
    s_memoryProperties := sampleProperties
    s_vkGetBufferDeviceAddressEXT := none }

/-- A step passes when its check, if it has one, sees `VK_SUCCESS`. -/
def Step.ok (st : Step) : Prop := ∀ res, st.res = some res → res = VK_SUCCESS

/-- Every checked call of `AllocateMemoryAndBuffers` answered with `VK_SUCCESS`. -/
def Driver.allocOk (d : Driver) : Prop :=
  (d.vkCreateBuffer 0).1 = VK_SUCCESS ∧ (d.vkAllocateMemory 0).1 = VK_SUCCESS ∧
  d.vkBindBufferMemory 0 = VK_SUCCESS ∧ (d.vkCreateBuffer 1).1 = VK_SUCCESS ∧
  (d.vkCreateBuffer 2).1 = VK_SUCCESS ∧ (d.vkAllocateMemory 1).1 = VK_SUCCESS ∧
  d.vkBindBufferMemory 1 = VK_SUCCESS ∧ d.vkBindBufferMemory 2 = VK_SUCCESS ∧
  (d.vkCreateBuffer 3).1 = VK_SUCCESS ∧ (d.vkAllocateMemory 2).1 = VK_SUCCESS ∧
  d.vkBindBufferMemory 3 = VK_SUCCESS ∧ d.vkMapMemory 0 = VK_SUCCESS

/-! ## Reading a trace -/

/-- The calls that record a command into a command buffer. -/
def isCmd : Call → Bool
  | .vkCmdBindPipeline .. => true
  | .vkCmdBindDescriptorSets .. => true
  | .vkCmdCopyBuffer .. => true
  | .vkCmdPipelineBarrier .. => true
  | .vkCmdDispatch .. => true
  | _ => false

/-- The commands recorded in a trace, in order. -/
def recorded (trace : List Call) : List Call := trace.filter isCmd

def isCopy : Call → Bool
  | .vkCmdCopyBuffer .. => true
  | _ => false

def isBarrier : Call → Bool
  | .vkCmdPipelineBarrier .. => true
  | _ => false

def isDispatch : Call → Bool
  | .vkCmdDispatch .. => true
  | _ => false

/-- A pipeline barrier from the transfer stage to the compute-shader stage. -/
def isUploadBarrier : Call → Bool
  | .vkCmdPipelineBarrier _ srcStageMask dstStageMask _ =>
    srcStageMask == VK_PIPELINE_STAGE_TRANSFER_BIT &&
    dstStageMask == VK_PIPELINE_STAGE_COMPUTE_SHADER_BIT
  | _ => false

/-- A pipeline barrier from the compute-shader stage to the transfer stage. -/
def isDownloadBarrier : Call → Bool
  | .vkCmdPipelineBarrier _ srcStageMask dstStageMask _ =>
    srcStageMask == VK_PIPELINE_STAGE_COMPUTE_SHADER_BIT &&
    dstStageMask == VK_PIPELINE_STAGE_TRANSFER_BIT
  | _ => false

/-- The kinds of recorded operation that section 4.4 of the specification
tells apart. -/
inductive Op where
  | copy
  | barrier
  | bindPipeline
  | bindDescriptorSet
  | dispatch
deriving DecidableEq, Repr

/-- The kind of a recorded command. -/
def opOf : Call → Option Op
  | .vkCmdBindPipeline .. => some .bindPipeline
  | .vkCmdBindDescriptorSets .. => some .bindDescriptorSet
  | .vkCmdCopyBuffer .. => some .copy
  | .vkCmdPipelineBarrier .. => some .barrier
  | .vkCmdDispatch .. => some .dispatch
  | _ => none

/-- The order of section 4.4 of the specification: the two upload copies, the
upload barrier, the two binds, the dispatch, the download barrier, the download
copy. -/
def specifiedOrder : List Op :=
  [.copy, .copy, .barrier, .bindPipeline, .bindDescriptorSet, .dispatch, .barrier, .copy]

/-- The statements of the `do` block of `RunComputeTest` that precede the
recording: the five helper functions and `vkBeginCommandBuffer`. -/
def setupSteps (d : Driver) (g : Globals) : List Step :=
  allocateSteps d g.s_vkGetBufferDeviceAddressEXT g.s_memoryProperties bufferSize
      g.s_specQueueFamilyIndex ++
    (shaderModuleSteps d ++
      (computePipelineSteps d d.vkCreateShaderModule.2 elemCount ++
        (descriptorSetsSteps d (d.vkCreateBuffer 3).2 ADDITIONAL_ADDRESS_BUFFER_SIZE
            d.vkCreateDescriptorSetLayout.2 ++
          (commandBufferSteps d g.s_specQueueFamilyIndex 1 ++ [beginStep d g]))))

/-- No step of the list records a command. -/
def noCmd (l : List Step) : Prop := ∀ st ∈ l, ∀ c ∈ st.calls, isCmd c = false

/-- The buffer and byte range that a copy command writes: destination buffer,
destination offset, size. -/
def copyWritten : Call → Option (Nat × Nat × Nat)
  | .vkCmdCopyBuffer _ _ dstBuffer region => some (dstBuffer, region.dstOffset, region.size)
  | _ => none

/-- The buffer and byte range that a copy command reads: source buffer, source
offset, size. -/
def copyRead : Call → Option (Nat × Nat × Nat)
  | .vkCmdCopyBuffer _ srcBuffer _ region => some (srcBuffer, region.srcOffset, region.size)
  | _ => none

/-- The buffer and byte range that a buffer barrier covers. -/
def barrierScope (b : VkBufferMemoryBarrier) : Nat × Nat × Nat := (b.buffer, b.offset, b.size)

/-- The buffer barriers of a pipeline-barrier command. -/
def bufferBarriersOf : Call → List VkBufferMemoryBarrier
  | .vkCmdPipelineBarrier _ _ _ bufferBarriers => bufferBarriers
  | _ => []

/-- The allocation is requested with the device-address flag: `pNext` points to
a `VkMemoryAllocateFlagsInfo` whose flags contain
`VK_MEMORY_ALLOCATE_DEVICE_ADDRESS_BIT`. -/
def hasDeviceAddressFlag (info : VkMemoryAllocateInfo) : Bool :=
  match info.pNext with
  | some flags => flags &&& VK_MEMORY_ALLOCATE_DEVICE_ADDRESS_BIT != 0
  | none => false

/-- A device environment in which every call succeeds, the device lists
`VK_KHR_buffer_device_address` and reports one compute-and-transfer queue
family. -/
def sampleEnv : DeviceEnv :=
  { InitializeInstance := (VK_SUCCESS, 1)
    vkEnumeratePhysicalDevicesCount := (VK_SUCCESS, 1)
    vkEnumeratePhysicalDevices := (VK_SUCCESS, 1)
    inputError := false
    deviceIndex := 0
    vkEnumerateDeviceExtensionPropertiesCount := (VK_SUCCESS, 2)
    vkEnumerateDeviceExtensionProperties :=
      (VK_SUCCESS, ["VK_KHR_swapchain", "VK_KHR_buffer_device_address"])
    vkGetInstanceProcAddr := none
    bufferDeviceAddress := true
    memoryProperties := sampleProperties
    queueFamilyProperties := [7]
    vkCreateDevice := (VK_SUCCESS, 2) }

/-- A call that releases a resource. -/
def isRelease : Call → Bool
  | .vkDestroyFence _ => true
  | .vkFreeCommandBuffers .. => true
  | .vkDestroyCommandPool _ => true
  | .vkDestroyDescriptorPool _ => true
  | .vkDestroyDescriptorSetLayout _ => true
  | .vkDestroyPipelineLayout _ => true
  | .vkDestroyPipeline _ => true
  | .vkDestroyShaderModule _ => true
  | .vkDestroyBuffer _ => true
  | .vkFreeMemory _ => true
  | .vkDestroyDevice _ => true
  | .vkDestroyInstance _ => true
  | _ => false

/-- One of the three messages of the result check. -/
def isMessage : Call → Bool
  | .resultError .. => true
  | .firstFiveSum _ => true
  | .sameAsElemCount => true
  | _ => false

/-! ## Reading the result check -/

/-- The message of the result check about one element. -/
def isResultError : Call → Bool
  | .resultError .. => true
  | _ => false

/-- A read-back memory whose element `i` is `2 * i` for every `i`, element 0
included. -/
def doubledBytes : Nat → Nat := fun a => ((2 * (a / 4)) / 256 ^ (a % 4)) % 256

/-- A read-back memory of zeros, except that element 2 is 9. -/
def spoiledBytes : Nat → Nat := fun a => if a = 8 then 9 else 0

/-! ## Failure of a step -/

/-- The check of a step lets the run go on: the step has no check, or its call
returned `VK_SUCCESS`. -/
def Step.passes (st : Step) : Bool :=
  match st.res with
  | some res => decide (res = VK_SUCCESS)
  | none => true

/-- The steps of the `do` block of `RunComputeTest`, in program order: those of
the five helper functions, then those of the block itself. -/
def blockSteps (d : Driver) (g : Globals) : List Step :=
  setupSteps d g ++ (recordStep d g :: completionSteps d)

/-- The accepting driver, except that the fence wait returns `VK_TIMEOUT`. -/
def timeoutDriver : Driver :=
  { acceptingDriver with vkWaitForFences := VK_TIMEOUT }

/-- The accepting driver, except that `vkAllocateCommandBuffers` fails and
leaves the command buffer handle null. -/
def noCommandBufferDriver : Driver :=
  { acceptingDriver with vkAllocateCommandBuffers := (VK_ERROR_UNKNOWN, VK_NULL_HANDLE) }

/-! ## The resources of a run and their release -/

/-- The objects that `RunComputeTest` keeps in a handle variable of its own and
releases in its release section: the four buffers, the three memory blocks, and
the seven single objects. -/
inductive Resource where
  | buffer (i : Fin 4)
  | memory (i : Fin 3)
  | shaderModule
  | descriptorSetLayout
  | pipelineLayout
  | pipeline
  | descriptorPool
  | commandPool
  | fence
deriving DecidableEq, Repr

/-- The handle variable of a resource. -/
def Resource.get (h : Handles) : Resource → Nat
  | .buffer i => h.deviceBuffers.getD i.val VK_NULL_HANDLE
  | .memory i => h.deviceMemories.getD i.val VK_NULL_HANDLE
  | .shaderModule => h.computeShaderModule
  | .descriptorSetLayout => h.descriptorSetLayout
  | .pipelineLayout => h.pipelineLayout
  | .pipeline => h.computePipeline
  | .descriptorPool => h.descriptorPool
  | .commandPool => h.commandPool
  | .fence => h.fence

/-- The result of the call that creates a resource. -/
def Resource.result (d : Driver) : Resource → VkResult
  | .buffer i => (d.vkCreateBuffer i.val).1
  | .memory i => (d.vkAllocateMemory i.val).1
  | .shaderModule => d.vkCreateShaderModule.1
  | .descriptorSetLayout => d.vkCreateDescriptorSetLayout.1
  | .pipelineLayout => d.vkCreatePipelineLayout.1
  | .pipeline => d.vkCreateComputePipelines.1
  | .descriptorPool => d.vkCreateDescriptorPool.1
  | .commandPool => d.vkCreateCommandPool.1
  | .fence => d.vkCreateFence.1

/-- The value that the call that creates a resource leaves in its handle
variable. -/
def Resource.handle (d : Driver) : Resource → Nat
  | .buffer i => (d.vkCreateBuffer i.val).2
  | .memory i => (d.vkAllocateMemory i.val).2
  | .shaderModule => d.vkCreateShaderModule.2
  | .descriptorSetLayout => d.vkCreateDescriptorSetLayout.2
  | .pipelineLayout => d.vkCreatePipelineLayout.2
  | .pipeline => d.vkCreateComputePipelines.2
  | .descriptorPool => d.vkCreateDescriptorPool.2
  | .commandPool => d.vkCreateCommandPool.2
  | .fence => d.vkCreateFence.2

/-- The resource that a call creates, if it is a creation call of one. -/
def creates : Call → Option Resource
  | .vkCreateBuffer _ slot => if h : slot < 4 then some (.buffer ⟨slot, h⟩) else none
  | .vkAllocateMemory _ slot => if h : slot < 3 then some (.memory ⟨slot, h⟩) else none
  | .vkCreateShaderModule _ => some .shaderModule
  | .vkCreateDescriptorSetLayout => some .descriptorSetLayout
  | .vkCreatePipelineLayout _ => some .pipelineLayout
  | .vkCreateComputePipelines .. => some .pipeline
  | .vkCreateDescriptorPool => some .descriptorPool
  | .vkCreateCommandPool _ => some .commandPool
  | .vkCreateFence => some .fence
  | _ => none

/-- The call creates the resource `r`. -/
def Resource.isCreation (r : Resource) (c : Call) : Bool := decide (creates c = some r)

/-- The resources whose creation calls a trace holds, in the order of the
calls. -/
def acquired (trace : List Call) : List Resource := trace.filterMap creates

/-- The resource was created: its creation call was issued and returned
`VK_SUCCESS`. -/
def created (d : Driver) (trace : List Call) (r : Resource) : Bool :=
  trace.any r.isCreation && decide (r.result d = VK_SUCCESS)

/-- The calls of the release section for one resource, read off the handles
`h`: one destroy or free call, and for the command pool the call that frees the
command buffers of the pool before it. -/
def Resource.release (h : Handles) : Resource → List Call
  | .buffer i => [Call.vkDestroyBuffer (h.deviceBuffers.getD i.val VK_NULL_HANDLE)]
  | .memory i => [Call.vkFreeMemory (h.deviceMemories.getD i.val VK_NULL_HANDLE)]
  | .shaderModule => [Call.vkDestroyShaderModule h.computeShaderModule]
  | .descriptorSetLayout => [Call.vkDestroyDescriptorSetLayout h.descriptorSetLayout]
  | .pipelineLayout => [Call.vkDestroyPipelineLayout h.pipelineLayout]
  | .pipeline => [Call.vkDestroyPipeline h.computePipeline]
  | .descriptorPool => [Call.vkDestroyDescriptorPool h.descriptorPool]
  | .commandPool =>
    [Call.vkFreeCommandBuffers h.commandPool h.commandBuffers,
     Call.vkDestroyCommandPool h.commandPool]
  | .fence => [Call.vkDestroyFence h.fence]

/-- The order of the release section of `RunComputeTest`. -/
def teardownOrder : List Resource :=
  [.fence, .commandPool, .descriptorPool, .descriptorSetLayout, .pipelineLayout, .pipeline,
   .shaderModule, .buffer 0, .buffer 1, .buffer 2, .buffer 3, .memory 0, .memory 1, .memory 2]

/-- The order in which the `do` block of `RunComputeTest` creates the
resources. -/
def acquisitionOrder : List Resource :=
  [.buffer 0, .memory 0, .buffer 1, .buffer 2, .memory 1, .buffer 3, .memory 2, .shaderModule,
   .descriptorSetLayout, .pipelineLayout, .pipeline, .descriptorPool, .commandPool, .fence]

/-- The resources that the release section releases for the handles `h`, in the
order of their release: those whose handle is not `VK_NULL_HANDLE`. -/
def releasedResources (h : Handles) : List Resource :=
  teardownOrder.filter fun r => decide (r.get h ≠ VK_NULL_HANDLE)

/-- The two handle arrays have their declared lengths. -/
def Handles.wf (h : Handles) : Prop :=
  h.deviceBuffers.length = 4 ∧ h.deviceMemories.length = 3

/-- The convention of the API on creation calls: a call that succeeds leaves a
handle that is not `VK_NULL_HANDLE`, a call that fails leaves the handle
`VK_NULL_HANDLE`. -/
def Driver.wellBehaved (d : Driver) : Prop :=
  ∀ r : Resource, r.result d = VK_SUCCESS ↔ r.handle d ≠ VK_NULL_HANDLE

/-- The handles of a state are those that the creation calls of its trace have
left: the handle of a resource is what its creation call leaves when the trace
holds that call, and `VK_NULL_HANDLE` otherwise. -/
def tracksHandles (d : Driver) (s : RunState) : Prop :=
  s.handles.wf ∧
  ∀ r : Resource, r.get s.handles =
    if s.trace.any r.isCreation = true then r.handle d else VK_NULL_HANDLE

/-- A step keeps the handles in line with the creation calls: for every
resource, either the step holds no creation call of it and leaves its handle
alone, or it holds one and stores what the call leaves. -/
def Step.tracks (d : Driver) (st : Step) : Prop :=
  ∀ h : Handles, h.wf → (st.store h).wf ∧
    ∀ r : Resource,
      (st.calls.any r.isCreation = false ∧ r.get (st.store h) = r.get h) ∨
      (st.calls.any r.isCreation = true ∧ r.get (st.store h) = r.handle d)

/-! ## Buffers as byte arrays -/

/-- The content of the buffers: for a buffer handle and an offset, the byte at
that offset. -/
abbrev Buffers := Nat → Nat → Nat

/-- A buffer copy as a byte-range copy: the `size` bytes of `srcBuffer` from
`srcOffset` are written to `dstBuffer` from `dstOffset`. -/
def execCopy (mem : Buffers) (srcBuffer dstBuffer : Nat) (region : VkBufferCopy) : Buffers :=
  fun b a =>
    if b = dstBuffer ∧ region.dstOffset ≤ a ∧ a < region.dstOffset + region.size then
      mem srcBuffer (a - region.dstOffset + region.srcOffset)
    else mem b a

/-- The effect of one recorded command on the content of the buffers: a copy
command copies its byte range, a barrier changes no byte. -/
def execCall (mem : Buffers) : Call → Buffers
  | .vkCmdCopyBuffer _ srcBuffer dstBuffer region => execCopy mem srcBuffer dstBuffer region
  | _ => mem

/-- The effect of recorded commands executed in order. -/
def execCalls (mem : Buffers) (l : List Call) : Buffers := l.foldl execCall mem

/-- A content of the buffers in which every byte tells its buffer and its
offset apart. -/
def sampleBuffers : Buffers := fun b a => (b + 3 * a) % 256

/-! ## Queue families, byte ranges and host writes -/

/-- The flags of a queue family include both `VK_QUEUE_COMPUTE_BIT` and
`VK_QUEUE_TRANSFER_BIT`. -/
def computeAndTransfer (queueFlags : Nat) : Prop :=
  queueFlags &&& VK_QUEUE_COMPUTE_BIT ≠ 0 ∧ queueFlags &&& VK_QUEUE_TRANSFER_BIT ≠ 0

instance (queueFlags : Nat) : Decidable (computeAndTransfer queueFlags) := by
  unfold computeAndTransfer
  infer_instance

/-- The sample environment on a device that reports two queue families: family
0 with `VK_QUEUE_TRANSFER_BIT` alone, family 1 with `VK_QUEUE_COMPUTE_BIT` and
`VK_QUEUE_TRANSFER_BIT`. -/
def transferFirstEnv : DeviceEnv :=
  { sampleEnv with
    queueFamilyProperties := [VK_QUEUE_TRANSFER_BIT, VK_QUEUE_COMPUTE_BIT ||| VK_QUEUE_TRANSFER_BIT] }

/-- The sample environment on a device whose only queue family has neither the
compute nor the transfer flag (flag 8, sparse binding). -/
def sparseOnlyEnv : DeviceEnv :=
  { sampleEnv with queueFamilyProperties := [8] }

/-- The byte ranges `[a, a + la)` and `[b, b + lb)` have no byte in common. -/
def rangesDisjoint (a la b lb : Nat) : Prop :=
  ∀ x, ¬ (a ≤ x ∧ x < a + la ∧ b ≤ x ∧ x < b + lb)

/-- The byte range `[a, a + la)` lies inside an allocation of `size` bytes. -/
def rangeWithin (a la size : Nat) : Prop :=
  ∀ x, a ≤ x → x < a + la → x < size

/-- A host write, given as (offset, length) from the mapped pointer, lies
inside the range of `size` bytes that the map call requested; the mapped
pointer stands for the first byte of that range. -/
def writeInside (size : Nat) (w : Nat × Nat) : Prop :=
  w.1 + w.2 ≤ size

/-- The stores of the loop over `srcMem` for `n` elements, as (offset,
length). -/
def payloadWrites (n : Nat) : List (Nat × Nat) :=
  (List.range n).map fun i => (4 * i, 4)

/-! ## The checked calls of a run -/

/-- The checked calls of a list of steps, in order: for each, the calls issued
since the check before it, the checked call last, and the result the code tests;
and the calls issued after the last check.  `pending` holds the calls issued
since the last check. -/
def checkpointsOf : List Step → List Call → List (List Call × VkResult) × List Call
  | [], pending => ([], pending)
  | st :: rest, pending =>
    match st.res with
    | some res =>
      ((pending ++ st.calls, res) :: (checkpointsOf rest []).1, (checkpointsOf rest []).2)
    | none => checkpointsOf rest (pending ++ st.calls)

/-- The twenty-seven checks of the `do` block of `RunComputeTest`, in program
order: the twelve of `AllocateMemoryAndBuffers`, the opening of the shader file
and `vkCreateShaderModule`, the three of `CreateComputePipeline`, the two of
`CreateDescriptorSets`, the two of `InitializeCommandBuffer`, then
`vkBeginCommandBuffer`, `vkEndCommandBuffer`, `vkCreateFence`, `vkQueueSubmit`,
`vkWaitForFences` and `vkMapMemory`.  Each entry holds the calls issued since
the check before it, the checked call last, and the result tested with
`!= VK_SUCCESS`. -/
def checkpoints (d : Driver) (g : Globals) : List (List Call × VkResult) :=
  [ ([.vkCreateBuffer (hostBufCreateInfo bufferSize g.s_specQueueFamilyIndex) 0],
      (d.vkCreateBuffer 0).1),
    ([.vkGetBufferMemoryRequirements (d.vkCreateBuffer 0).2,
      .vkAllocateMemory (hostMemAllocInfo g.s_memoryProperties
        (d.vkGetBufferMemoryRequirements 0)) 0],
      (d.vkAllocateMemory 0).1),
    ([.vkBindBufferMemory (d.vkCreateBuffer 0).2 (d.vkAllocateMemory 0).2 0],
      d.vkBindBufferMemory 0),
    ([.vkCreateBuffer (deviceBufCreateInfo bufferSize g.s_specQueueFamilyIndex) 1],
      (d.vkCreateBuffer 1).1),
    ([.vkCreateBuffer (deviceBufCreateInfo bufferSize g.s_specQueueFamilyIndex) 2],
      (d.vkCreateBuffer 2).1),
    ([.vkGetBufferMemoryRequirements (d.vkCreateBuffer 1).2,
      .vkAllocateMemory (deviceMemAllocInfo g.s_memoryProperties bufferSize
        (d.vkGetBufferMemoryRequirements 1)) 1],
      (d.vkAllocateMemory 1).1),
    ([.vkBindBufferMemory (d.vkCreateBuffer 1).2 (d.vkAllocateMemory 1).2 0],
      d.vkBindBufferMemory 1),
    ([.vkBindBufferMemory (d.vkCreateBuffer 2).2 (d.vkAllocateMemory 1).2 bufferSize],
      d.vkBindBufferMemory 2),
    ([.vkCreateBuffer (deviceBufCreateInfo bufferSize g.s_specQueueFamilyIndex) 3],
      (d.vkCreateBuffer 3).1),
    ([.vkGetBufferMemoryRequirements (d.vkCreateBuffer 3).2,
      .vkAllocateMemory (addressMemAllocInfo g.s_memoryProperties bufferSize
        (d.vkGetBufferMemoryRequirements 1) (d.vkGetBufferMemoryRequirements 3)) 2],
      (d.vkAllocateMemory 2).1),
    ([.vkBindBufferMemory (d.vkCreateBuffer 3).2 (d.vkAllocateMemory 2).2 0],
      d.vkBindBufferMemory 3),
    ([.vkMapMemory (d.vkAllocateMemory 0).2 0 bufferSize], d.vkMapMemory 0),
    ([(queryAddress d g.s_vkGetBufferDeviceAddressEXT (d.vkCreateBuffer 1).2).2,
      (queryAddress d g.s_vkGetBufferDeviceAddressEXT (d.vkCreateBuffer 2).2).2,
      .vkUnmapMemory (d.vkAllocateMemory 0).2],
      if d.fopen.isNone then VK_ERROR_INITIALIZATION_FAILED else VK_SUCCESS),
    ([.vkCreateShaderModule (d.fopen.getD 0)], d.vkCreateShaderModule.1),
    ([.vkCreateDescriptorSetLayout], d.vkCreateDescriptorSetLayout.1),
    ([.vkCreatePipelineLayout d.vkCreateDescriptorSetLayout.2], d.vkCreatePipelineLayout.1),
    ([.vkCreateComputePipelines d.vkCreateShaderModule.2 d.vkCreatePipelineLayout.2 elemCount],
      d.vkCreateComputePipelines.1),
    ([.vkCreateDescriptorPool], d.vkCreateDescriptorPool.1),
    ([.vkAllocateDescriptorSets d.vkCreateDescriptorPool.2 d.vkCreateDescriptorSetLayout.2],
      d.vkAllocateDescriptorSets.1),
    ([.vkUpdateDescriptorSets d.vkAllocateDescriptorSets.2 (d.vkCreateBuffer 3).2 0
        ADDITIONAL_ADDRESS_BUFFER_SIZE,
      .vkCreateCommandPool g.s_specQueueFamilyIndex],
      d.vkCreateCommandPool.1),
    ([.vkAllocateCommandBuffers d.vkCreateCommandPool.2 1], d.vkAllocateCommandBuffers.1),
    ([.vkGetDeviceQueue g.s_specQueueFamilyIndex 0,
      .vkBeginCommandBuffer d.vkAllocateCommandBuffers.2],
      d.vkBeginCommandBuffer),
    (recordCommands d.vkAllocateCommandBuffers.2 d.vkCreateComputePipelines.2
        d.vkCreatePipelineLayout.2 d.vkAllocateDescriptorSets.2 g.s_specQueueFamilyIndex
        (d.vkCreateBuffer 0).2 (d.vkCreateBuffer 1).2 (d.vkCreateBuffer 2).2
        (d.vkCreateBuffer 3).2 elemCount bufferSize ++
      [.vkEndCommandBuffer d.vkAllocateCommandBuffers.2],
      d.vkEndCommandBuffer),
    ([.vkCreateFence], d.vkCreateFence.1),
    ([.vkQueueSubmit d.vkGetDeviceQueue [d.vkAllocateCommandBuffers.2] d.vkCreateFence.2],
      d.vkQueueSubmit),
    ([.vkWaitForFences d.vkCreateFence.2 UINT64_MAX], d.vkWaitForFences),
    ([.vkMapMemory (d.vkAllocateMemory 0).2 0 bufferSize], d.vkMapMemory 1) ]

/-- The calls of the `do` block after its last check: the messages of the
result check and `vkUnmapMemory`. -/
def uncheckedTail (d : Driver) : List Call :=
  verifyResult elemCount d.readBack ++ [.vkUnmapMemory (d.vkAllocateMemory 0).2]

/-- The call `vkEndCommandBuffer`. -/
def isEndCommandBuffer : Call → Bool
  | .vkEndCommandBuffer _ => true
  | _ => false

/-- The call `vkQueueSubmit`. -/
def isQueueSubmit : Call → Bool
  | .vkQueueSubmit .. => true
  | _ => false

/-- The call `vkWaitForFences`. -/
def isFenceWait : Call → Bool
  | .vkWaitForFences .. => true
  | _ => false
/-! ## Lemmas on the selection loop -/

theorem and_one_shiftLeft_eq_zero (bits i : Nat) (hi : i < 32) :
    bits &&& ((1 <<< i) % 2 ^ 32) = 0 ↔ bits.testBit i = false := by
  have h1 : (1 <<< i) % 2 ^ 32 = 2 ^ i := by
    rw [Nat.one_shiftLeft]
    exact Nat.mod_eq_of_lt (Nat.pow_lt_pow_right (by decide) hi)
  rw [h1, Nat.and_two_pow]
  cases h : bits.testBit i <;> simp

theorem memoryTypeLoop_spec (count bits : Nat) (found : Nat → Bool) (hc : count ≤ 32) :
    ∀ fuel idx, idx + fuel = count →
      (∀ j, idx ≤ j → j < count → ¬ eligible bits found j) ∧
        memoryTypeLoop count bits found fuel idx = count ∨
      (∃ r, memoryTypeLoop count bits found fuel idx = r ∧ idx ≤ r ∧ r < count ∧
        eligible bits found r ∧ ∀ j, idx ≤ j → j < r → ¬ eligible bits found j) := by
  intro fuel
  induction fuel with
  | zero =>
    intro idx h
    left
    refine ⟨fun j h1 h2 => by omega, ?_⟩
    simp only [memoryTypeLoop]
    omega
  | succ n ih =>
    intro idx h
    have hlt : idx < count := by omega
    have h32 : idx < 32 := by omega
    have hrec := ih (idx + 1) (by omega)
    unfold memoryTypeLoop
    rw [if_pos hlt]
    by_cases hb : bits &&& ((1 <<< idx) % 2 ^ 32) = 0
    · rw [if_pos hb]
      have hbit := (and_one_shiftLeft_eq_zero bits idx h32).1 hb
      have hne : ¬ eligible bits found idx := by
        intro he
        rw [he.1] at hbit
        exact Bool.noConfusion hbit
      rcases hrec with ⟨hnone, heq⟩ | ⟨r, heq, hle, hr, hel, hmin⟩
      · left
        refine ⟨fun j h1 h2 => ?_, heq⟩
        rcases Nat.eq_or_lt_of_le h1 with h3 | h3
        · exact h3 ▸ hne
        · exact hnone j h3 h2
      · right
        refine ⟨r, heq, by omega, hr, hel, fun j h1 h2 => ?_⟩
        rcases Nat.eq_or_lt_of_le h1 with h3 | h3
        · exact h3 ▸ hne
        · exact hmin j h3 h2
    · rw [if_neg hb]
      have hbit : bits.testBit idx = true := by
        cases h' : bits.testBit idx
        · exact absurd ((and_one_shiftLeft_eq_zero bits idx h32).2 h') hb
        · rfl
      by_cases hf : found idx = true
      · rw [if_pos hf]
        right
        exact ⟨idx, rfl, Nat.le_refl _, hlt, ⟨hbit, hf⟩, fun j h1 h2 => by omega⟩
      · rw [if_neg hf]
        have hne : ¬ eligible bits found idx := fun he => hf he.2
        rcases hrec with ⟨hnone, heq⟩ | ⟨r, heq, hle, hr, hel, hmin⟩
        · left
          refine ⟨fun j h1 h2 => ?_, heq⟩
          rcases Nat.eq_or_lt_of_le h1 with h3 | h3
          · exact h3 ▸ hne
          · exact hnone j h3 h2
        · right
          refine ⟨r, heq, by omega, hr, hel, fun j h1 h2 => ?_⟩
          rcases Nat.eq_or_lt_of_le h1 with h3 | h3
          · exact h3 ▸ hne
          · exact hmin j h3 h2

/-- When some index is eligible the loop stops at the least eligible index. -/
theorem memoryTypeLoop_least (count bits : Nat) (found : Nat → Bool) (hc : count ≤ 32)
    (i : Nat) (hi : i < count) (he : eligible bits found i) :
    memoryTypeLoop count bits found count 0 < count ∧
      eligible bits found (memoryTypeLoop count bits found count 0) ∧
      ∀ j, j < memoryTypeLoop count bits found count 0 → ¬ eligible bits found j := by
  rcases memoryTypeLoop_spec count bits found hc count 0 (by omega) with
    ⟨hnone, _⟩ | ⟨r, heq, _, hr, hel, hmin⟩
  · exact absurd he (hnone i (Nat.zero_le _) hi)
  · rw [heq]
    exact ⟨hr, hel, fun j hj => hmin j (Nat.zero_le _) hj⟩

/-- When no index is eligible the loop runs off the end of the table. -/
theorem memoryTypeLoop_none (count bits : Nat) (found : Nat → Bool) (hc : count ≤ 32)
    (hnone : ∀ j, j < count → ¬ eligible bits found j) :
    memoryTypeLoop count bits found count 0 = count := by
  rcases memoryTypeLoop_spec count bits found hc count 0 (by omega) with
    ⟨_, heq⟩ | ⟨r, _, _, hr, hel, _⟩
  · exact heq
  · exact absurd hel (hnone r hr)

theorem eligible_hostVisibleFound (p : VkPhysicalDeviceMemoryProperties) (bits size i : Nat) :
    (i < p.memoryTypeCount ∧ eligible bits (hostVisibleFound p size) i) ↔
      hostCandidate p bits size i := by
  simp [eligible, hostVisibleFound, hostCandidate, and_assoc]

theorem eligible_deviceLocalFound (p : VkPhysicalDeviceMemoryProperties) (bits size i : Nat) :
    (i < p.memoryTypeCount ∧ eligible bits (deviceLocalFound p size) i) ↔
      deviceCandidate p bits size i := by
  simp [eligible, deviceLocalFound, deviceCandidate, and_assoc]

theorem hostLoop_isLeast (p : VkPhysicalDeviceMemoryProperties) (hp : p.memoryTypeCount ≤ 32)
    (bits size : Nat) (h : ∃ i, hostCandidate p bits size i) :
    IsLeast {i | hostCandidate p bits size i}
      (memoryTypeLoop p.memoryTypeCount bits (hostVisibleFound p size) p.memoryTypeCount 0) := by
  obtain ⟨i, hi⟩ := h
  have hi' := (eligible_hostVisibleFound p bits size i).2 hi
  obtain ⟨h1, h2, h3⟩ := memoryTypeLoop_least _ bits _ hp i hi'.1 hi'.2
  refine ⟨(eligible_hostVisibleFound p bits size _).1 ⟨h1, h2⟩, fun j hj => ?_⟩
  by_contra hlt
  exact h3 j (Nat.lt_of_not_le hlt) ((eligible_hostVisibleFound p bits size j).2 hj).2

theorem deviceLoop_isLeast (p : VkPhysicalDeviceMemoryProperties) (hp : p.memoryTypeCount ≤ 32)
    (bits size : Nat) (h : ∃ i, deviceCandidate p bits size i) :
    IsLeast {i | deviceCandidate p bits size i}
      (memoryTypeLoop p.memoryTypeCount bits (deviceLocalFound p size) p.memoryTypeCount 0) := by
  obtain ⟨i, hi⟩ := h
  have hi' := (eligible_deviceLocalFound p bits size i).2 hi
  obtain ⟨h1, h2, h3⟩ := memoryTypeLoop_least _ bits _ hp i hi'.1 hi'.2
  refine ⟨(eligible_deviceLocalFound p bits size _).1 ⟨h1, h2⟩, fun j hj => ?_⟩
  by_contra hlt
  exact h3 j (Nat.lt_of_not_le hlt) ((eligible_deviceLocalFound p bits size j).2 hj).2


/-! ## Lemmas on statement sequences -/

theorem runSteps_cons_some (st : Step) (rest : List Step) (s : RunState) (res : VkResult)
    (h : st.res = some res) :
    runSteps (st :: rest) s =
      if res ≠ VK_SUCCESS then (res, st.run s) else runSteps rest (st.run s) := by
  simp only [runSteps, h]

theorem runSteps_append (a b : List Step) (s : RunState) :
    runSteps (a ++ b) s =
      if (runSteps a s).1 ≠ VK_SUCCESS then runSteps a s else runSteps b (runSteps a s).2 := by
  induction a generalizing s with
  | nil => simp [runSteps]
  | cons st rest ih =>
    simp only [List.cons_append, runSteps]
    cases hres : st.res with
    | none => simpa using ih (st.run s)
    | some res =>
      by_cases hr : res = VK_SUCCESS
      · simpa [hr] using ih (st.run s)
      · simp [hr]

theorem runSteps_success_iff (l : List Step) (s : RunState) :
    (runSteps l s).1 = VK_SUCCESS ↔ ∀ st ∈ l, st.ok := by
  induction l generalizing s with
  | nil => simp [runSteps]
  | cons st rest ih =>
    simp only [runSteps, List.mem_cons, forall_eq_or_imp]
    cases hres : st.res with
    | none => simpa [Step.ok, hres] using ih (st.run s)
    | some res =>
      by_cases hr : res = VK_SUCCESS
      · simpa [Step.ok, hres, hr] using ih (st.run s)
      · simp [Step.ok, hres, hr]

/-- The state after all the steps ran. -/
theorem runSteps_of_ok (l : List Step) (s : RunState) (h : ∀ st ∈ l, st.ok) :
    runSteps l s = (VK_SUCCESS, l.foldl (fun s st => st.run s) s) := by
  induction l generalizing s with
  | nil => simp [runSteps]
  | cons st rest ih =>
    have hst : st.ok := h st (List.mem_cons_self _ _)
    have hrest : ∀ x ∈ rest, x.ok := fun x hx => h x (List.mem_cons_of_mem _ hx)
    simp only [runSteps, List.foldl_cons]
    cases hres : st.res with
    | none => simpa using ih (st.run s) hrest
    | some res =>
      have hr : res = VK_SUCCESS := hst res hres
      simpa [hr] using ih (st.run s) hrest

theorem foldl_run_trace (l : List Step) (s : RunState) :
    (l.foldl (fun s st => st.run s) s).trace = s.trace ++ (l.map Step.calls).flatten := by
  induction l generalizing s with
  | nil => simp
  | cons st rest ih =>
    rw [List.foldl_cons, ih]
    simp [Step.run]

theorem foldl_run_host (l : List Step) (s : RunState) :
    (l.foldl (fun s st => st.run s) s).host = l.foldl (fun m st => st.host m) s.host := by
  induction l generalizing s with
  | nil => simp
  | cons st rest ih =>
    rw [List.foldl_cons, ih]
    simp [Step.run]

theorem foldl_run_handles (l : List Step) (s : RunState) :
    (l.foldl (fun s st => st.run s) s).handles = l.foldl (fun h st => st.store h) s.handles := by
  induction l generalizing s with
  | nil => simp
  | cons st rest ih =>
    rw [List.foldl_cons, ih]
    simp [Step.run]

theorem runSteps_trace_of_ok (l : List Step) (s : RunState) (h : ∀ st ∈ l, st.ok) :
    (runSteps l s).2.trace = s.trace ++ (l.map Step.calls).flatten := by
  rw [runSteps_of_ok l s h]
  exact foldl_run_trace l s

/-- The calls of a run are those of an initial segment of the steps. -/
theorem runSteps_trace_prefix (l : List Step) (s : RunState) :
    ∃ k, (runSteps l s).2.trace = s.trace ++ ((l.take k).map Step.calls).flatten := by
  induction l generalizing s with
  | nil => exact ⟨0, by simp [runSteps]⟩
  | cons st rest ih =>
    obtain ⟨k, hk⟩ := ih (st.run s)
    simp only [runSteps]
    cases hres : st.res with
    | none =>
      refine ⟨k + 1, ?_⟩
      show (runSteps rest (st.run s)).2.trace = _
      rw [hk]
      simp [Step.run]
    | some res =>
      by_cases hr : res = VK_SUCCESS
      · refine ⟨k + 1, ?_⟩
        simp only [ne_eq, hr, not_true_eq_false, if_false]
        show (runSteps rest (st.run s)).2.trace = _
        rw [hk]
        simp [Step.run]
      · exact ⟨1, by simp [hr, Step.run]⟩

/-- Every call of a run was issued by one of the steps. -/
theorem mem_runSteps_trace (l : List Step) (s : RunState) (c : Call)
    (h : c ∈ (runSteps l s).2.trace) : c ∈ s.trace ∨ ∃ st ∈ l, c ∈ st.calls := by
  obtain ⟨k, hk⟩ := runSteps_trace_prefix l s
  rw [hk, List.mem_append, List.mem_flatten] at h
  rcases h with h | ⟨cs, hcs, hc⟩
  · exact Or.inl h
  · obtain ⟨st, hst, rfl⟩ := List.mem_map.1 hcs
    exact Or.inr ⟨st, List.mem_of_mem_take hst, hc⟩

theorem allocateSteps_ok_iff (d : Driver) (ext : Option (Nat → Nat))
    (p : VkPhysicalDeviceMemoryProperties) (bs q : Nat) :
    (∀ st ∈ allocateSteps d ext p bs q, st.ok) ↔ d.allocOk := by
  simp [allocateSteps, Step.ok, Driver.allocOk]

theorem AllocateMemoryAndBuffers_success_iff (d : Driver) (ext : Option (Nat → Nat))
    (p : VkPhysicalDeviceMemoryProperties) (bs q : Nat) (s : RunState) :
    (AllocateMemoryAndBuffers d ext p bs q s).1 = VK_SUCCESS ↔ d.allocOk := by
  rw [AllocateMemoryAndBuffers, runSteps_success_iff, allocateSteps_ok_iff]

/-! ## Lemmas on `AllocateMemoryAndBuffers` -/

theorem hostLoop_none (p : VkPhysicalDeviceMemoryProperties) (hp : p.memoryTypeCount ≤ 32)
    (bits size : Nat) (h : ∀ i, ¬ hostCandidate p bits size i) :
    memoryTypeLoop p.memoryTypeCount bits (hostVisibleFound p size) p.memoryTypeCount 0 =
      p.memoryTypeCount :=
  memoryTypeLoop_none _ _ _ hp fun j hj he =>
    h j ((eligible_hostVisibleFound p bits size j).1 ⟨hj, he⟩)

theorem deviceLoop_none (p : VkPhysicalDeviceMemoryProperties) (hp : p.memoryTypeCount ≤ 32)
    (bits size : Nat) (h : ∀ i, ¬ deviceCandidate p bits size i) :
    memoryTypeLoop p.memoryTypeCount bits (deviceLocalFound p size) p.memoryTypeCount 0 =
      p.memoryTypeCount :=
  memoryTypeLoop_none _ _ _ hp fun j hj he =>
    h j ((eligible_deviceLocalFound p bits size j).1 ⟨hj, he⟩)

/-- The calls of a run of `AllocateMemoryAndBuffers` in which every check passes. -/
theorem AllocateMemoryAndBuffers_of_ok (d : Driver) (ext : Option (Nat → Nat))
    (p : VkPhysicalDeviceMemoryProperties) (bs q : Nat) (s : RunState) (h : d.allocOk) :
    AllocateMemoryAndBuffers d ext p bs q s =
      (VK_SUCCESS, (allocateSteps d ext p bs q).foldl (fun s st => st.run s) s) :=
  runSteps_of_ok _ _ ((allocateSteps_ok_iff d ext p bs q).2 h)

/-- Every `vkAllocateMemory` call of `AllocateMemoryAndBuffers` is one of the
three of its text, with the allocate-info built for it. -/
theorem mem_allocate_vkAllocateMemory (d : Driver) (ext : Option (Nat → Nat))
    (p : VkPhysicalDeviceMemoryProperties) (bs q : Nat) (bytes : Nat → Nat)
    (info : VkMemoryAllocateInfo) (slot : Nat)
    (h : Call.vkAllocateMemory info slot ∈
      (AllocateMemoryAndBuffers d ext p bs q (RunState.init bytes)).2.trace) :
    (slot = 0 ∧ info = hostMemAllocInfo p (d.vkGetBufferMemoryRequirements 0)) ∨
    (slot = 1 ∧ info = deviceMemAllocInfo p bs (d.vkGetBufferMemoryRequirements 1)) ∨
    (slot = 2 ∧ info = addressMemAllocInfo p bs (d.vkGetBufferMemoryRequirements 1)
      (d.vkGetBufferMemoryRequirements 3)) := by
  rcases mem_runSteps_trace _ _ _ h with h0 | ⟨st, hst, hc⟩
  · simp [RunState.init] at h0
  · cases ext <;>
      simp only [allocateSteps, queryAddress, List.mem_cons, List.mem_singleton,
        List.not_mem_nil, or_false] at hst <;>
      rcases hst with rfl | rfl | rfl | rfl | rfl | rfl | rfl | rfl | rfl | rfl | rfl | rfl | rfl <;>
      simp at hc <;> simp [hc]

/-- Every `vkCreateBuffer` call of `AllocateMemoryAndBuffers` is one of the four
of its text, with the create-info passed to it. -/
theorem mem_allocate_vkCreateBuffer (d : Driver) (ext : Option (Nat → Nat))
    (p : VkPhysicalDeviceMemoryProperties) (bs q : Nat) (bytes : Nat → Nat)
    (info : VkBufferCreateInfo) (slot : Nat)
    (h : Call.vkCreateBuffer info slot ∈
      (AllocateMemoryAndBuffers d ext p bs q (RunState.init bytes)).2.trace) :
    (slot = 0 ∧ info = hostBufCreateInfo bs q) ∨
    ((slot = 1 ∨ slot = 2 ∨ slot = 3) ∧ info = deviceBufCreateInfo bs q) := by
  rcases mem_runSteps_trace _ _ _ h with h0 | ⟨st, hst, hc⟩
  · simp [RunState.init] at h0
  · cases ext <;>
      simp only [allocateSteps, queryAddress, List.mem_cons, List.mem_singleton,
        List.not_mem_nil, or_false] at hst <;>
      rcases hst with rfl | rfl | rfl | rfl | rfl | rfl | rfl | rfl | rfl | rfl | rfl | rfl | rfl <;>
      simp at hc <;> simp [hc]

/-- The calls of a run of `AllocateMemoryAndBuffers` in which every check passes,
in order. -/
theorem AllocateMemoryAndBuffers_trace_of_ok (d : Driver) (ext : Option (Nat → Nat))
    (p : VkPhysicalDeviceMemoryProperties) (bs q : Nat) (s : RunState) (h : d.allocOk) :
    (AllocateMemoryAndBuffers d ext p bs q s).2.trace = s.trace ++
      [Call.vkCreateBuffer (hostBufCreateInfo bs q) 0,
       Call.vkGetBufferMemoryRequirements (d.vkCreateBuffer 0).2,
       Call.vkAllocateMemory (hostMemAllocInfo p (d.vkGetBufferMemoryRequirements 0)) 0,
       Call.vkBindBufferMemory (d.vkCreateBuffer 0).2 (d.vkAllocateMemory 0).2 0,
       Call.vkCreateBuffer (deviceBufCreateInfo bs q) 1,
       Call.vkCreateBuffer (deviceBufCreateInfo bs q) 2,
       Call.vkGetBufferMemoryRequirements (d.vkCreateBuffer 1).2,
       Call.vkAllocateMemory (deviceMemAllocInfo p bs (d.vkGetBufferMemoryRequirements 1)) 1,
       Call.vkBindBufferMemory (d.vkCreateBuffer 1).2 (d.vkAllocateMemory 1).2 0,
       Call.vkBindBufferMemory (d.vkCreateBuffer 2).2 (d.vkAllocateMemory 1).2 bs,
       Call.vkCreateBuffer (deviceBufCreateInfo bs q) 3,
       Call.vkGetBufferMemoryRequirements (d.vkCreateBuffer 3).2,
       Call.vkAllocateMemory (addressMemAllocInfo p bs (d.vkGetBufferMemoryRequirements 1)
         (d.vkGetBufferMemoryRequirements 3)) 2,
       Call.vkBindBufferMemory (d.vkCreateBuffer 3).2 (d.vkAllocateMemory 2).2 0,
       Call.vkMapMemory (d.vkAllocateMemory 0).2 0 bs,
       (queryAddress d ext (d.vkCreateBuffer 1).2).2,
       (queryAddress d ext (d.vkCreateBuffer 2).2).2,
       Call.vkUnmapMemory (d.vkAllocateMemory 0).2] := by
  rw [AllocateMemoryAndBuffers_of_ok _ _ _ _ _ _ h]
  show (List.foldl (fun s st => st.run s) s (allocateSteps d ext p bs q)).trace = _
  rw [foldl_run_trace]
  simp [allocateSteps]

/-! ## Lemmas on `RunComputeTest` -/

/-- The `do` block runs the statements of the helper functions and its own, in
order, and leaves at the first check that fails. -/
theorem runBlock_eq (d : Driver) (g : Globals) (s : RunState) :
    runBlock d g s = runSteps (setupSteps d g ++ (recordStep d g :: completionSteps d)) s := by
  have h : setupSteps d g ++ (recordStep d g :: completionSteps d) =
      allocateSteps d g.s_vkGetBufferDeviceAddressEXT g.s_memoryProperties bufferSize
          g.s_specQueueFamilyIndex ++
        (shaderModuleSteps d ++
          (computePipelineSteps d d.vkCreateShaderModule.2 elemCount ++
            (descriptorSetsSteps d (d.vkCreateBuffer 3).2 ADDITIONAL_ADDRESS_BUFFER_SIZE
                d.vkCreateDescriptorSetLayout.2 ++
              (commandBufferSteps d g.s_specQueueFamilyIndex 1 ++ submitSteps d g)))) := by
    simp [setupSteps, submitSteps]
  rw [h]
  simp only [runBlock, AllocateMemoryAndBuffers, CreateShaderModule, CreateComputePipeline,
    CreateDescriptorSets, InitializeCommandBuffer, runSteps_append]

theorem recorded_append (a b : List Call) : recorded (a ++ b) = recorded a ++ recorded b := by
  simp [recorded]

theorem recorded_runSteps_noCmd (l : List Step) (s : RunState) (h : noCmd l) :
    recorded (runSteps l s).2.trace = recorded s.trace := by
  obtain ⟨k, hk⟩ := runSteps_trace_prefix l s
  rw [hk, recorded_append]
  have : recorded ((l.take k).map Step.calls).flatten = [] := by
    rw [recorded, List.filter_eq_nil_iff]
    intro c hc
    obtain ⟨cs, hcs, hc'⟩ := List.mem_flatten.1 hc
    obtain ⟨st, hst, rfl⟩ := List.mem_map.1 hcs
    simp [h st (List.mem_of_mem_take hst) c hc']
  rw [this, List.append_nil]

theorem isCmd_queryAddress (d : Driver) (ext : Option (Nat → Nat)) (b : Nat) :
    isCmd (queryAddress d ext b).2 = false := by
  cases ext <;> rfl

theorem mem_verifyLoop (n : Int) (dstMem : Nat → Nat) (fuel i : Nat) (c : Call)
    (h : c ∈ verifyLoop n dstMem fuel i) : ∃ j v, c = Call.resultError j v := by
  induction fuel generalizing i with
  | zero => simp [verifyLoop] at h
  | succ k ih =>
    unfold verifyLoop at h
    split_ifs at h with h1 h2
    · exact ⟨i, _, by simpa using h⟩
    · exact ih _ h
    · simp at h

theorem isCmd_verifyResult (n : Nat) (dstMem : Nat → Nat) (c : Call)
    (h : c ∈ verifyResult n dstMem) : isCmd c = false := by
  unfold verifyResult at h
  rcases List.mem_append.1 h with h | h
  · rcases List.mem_append.1 h with h | h
    · obtain ⟨j, v, rfl⟩ := mem_verifyLoop _ _ _ _ _ h
      rfl
    · rw [List.mem_singleton.1 h]
      rfl
  · split_ifs at h
    · rw [List.mem_singleton.1 h]
      rfl
    · simp at h

theorem noCmd_setupSteps (d : Driver) (g : Globals) : noCmd (setupSteps d g) := by
  intro st hst c hc
  simp only [setupSteps, allocateSteps, shaderModuleSteps, computePipelineSteps,
    descriptorSetsSteps, commandBufferSteps, beginStep, List.mem_append, List.mem_cons,
    List.mem_singleton, List.not_mem_nil, or_false] at hst
  rcases hst with (rfl | rfl | rfl | rfl | rfl | rfl | rfl | rfl | rfl | rfl | rfl | rfl | rfl) |
    (rfl | rfl) | (rfl | rfl | rfl) | (rfl | rfl | rfl) | (rfl | rfl) | rfl <;>
    simp at hc <;> (try rcases hc with rfl | rfl | rfl) <;>
    first | rfl | exact isCmd_queryAddress _ _ _

theorem noCmd_completionSteps (d : Driver) : noCmd (completionSteps d) := by
  intro st hst c hc
  simp only [completionSteps, List.mem_cons, List.mem_singleton, List.not_mem_nil,
    or_false] at hst
  rcases hst with rfl | rfl | rfl | rfl | rfl
  · simp at hc; rw [hc]; rfl
  · simp at hc; rw [hc]; rfl
  · simp at hc; rw [hc]; rfl
  · simp at hc; rw [hc]; rfl
  · rcases List.mem_append.1 hc with h | h
    · exact isCmd_verifyResult _ _ _ h
    · rw [List.mem_singleton.1 h]; rfl

theorem recorded_recordStep (d : Driver) (g : Globals) :
    recorded (recordStep d g).calls =
      recordCommands d.vkAllocateCommandBuffers.2 d.vkCreateComputePipelines.2
        d.vkCreatePipelineLayout.2 d.vkAllocateDescriptorSets.2 g.s_specQueueFamilyIndex
        (d.vkCreateBuffer 0).2 (d.vkCreateBuffer 1).2 (d.vkCreateBuffer 2).2
        (d.vkCreateBuffer 3).2 elemCount bufferSize := by
  simp [recordStep, recorded, recordCommands, WriteBufferAndSync, SyncAndReadBuffer, isCmd]

theorem recorded_teardown (h : Handles) : recorded (teardown h) = [] := by
  rw [recorded, List.filter_eq_nil_iff]
  intro c hc
  simp only [teardown, releaseAll, List.mem_append, List.mem_map, List.mem_filter] at hc
  rcases hc with (((((((hc | hc) | hc) | hc) | hc) | hc) | hc) | ⟨x, _, rfl⟩) | ⟨x, _, rfl⟩
  · split_ifs at hc <;> simp at hc; rw [hc]; simp [isCmd]
  · split_ifs at hc <;> simp at hc; rcases hc with rfl | rfl <;> simp [isCmd]
  · split_ifs at hc <;> simp at hc; rw [hc]; simp [isCmd]
  · split_ifs at hc <;> simp at hc; rw [hc]; simp [isCmd]
  · split_ifs at hc <;> simp at hc; rw [hc]; simp [isCmd]
  · split_ifs at hc <;> simp at hc; rw [hc]; simp [isCmd]
  · split_ifs at hc <;> simp at hc; rw [hc]; simp [isCmd]
  · simp [isCmd]
  · simp [isCmd]

/-- What a run records: nothing when a check fails before the recording, the
commands of `recordCommands` otherwise. -/
theorem recorded_runBlock (d : Driver) (g : Globals) (bytes : Nat → Nat) :
    recorded (runBlock d g (RunState.init bytes)).2.trace =
      if (runSteps (setupSteps d g) (RunState.init bytes)).1 = VK_SUCCESS then
        recordCommands d.vkAllocateCommandBuffers.2 d.vkCreateComputePipelines.2
          d.vkCreatePipelineLayout.2 d.vkAllocateDescriptorSets.2 g.s_specQueueFamilyIndex
          (d.vkCreateBuffer 0).2 (d.vkCreateBuffer 1).2 (d.vkCreateBuffer 2).2
          (d.vkCreateBuffer 3).2 elemCount bufferSize
      else [] := by
  have hpre : recorded (runSteps (setupSteps d g) (RunState.init bytes)).2.trace = [] := by
    rw [recorded_runSteps_noCmd _ _ (noCmd_setupSteps d g)]
    rfl
  rw [runBlock_eq, runSteps_append]
  by_cases hs : (runSteps (setupSteps d g) (RunState.init bytes)).1 = VK_SUCCESS
  · rw [if_neg (not_not.mpr hs), if_pos hs]
    have hrun : ∀ s : RunState, recorded (runSteps (recordStep d g :: completionSteps d) s).2.trace =
        recorded s.trace ++ recorded (recordStep d g).calls := by
      intro s
      have hres : (recordStep d g).res = some d.vkEndCommandBuffer := rfl
      rw [runSteps_cons_some _ _ _ _ hres]
      split_ifs
      · simp [Step.run, recorded_append]
      · rw [recorded_runSteps_noCmd _ _ (noCmd_completionSteps d)]
        simp [Step.run, recorded_append]
    rw [hrun, hpre, recorded_recordStep, List.nil_append]
  · rw [if_pos hs, if_neg hs, hpre]

theorem recorded_RunComputeTest (d : Driver) (g : Globals) (bytes : Nat → Nat) :
    recorded (RunComputeTest d g bytes).trace =
      if (runSteps (setupSteps d g) (RunState.init bytes)).1 = VK_SUCCESS then
        recordCommands d.vkAllocateCommandBuffers.2 d.vkCreateComputePipelines.2
          d.vkCreatePipelineLayout.2 d.vkAllocateDescriptorSets.2 g.s_specQueueFamilyIndex
          (d.vkCreateBuffer 0).2 (d.vkCreateBuffer 1).2 (d.vkCreateBuffer 2).2
          (d.vkCreateBuffer 3).2 elemCount bufferSize
      else [] := by
  show recorded ((runBlock d g (RunState.init bytes)).2.trace ++ teardown _) = _
  rw [recorded_append, recorded_teardown, List.append_nil, recorded_runBlock]

/-- A run whose `do` block ends with `VK_SUCCESS` passed every check before the
recording. -/
theorem setup_success_of_runBlock_success (d : Driver) (g : Globals) (s : RunState)
    (h : (runBlock d g s).1 = VK_SUCCESS) : (runSteps (setupSteps d g) s).1 = VK_SUCCESS := by
  rw [runBlock_eq, runSteps_success_iff] at h
  rw [runSteps_success_iff]
  exact fun st hst => h st (List.mem_append_left _ hst)

theorem acceptingDriver_runBlock_success (g : Globals) (bytes : Nat → Nat) :
    (runBlock acceptingDriver g (RunState.init bytes)).1 = VK_SUCCESS := by
  rw [runBlock_eq, runSteps_success_iff]
  simp [setupSteps, allocateSteps, shaderModuleSteps, computePipelineSteps, descriptorSetsSteps,
    commandBufferSteps, beginStep, recordStep, completionSteps, Step.ok, acceptingDriver]

theorem recorded_flatten_noCmd (l : List Step) (h : noCmd l) :
    recorded (l.map Step.calls).flatten = [] := by
  rw [recorded, List.filter_eq_nil_iff]
  intro c hc
  obtain ⟨cs, hcs, hc'⟩ := List.mem_flatten.1 hc
  obtain ⟨st, hst, rfl⟩ := List.mem_map.1 hcs
  simp [h st hst c hc']

/-- In a run whose `do` block ends with `VK_SUCCESS` the trace is: calls that
record nothing, `vkBeginCommandBuffer`, the calls of the recording step (which
end with `vkEndCommandBuffer`), and again calls that record nothing. -/
theorem trace_of_runBlock_success (d : Driver) (g : Globals) (bytes : Nat → Nat)
    (h : (runBlock d g (RunState.init bytes)).1 = VK_SUCCESS) :
    ∃ pre post, (RunComputeTest d g bytes).trace =
        pre ++ Call.vkBeginCommandBuffer d.vkAllocateCommandBuffers.2 ::
          ((recordStep d g).calls ++ post) ∧
      recorded pre = [] ∧ recorded post = [] := by
  have hok := h
  rw [runBlock_eq, runSteps_success_iff] at hok
  have htrace : (runBlock d g (RunState.init bytes)).2.trace =
      ((setupSteps d g ++ (recordStep d g :: completionSteps d)).map Step.calls).flatten := by
    rw [runBlock_eq, runSteps_trace_of_ok _ _ hok]
    exact List.nil_append _
  have hsetup := recorded_flatten_noCmd _ (noCmd_setupSteps d g)
  have hsplit : ((setupSteps d g).map Step.calls).flatten =
      ((setupSteps d g).map Step.calls).flatten.dropLast ++
        [Call.vkBeginCommandBuffer d.vkAllocateCommandBuffers.2] := by
    have hlast : ((setupSteps d g).map Step.calls).flatten.getLast? =
        some (Call.vkBeginCommandBuffer d.vkAllocateCommandBuffers.2) := by
      simp [setupSteps, beginStep]
    exact (List.dropLast_append_getLast? _ hlast).symm
  refine ⟨((setupSteps d g).map Step.calls).flatten.dropLast,
    ((completionSteps d).map Step.calls).flatten ++
      teardown (runBlock d g (RunState.init bytes)).2.handles, ?_, ?_, ?_⟩
  · show (runBlock d g (RunState.init bytes)).2.trace ++ teardown _ = _
    rw [htrace, List.map_append, List.flatten_append, List.map_cons, List.flatten_cons]
    conv_lhs => rw [hsplit]
    simp only [List.append_assoc, List.singleton_append, List.cons_append, List.nil_append]
  · rw [hsplit, recorded_append] at hsetup
    exact (List.append_eq_nil.1 hsetup).1
  · rw [recorded_append, recorded_flatten_noCmd _ (noCmd_completionSteps d), recorded_teardown]
    rfl

/-! ## Lemmas on the staging memory -/

theorem AllocateMemoryAndBuffers_host_of_ok (d : Driver) (ext : Option (Nat → Nat))
    (p : VkPhysicalDeviceMemoryProperties) (bs q : Nat) (s : RunState) (h : d.allocOk) :
    (AllocateMemoryAndBuffers d ext p bs q s).2.host =
      initStaging bs (queryAddress d ext (d.vkCreateBuffer 1).2).1
        (queryAddress d ext (d.vkCreateBuffer 2).2).1 s.host := by
  rw [AllocateMemoryAndBuffers_of_ok _ _ _ _ _ _ h]
  show (List.foldl (fun s st => st.run s) s (allocateSteps d ext p bs q)).host = _
  rw [foldl_run_host]
  simp [allocateSteps]

theorem AllocateMemoryAndBuffers_handles_of_ok (d : Driver) (ext : Option (Nat → Nat))
    (p : VkPhysicalDeviceMemoryProperties) (bs q : Nat) (bytes : Nat → Nat) (h : d.allocOk) :
    (AllocateMemoryAndBuffers d ext p bs q (RunState.init bytes)).2.handles =
      { Handles.init with
        deviceBuffers := [(d.vkCreateBuffer 0).2, (d.vkCreateBuffer 1).2, (d.vkCreateBuffer 2).2,
          (d.vkCreateBuffer 3).2]
        deviceMemories := [(d.vkAllocateMemory 0).2, (d.vkAllocateMemory 1).2,
          (d.vkAllocateMemory 2).2] } := by
  rw [AllocateMemoryAndBuffers_of_ok _ _ _ _ _ _ h]
  show (List.foldl (fun s st => st.run s) (RunState.init bytes) (allocateSteps d ext p bs q)).handles
    = _
  rw [foldl_run_handles]
  simp [allocateSteps, RunState.init, Handles.init, Handles.setBuffer, Handles.setMemory]

/-- The bytes of the address-table region after `initStaging`. -/
theorem initStaging_bytes (bs a0 a1 : Nat) (m : HostMem) (j : Nat) (hj : j < 64) :
    (initStaging bs a0 a1 m).bytes (bs + j) =
      if j < 8 then (a0 / 256 ^ j) % 256
      else if j < 16 then (a1 / 256 ^ (j - 8)) % 256
      else 0 := by
  have e1 : bs + j - (bs + 8 * 1) = j - 8 := by omega
  have e0 : bs + j - (bs + 8 * 0) = j := by omega
  simp only [initStaging, HostMem.store, HostMem.memset, ADDITIONAL_ADDRESS_BUFFER_SIZE, e1, e0]
  split_ifs <;> first | rfl | omega

theorem loadBytes_eight (bytes : Nat → Nat) (off : Nat) :
    loadBytes bytes off 8 =
      bytes off % 256 + 256 * (bytes (off + 1) % 256 + 256 * (bytes (off + 2) % 256 +
        256 * (bytes (off + 3) % 256 + 256 * (bytes (off + 4) % 256 +
          256 * (bytes (off + 5) % 256 + 256 * (bytes (off + 6) % 256 +
            256 * (bytes (off + 7) % 256))))))) := by
  simp [loadBytes, Nat.add_assoc]

/-- The eight entries of the address table after `initStaging`. -/
theorem loadAddress_initStaging (bs a0 a1 : Nat) (m : HostMem) (ha0 : a0 < 2 ^ 64)
    (ha1 : a1 < 2 ^ 64) :
    loadAddress (initStaging bs a0 a1 m).bytes bs 0 = a0 ∧
    loadAddress (initStaging bs a0 a1 m).bytes bs 1 = a1 ∧
    ∀ i, 2 ≤ i → i < 8 → loadAddress (initStaging bs a0 a1 m).bytes bs i = 0 := by
  refine ⟨?_, ?_, fun i h2 h8 => ?_⟩
  · rw [loadAddress, loadBytes_eight]
    simp only [Nat.add_assoc]
    rw [initStaging_bytes bs a0 a1 m _ (by omega), initStaging_bytes bs a0 a1 m _ (by omega),
      initStaging_bytes bs a0 a1 m _ (by omega), initStaging_bytes bs a0 a1 m _ (by omega),
      initStaging_bytes bs a0 a1 m _ (by omega), initStaging_bytes bs a0 a1 m _ (by omega),
      initStaging_bytes bs a0 a1 m _ (by omega), initStaging_bytes bs a0 a1 m _ (by omega)]
    norm_num
    omega
  · rw [loadAddress, loadBytes_eight]
    simp only [Nat.add_assoc]
    rw [initStaging_bytes bs a0 a1 m _ (by omega), initStaging_bytes bs a0 a1 m _ (by omega),
      initStaging_bytes bs a0 a1 m _ (by omega), initStaging_bytes bs a0 a1 m _ (by omega),
      initStaging_bytes bs a0 a1 m _ (by omega), initStaging_bytes bs a0 a1 m _ (by omega),
      initStaging_bytes bs a0 a1 m _ (by omega), initStaging_bytes bs a0 a1 m _ (by omega)]
    norm_num
    omega
  · rw [loadAddress, loadBytes_eight]
    simp only [Nat.add_assoc]
    rw [initStaging_bytes bs a0 a1 m _ (by omega), initStaging_bytes bs a0 a1 m _ (by omega),
      initStaging_bytes bs a0 a1 m _ (by omega), initStaging_bytes bs a0 a1 m _ (by omega),
      initStaging_bytes bs a0 a1 m _ (by omega), initStaging_bytes bs a0 a1 m _ (by omega),
      initStaging_bytes bs a0 a1 m _ (by omega), initStaging_bytes bs a0 a1 m _ (by omega)]
    simp only [show ¬ 8 * i < 8 by omega, show ¬ 8 * i < 16 by omega,
      show ¬ 8 * i + 1 < 8 by omega, show ¬ 8 * i + 1 < 16 by omega,
      show ¬ 8 * i + 2 < 8 by omega, show ¬ 8 * i + 2 < 16 by omega,
      show ¬ 8 * i + 3 < 8 by omega, show ¬ 8 * i + 3 < 16 by omega,
      show ¬ 8 * i + 4 < 8 by omega, show ¬ 8 * i + 4 < 16 by omega,
      show ¬ 8 * i + 5 < 8 by omega, show ¬ 8 * i + 5 < 16 by omega,
      show ¬ 8 * i + 6 < 8 by omega, show ¬ 8 * i + 6 < 16 by omega,
      show ¬ 8 * i + 7 < 8 by omega, show ¬ 8 * i + 7 < 16 by omega, if_false]

/-! ## Lemmas on device initialization and `main` -/

theorem VK_ERROR_DEVICE_LOST_ne : VK_ERROR_DEVICE_LOST ≠ VK_SUCCESS := by decide

theorem VK_ERROR_UNKNOWN_ne : VK_ERROR_UNKNOWN ≠ VK_SUCCESS := by decide

theorem isMessage_of_mem_verifyResult (n : Nat) (dstMem : Nat → Nat) (c : Call)
    (h : c ∈ verifyResult n dstMem) : isMessage c = true := by
  unfold verifyResult at h
  rcases List.mem_append.1 h with h | h
  · rcases List.mem_append.1 h with h | h
    · obtain ⟨j, v, rfl⟩ := mem_verifyLoop _ _ _ _ _ h
      rfl
    · rw [List.mem_singleton.1 h]
      rfl
  · split_ifs at h
    · rw [List.mem_singleton.1 h]
      rfl
    · simp at h

theorem isRelease_of_mem_teardown (h : Handles) (c : Call) (hc : c ∈ teardown h) :
    isRelease c = true := by
  simp only [teardown, releaseAll, List.mem_append, List.mem_map, List.mem_filter] at hc
  rcases hc with (((((((hc | hc) | hc) | hc) | hc) | hc) | hc) | ⟨x, _, rfl⟩) | ⟨x, _, rfl⟩
  · split_ifs at hc <;> simp at hc; rw [hc]; rfl
  · split_ifs at hc <;> simp at hc; rcases hc with rfl | rfl <;> rfl
  · split_ifs at hc <;> simp at hc; rw [hc]; rfl
  · split_ifs at hc <;> simp at hc; rw [hc]; rfl
  · split_ifs at hc <;> simp at hc; rw [hc]; rfl
  · split_ifs at hc <;> simp at hc; rw [hc]; rfl
  · split_ifs at hc <;> simp at hc; rw [hc]; rfl
  · rfl
  · rfl

/-- C1: for every memory-property table with at most 32 types, every type
bitmask and every requested size, each of the three selection loops of
`AllocateMemoryAndBuffers` ends at the lowest index that is compatible, has the
required property flags and whose heap is large enough, whenever such an index
exists (the requested size of the second loop is `deviceMemTotalSize`). -/
theorem C1_selection_ends_at_lowest_qualifying_index (p : VkPhysicalDeviceMemoryProperties)
    (hp : p.memoryTypeCount ≤ 32) (req : VkMemoryRequirements) (bufferSize : Nat) :
    ((∃ i, hostCandidate p req.memoryTypeBits req.size i) →
      IsLeast {i | hostCandidate p req.memoryTypeBits req.size i} (hostMemoryTypeIndex p req)) ∧
    ((∃ i, deviceCandidate p req.memoryTypeBits (deviceMemTotalSize bufferSize req) i) →
      IsLeast {i | deviceCandidate p req.memoryTypeBits (deviceMemTotalSize bufferSize req) i}
        (deviceMemoryTypeIndex p bufferSize req)) ∧
    ((∃ i, deviceCandidate p req.memoryTypeBits req.size i) →
      IsLeast {i | deviceCandidate p req.memoryTypeBits req.size i}
        (addressMemoryTypeIndex p req)) :=
  ⟨hostLoop_isLeast p hp _ _, deviceLoop_isLeast p hp _ _, deviceLoop_isLeast p hp _ _⟩

theorem sample_hostCandidate : hostCandidate sampleProperties 7 100 1 := by
  refine ⟨by decide, by decide, by decide, by decide, ?_⟩
  show (100 : Nat) ≤ 4096
  decide

theorem sample_deviceCandidate (size : Nat) (h : size ≤ 4096) :
    deviceCandidate sampleProperties 7 size 0 :=
  ⟨by decide, by decide, by decide, h⟩

/-- Witness of C1: on the sample table the staging loop ends at index 1 and both
device-local loops end at index 0, each the least qualifying index. -/
theorem C1_witness :
    sampleProperties.memoryTypeCount ≤ 32 ∧
    (∃ i, hostCandidate sampleProperties sampleRequirements.memoryTypeBits
      sampleRequirements.size i) ∧
    hostMemoryTypeIndex sampleProperties sampleRequirements = 1 ∧
    deviceMemoryTypeIndex sampleProperties 50 sampleRequirements = 0 ∧
    IsLeast {i | hostCandidate sampleProperties sampleRequirements.memoryTypeBits
      sampleRequirements.size i} (hostMemoryTypeIndex sampleProperties sampleRequirements) ∧
    IsLeast {i | deviceCandidate sampleProperties sampleRequirements.memoryTypeBits
      (deviceMemTotalSize 50 sampleRequirements) i}
      (deviceMemoryTypeIndex sampleProperties 50 sampleRequirements) ∧
    IsLeast {i | deviceCandidate sampleProperties sampleRequirements.memoryTypeBits
      sampleRequirements.size i} (addressMemoryTypeIndex sampleProperties sampleRequirements) :=
  have h := C1_selection_ends_at_lowest_qualifying_index sampleProperties (by decide)
    sampleRequirements 50
  ⟨by decide, ⟨1, sample_hostCandidate⟩, by decide, by decide,
    h.1 ⟨1, sample_hostCandidate⟩,
    h.2.1 ⟨0, sample_deviceCandidate _ (by decide)⟩,
    h.2.2 ⟨0, sample_deviceCandidate _ (by decide)⟩⟩

theorem incompatibleDriver_allocOk : incompatibleDriver.allocOk := by
  simp [Driver.allocOk, incompatibleDriver, acceptingDriver]

theorem no_hostCandidate_of_zero_bits (p : VkPhysicalDeviceMemoryProperties) (size i : Nat) :
    ¬ hostCandidate p 0 size i := by
  simp [hostCandidate]

theorem no_deviceCandidate_of_zero_bits (p : VkPhysicalDeviceMemoryProperties) (size i : Nat) :
    ¬ deviceCandidate p 0 size i := by
  simp [deviceCandidate]

theorem incompatible_trace_mem :
    Call.vkAllocateMemory { pNext := none, allocationSize := 100, memoryTypeIndex := 3 } 0 ∈
      (AllocateMemoryAndBuffers incompatibleDriver none sampleProperties 16 0
        (RunState.init fun _ => 0)).2.trace := by
  rw [AllocateMemoryAndBuffers_trace_of_ok _ _ _ _ _ _ incompatibleDriver_allocOk]
  have h : hostMemAllocInfo sampleProperties (incompatibleDriver.vkGetBufferMemoryRequirements 0) =
      { pNext := none, allocationSize := 100, memoryTypeIndex := 3 } := by decide
  rw [h]
  simp

/-- C2, counterexample: with the sample table and buffers that report an empty
type bitmask no index qualifies for any of the three selections, yet
`AllocateMemoryAndBuffers` returns `VK_SUCCESS`, and the staging allocation was
requested with memory-type index 3, the number of memory types. -/
theorem C2_counterexample :
    (∀ size i, ¬ hostCandidate sampleProperties 0 size i) ∧
    (∀ size i, ¬ deviceCandidate sampleProperties 0 size i) ∧
    (AllocateMemoryAndBuffers incompatibleDriver none sampleProperties 16 0
      (RunState.init fun _ => 0)).1 = VK_SUCCESS ∧
    Call.vkAllocateMemory { pNext := none, allocationSize := 100, memoryTypeIndex := 3 } 0 ∈
      (AllocateMemoryAndBuffers incompatibleDriver none sampleProperties 16 0
        (RunState.init fun _ => 0)).2.trace :=
  ⟨no_hostCandidate_of_zero_bits _, no_deviceCandidate_of_zero_bits _,
    (AllocateMemoryAndBuffers_success_iff _ _ _ _ _ _).2 incompatibleDriver_allocOk,
    incompatible_trace_mem⟩

/-- C2, amended: the selection never fails.  `AllocateMemoryAndBuffers` returns
`VK_SUCCESS` exactly when each of its twelve checked API calls does, and whenever
no index qualifies for a selection and the allocation that follows it is
requested, it is requested with memory-type index `memoryTypeCount`. -/
theorem C2_selection_without_match_runs_off_the_table (d : Driver) (ext : Option (Nat → Nat))
    (p : VkPhysicalDeviceMemoryProperties) (hp : p.memoryTypeCount ≤ 32) (bs q : Nat)
    (bytes : Nat → Nat) :
    ((AllocateMemoryAndBuffers d ext p bs q (RunState.init bytes)).1 = VK_SUCCESS ↔ d.allocOk) ∧
    ∀ info slot, Call.vkAllocateMemory info slot ∈
        (AllocateMemoryAndBuffers d ext p bs q (RunState.init bytes)).2.trace →
      (slot = 0 →
        (∀ i, ¬ hostCandidate p (d.vkGetBufferMemoryRequirements 0).memoryTypeBits
          (d.vkGetBufferMemoryRequirements 0).size i) →
        info.memoryTypeIndex = p.memoryTypeCount) ∧
      (slot = 1 →
        (∀ i, ¬ deviceCandidate p (d.vkGetBufferMemoryRequirements 1).memoryTypeBits
          (deviceMemTotalSize bs (d.vkGetBufferMemoryRequirements 1)) i) →
        info.memoryTypeIndex = p.memoryTypeCount) ∧
      (slot = 2 →
        (∀ i, ¬ deviceCandidate p (d.vkGetBufferMemoryRequirements 3).memoryTypeBits
          (d.vkGetBufferMemoryRequirements 3).size i) →
        info.memoryTypeIndex = p.memoryTypeCount) := by
  refine ⟨AllocateMemoryAndBuffers_success_iff _ _ _ _ _ _, fun info slot h => ?_⟩
  rcases mem_allocate_vkAllocateMemory d ext p bs q bytes info slot h with
    ⟨rfl, rfl⟩ | ⟨rfl, rfl⟩ | ⟨rfl, rfl⟩
  · exact ⟨fun _ hn => hostLoop_none p hp _ _ hn, fun h1 => absurd h1 (by decide),
      fun h1 => absurd h1 (by decide)⟩
  · exact ⟨fun h1 => absurd h1 (by decide), fun _ hn => deviceLoop_none p hp _ _ hn,
      fun h1 => absurd h1 (by decide)⟩
  · exact ⟨fun h1 => absurd h1 (by decide), fun h1 => absurd h1 (by decide),
      fun _ hn => deviceLoop_none p hp _ _ hn⟩

/-- Witness of C2, amended: the run of the counterexample. -/
theorem C2_witness :
    sampleProperties.memoryTypeCount ≤ 32 ∧
    Call.vkAllocateMemory { pNext := none, allocationSize := 100, memoryTypeIndex := 3 } 0 ∈
      (AllocateMemoryAndBuffers incompatibleDriver none sampleProperties 16 0
        (RunState.init fun _ => 0)).2.trace ∧
    (∀ i, ¬ hostCandidate sampleProperties
      (incompatibleDriver.vkGetBufferMemoryRequirements 0).memoryTypeBits
      (incompatibleDriver.vkGetBufferMemoryRequirements 0).size i) ∧
    (3 : Nat) = sampleProperties.memoryTypeCount :=
  ⟨by decide, incompatible_trace_mem, fun i => no_hostCandidate_of_zero_bits _ _ i,
    ((C2_selection_without_match_runs_off_the_table incompatibleDriver none sampleProperties
      (by decide) 16 0 (fun _ => 0)).2 _ 0 incompatible_trace_mem).1 rfl
      (fun i => no_hostCandidate_of_zero_bits _ _ i)⟩

/-! ## The recorded command sequence -/

/-- C3, counterexample: in the successful run with the accepting driver the
kinds of the recorded commands are not in the order of the specification: the
two binds are recorded first, before the upload copies and the upload barrier. -/
theorem C3_counterexample :
    (runBlock acceptingDriver sampleGlobals (RunState.init fun _ => 0)).1 = VK_SUCCESS ∧
    (recorded (RunComputeTest acceptingDriver sampleGlobals fun _ => 0).trace).filterMap opOf =
      [.bindPipeline, .bindDescriptorSet, .copy, .copy, .barrier, .dispatch, .barrier, .copy] ∧
    (recorded (RunComputeTest acceptingDriver sampleGlobals fun _ => 0).trace).filterMap opOf ≠
      specifiedOrder := by
  have hs := acceptingDriver_runBlock_success sampleGlobals (fun _ => 0)
  have hrec := recorded_RunComputeTest acceptingDriver sampleGlobals (fun _ => 0)
  rw [if_pos (setup_success_of_runBlock_success _ _ _ hs)] at hrec
  rw [hrec]
  exact ⟨hs, rfl, by decide⟩

/-- C3, amended: in every successful run the commands recorded into the command
buffer are, in this order: bind compute pipeline, bind descriptor set, copy
staging to working buffer `deviceBuffers[2]` (payload), copy staging to the
address-table buffer, upload barrier, dispatch, download barrier, copy working
buffer `deviceBuffers[1]` to staging; they are recorded between
`vkBeginCommandBuffer` and `vkEndCommandBuffer`, and nothing is recorded before
or after. -/
theorem C3_recorded_sequence_binds_first (d : Driver) (g : Globals) (bytes : Nat → Nat)
    (h : (runBlock d g (RunState.init bytes)).1 = VK_SUCCESS) :
    recorded (RunComputeTest d g bytes).trace =
      [Call.vkCmdBindPipeline d.vkAllocateCommandBuffers.2 d.vkCreateComputePipelines.2,
       Call.vkCmdBindDescriptorSets d.vkAllocateCommandBuffers.2 d.vkCreatePipelineLayout.2
         d.vkAllocateDescriptorSets.2,
       Call.vkCmdCopyBuffer d.vkAllocateCommandBuffers.2 (d.vkCreateBuffer 0).2
         (d.vkCreateBuffer 2).2 { srcOffset := 0, dstOffset := 0, size := bufferSize },
       Call.vkCmdCopyBuffer d.vkAllocateCommandBuffers.2 (d.vkCreateBuffer 0).2
         (d.vkCreateBuffer 3).2
         { srcOffset := bufferSize, dstOffset := 0, size := ADDITIONAL_ADDRESS_BUFFER_SIZE },
       Call.vkCmdPipelineBarrier d.vkAllocateCommandBuffers.2 VK_PIPELINE_STAGE_TRANSFER_BIT
         VK_PIPELINE_STAGE_COMPUTE_SHADER_BIT
         [{ srcAccessMask := VK_ACCESS_TRANSFER_WRITE_BIT
            dstAccessMask := VK_ACCESS_SHADER_READ_BIT
            srcQueueFamilyIndex := g.s_specQueueFamilyIndex
            dstQueueFamilyIndex := g.s_specQueueFamilyIndex
            buffer := (d.vkCreateBuffer 2).2, offset := 0, size := bufferSize },
          { srcAccessMask := VK_ACCESS_TRANSFER_WRITE_BIT
            dstAccessMask := VK_ACCESS_SHADER_READ_BIT
            srcQueueFamilyIndex := g.s_specQueueFamilyIndex
            dstQueueFamilyIndex := g.s_specQueueFamilyIndex
            buffer := (d.vkCreateBuffer 3).2, offset := 0
            size := ADDITIONAL_ADDRESS_BUFFER_SIZE }],
       Call.vkCmdDispatch d.vkAllocateCommandBuffers.2 (elemCount / 1024) 1 1,
       Call.vkCmdPipelineBarrier d.vkAllocateCommandBuffers.2
         VK_PIPELINE_STAGE_COMPUTE_SHADER_BIT VK_PIPELINE_STAGE_TRANSFER_BIT
         [{ srcAccessMask := VK_ACCESS_SHADER_WRITE_BIT
            dstAccessMask := VK_ACCESS_TRANSFER_READ_BIT
            srcQueueFamilyIndex := g.s_specQueueFamilyIndex
            dstQueueFamilyIndex := g.s_specQueueFamilyIndex
            buffer := (d.vkCreateBuffer 1).2, offset := 0, size := bufferSize }],
       Call.vkCmdCopyBuffer d.vkAllocateCommandBuffers.2 (d.vkCreateBuffer 1).2
         (d.vkCreateBuffer 0).2 { srcOffset := 0, dstOffset := 0, size := bufferSize }] ∧
    ∃ pre post, (RunComputeTest d g bytes).trace =
        pre ++ Call.vkBeginCommandBuffer d.vkAllocateCommandBuffers.2 ::
          (recorded (RunComputeTest d g bytes).trace ++
            Call.vkEndCommandBuffer d.vkAllocateCommandBuffers.2 :: post) ∧
      recorded pre = [] ∧ recorded post = [] := by
  have hrec := recorded_RunComputeTest d g bytes
  rw [if_pos (setup_success_of_runBlock_success _ _ _ h)] at hrec
  refine ⟨hrec, ?_⟩
  obtain ⟨pre, post, htr, hpre, hpost⟩ := trace_of_runBlock_success d g bytes h
  refine ⟨pre, post, ?_, hpre, hpost⟩
  rw [hrec, htr]
  simp only [recordStep, List.append_assoc, List.singleton_append]

/-- Witness of C3, amended: the successful run with the accepting driver starts
its recording with the bind of the pipeline. -/
theorem C3_witness :
    (runBlock acceptingDriver sampleGlobals (RunState.init fun _ => 0)).1 = VK_SUCCESS ∧
    (recorded (RunComputeTest acceptingDriver sampleGlobals fun _ => 0).trace).head? =
      some (Call.vkCmdBindPipeline 38 34) := by
  have hs := acceptingDriver_runBlock_success sampleGlobals (fun _ => 0)
  refine ⟨hs, ?_⟩
  rw [(C3_recorded_sequence_binds_first acceptingDriver sampleGlobals (fun _ => 0) hs).1]
  rfl

theorem acceptingDriver_recorded_ne_nil :
    recorded (RunComputeTest acceptingDriver sampleGlobals fun _ => 0).trace ≠ [] := by
  rw [recorded_RunComputeTest, if_pos (setup_success_of_runBlock_success _ _ _
    (acceptingDriver_runBlock_success sampleGlobals fun _ => 0))]
  simp [recordCommands]

/-- C4: in every run that records commands there is exactly one dispatch and
there are exactly two pipeline barriers; the recorded sequence ends with the two
upload copies out of the staging buffer, the transfer-to-compute barrier, the
dispatch, the compute-to-transfer barrier and the download copy into the staging
buffer, in this order, and nothing recorded before them is a copy, a barrier or a
dispatch. -/
theorem C4_one_dispatch_between_two_barriers (d : Driver) (g : Globals) (bytes : Nat → Nat)
    (h : recorded (RunComputeTest d g bytes).trace ≠ []) :
    (recorded (RunComputeTest d g bytes).trace).countP isDispatch = 1 ∧
    (recorded (RunComputeTest d g bytes).trace).countP isBarrier = 2 ∧
    ∃ pre cb staging working2 addressTable working1 r1 r2 r3 bars1 bars2 x y z,
      recorded (RunComputeTest d g bytes).trace = pre ++
        [Call.vkCmdCopyBuffer cb staging working2 r1,
         Call.vkCmdCopyBuffer cb staging addressTable r2,
         Call.vkCmdPipelineBarrier cb VK_PIPELINE_STAGE_TRANSFER_BIT
           VK_PIPELINE_STAGE_COMPUTE_SHADER_BIT bars1,
         Call.vkCmdDispatch cb x y z,
         Call.vkCmdPipelineBarrier cb VK_PIPELINE_STAGE_COMPUTE_SHADER_BIT
           VK_PIPELINE_STAGE_TRANSFER_BIT bars2,
         Call.vkCmdCopyBuffer cb working1 staging r3] ∧
      staging = (d.vkCreateBuffer 0).2 ∧
      ∀ c ∈ pre, isCopy c = false ∧ isBarrier c = false ∧ isDispatch c = false := by
  rw [recorded_RunComputeTest] at h ⊢
  split_ifs at h ⊢ with hs
  · refine ⟨rfl, rfl, [Call.vkCmdBindPipeline _ _, Call.vkCmdBindDescriptorSets _ _ _],
      _, _, _, _, _, _, _, _, _, _, _, _, _, rfl, rfl, ?_⟩
    intro c hc
    simp only [List.mem_cons, List.mem_singleton, List.not_mem_nil, or_false] at hc
    rcases hc with rfl | rfl <;> exact ⟨rfl, rfl, rfl⟩
  · exact absurd rfl h

/-- Witness of C4: the run with the accepting driver records commands, one of
which is a dispatch. -/
theorem C4_witness :
    recorded (RunComputeTest acceptingDriver sampleGlobals fun _ => 0).trace ≠ [] ∧
    (recorded (RunComputeTest acceptingDriver sampleGlobals fun _ => 0).trace).countP
      isDispatch = 1 :=
  ⟨acceptingDriver_recorded_ne_nil,
    (C4_one_dispatch_between_two_barriers acceptingDriver sampleGlobals (fun _ => 0)
      acceptingDriver_recorded_ne_nil).1⟩

/-- C5: for every payload size and queue family index, `WriteBufferAndSync`
records two copies and one transfer-to-compute barrier whose buffer barriers
cover exactly the buffers and byte ranges the two copies wrote (`[0, size)` of
the working buffer, `[0, 64)` of the address-table buffer), each with access
transfer-write to shader-read; `SyncAndReadBuffer` records one
compute-to-transfer barrier whose single buffer barrier covers exactly the buffer
and byte range `[0, size)` that the copy after it reads, with access
shader-write to transfer-read; every buffer barrier of either function, and so
every buffer barrier recorded by a run, has equal source and destination queue
family. -/
theorem C5_barriers_cover_the_copied_ranges (cb queueFamilyIndex working addressTable staging
    result size : Nat) (d : Driver) (g : Globals) (bytes : Nat → Nat) :
    (∃ c1 c2 bars,
      WriteBufferAndSync cb queueFamilyIndex working addressTable staging size =
        [c1, c2, Call.vkCmdPipelineBarrier cb VK_PIPELINE_STAGE_TRANSFER_BIT
          VK_PIPELINE_STAGE_COMPUTE_SHADER_BIT bars] ∧
      copyWritten c1 = some (working, 0, size) ∧
      copyWritten c2 = some (addressTable, 0, 64) ∧
      bars.map barrierScope = [(working, 0, size), (addressTable, 0, 64)] ∧
      ∀ b ∈ bars, b.srcQueueFamilyIndex = queueFamilyIndex ∧
        b.dstQueueFamilyIndex = queueFamilyIndex ∧
        b.srcAccessMask = VK_ACCESS_TRANSFER_WRITE_BIT ∧
        b.dstAccessMask = VK_ACCESS_SHADER_READ_BIT) ∧
    (∃ bars c3,
      SyncAndReadBuffer cb queueFamilyIndex staging result size =
        [Call.vkCmdPipelineBarrier cb VK_PIPELINE_STAGE_COMPUTE_SHADER_BIT
          VK_PIPELINE_STAGE_TRANSFER_BIT bars, c3] ∧
      copyRead c3 = some (result, 0, size) ∧
      bars.map barrierScope = [(result, 0, size)] ∧
      ∀ b ∈ bars, b.srcQueueFamilyIndex = queueFamilyIndex ∧
        b.dstQueueFamilyIndex = queueFamilyIndex ∧
        b.srcAccessMask = VK_ACCESS_SHADER_WRITE_BIT ∧
        b.dstAccessMask = VK_ACCESS_TRANSFER_READ_BIT) ∧
    (∀ c ∈ recorded (RunComputeTest d g bytes).trace, ∀ b ∈ bufferBarriersOf c,
      b.srcQueueFamilyIndex = b.dstQueueFamilyIndex) := by
  refine ⟨⟨_, _, _, rfl, rfl, rfl, rfl, ?_⟩, ⟨_, _, rfl, rfl, rfl, ?_⟩, ?_⟩
  · intro b hb
    simp only [List.mem_cons, List.mem_singleton, List.not_mem_nil, or_false] at hb
    rcases hb with rfl | rfl <;> exact ⟨rfl, rfl, rfl, rfl⟩
  · intro b hb
    simp only [List.mem_singleton] at hb
    subst hb
    exact ⟨rfl, rfl, rfl, rfl⟩
  · intro c hc b hb
    rw [recorded_RunComputeTest] at hc
    split_ifs at hc
    · simp only [recordCommands, WriteBufferAndSync, SyncAndReadBuffer, List.cons_append,
        List.nil_append, List.mem_cons, List.mem_singleton, List.not_mem_nil, or_false] at hc
      rcases hc with rfl | rfl | rfl | rfl | rfl | rfl | rfl | rfl <;>
        simp only [bufferBarriersOf, List.mem_cons, List.mem_singleton, List.not_mem_nil,
          or_false] at hb
      · rcases hb with rfl | rfl <;> rfl
      · subst hb; rfl
    · simp at hc

/-! ## Sizes and flags of the buffers and allocations -/

theorem acceptingDriver_allocOk : acceptingDriver.allocOk := by
  simp [Driver.allocOk, acceptingDriver]

/-- C6, counterexample: for the payload size `2 ^ 64 - 1` the staging buffer is
created with size 63, not `payload + 64`; for the payload size `2 ^ 63` and a
reported requirement of 100 bytes the shared allocation is requested with 100
bytes, less than `2 * payload`. -/
theorem C6_counterexample :
    Call.vkCreateBuffer { flags := 0, size := 63, usage := 3, pQueueFamilyIndices := [0] } 0 ∈
      (AllocateMemoryAndBuffers acceptingDriver none sampleProperties (2 ^ 64 - 1) 0
        (RunState.init fun _ => 0)).2.trace ∧
    (63 : Nat) ≠ (2 ^ 64 - 1) + 64 ∧
    Call.vkAllocateMemory { pNext := some 2, allocationSize := 100, memoryTypeIndex := 0 } 1 ∈
      (AllocateMemoryAndBuffers acceptingDriver none sampleProperties (2 ^ 63) 0
        (RunState.init fun _ => 0)).2.trace ∧
    (100 : Nat) < 2 * 2 ^ 63 := by
  refine ⟨?_, by decide, ?_, by decide⟩
  · rw [AllocateMemoryAndBuffers_trace_of_ok _ _ _ _ _ _ acceptingDriver_allocOk]
    have h : hostBufCreateInfo (2 ^ 64 - 1) 0 =
        { flags := 0, size := 63, usage := 3, pQueueFamilyIndices := [0] } := by decide
    rw [h]
    simp
  · rw [AllocateMemoryAndBuffers_trace_of_ok _ _ _ _ _ _ acceptingDriver_allocOk]
    have h : deviceMemAllocInfo sampleProperties (2 ^ 63)
        (acceptingDriver.vkGetBufferMemoryRequirements 1) =
        { pNext := some 2, allocationSize := 100, memoryTypeIndex := 0 } := by decide
    rw [h]
    simp

/-- C6, amended: for `elemCount = 25 * 1024 * 1024` the payload size is
`elemCount * 4 = 104857600` bytes, computed without wrap-around; for every
payload size the staging buffer is created with size `(payload + 64) mod 2 ^ 64`,
which is `payload + 64` whenever `payload + 64 < 2 ^ 64`; for every payload size
and every reported requirement the allocation shared by the two working buffers
has size `max((2 * payload) mod 2 ^ 64, requirement)`, which is
`max(2 * payload, requirement)` and at least `2 * payload` whenever
`2 * payload < 2 ^ 64`. -/
theorem C6_sizes_without_wraparound (d : Driver) (ext : Option (Nat → Nat))
    (p : VkPhysicalDeviceMemoryProperties) (bs q : Nat) (bytes : Nat → Nat) :
    (elemCount = 25 * 1024 * 1024 ∧ bufferSize = 104857600 ∧ elemCount * 4 < 2 ^ 32) ∧
    (∀ info, Call.vkCreateBuffer info 0 ∈
        (AllocateMemoryAndBuffers d ext p bs q (RunState.init bytes)).2.trace →
      info.size = (bs + 64) % 2 ^ 64 ∧ (bs + 64 < 2 ^ 64 → info.size = bs + 64)) ∧
    (∀ info, Call.vkAllocateMemory info 1 ∈
        (AllocateMemoryAndBuffers d ext p bs q (RunState.init bytes)).2.trace →
      info.allocationSize =
        Nat.max ((2 * bs) % 2 ^ 64) (d.vkGetBufferMemoryRequirements 1).size ∧
      (2 * bs < 2 ^ 64 →
        info.allocationSize = Nat.max (2 * bs) (d.vkGetBufferMemoryRequirements 1).size ∧
        info.allocationSize ≥ 2 * bs)) := by
  refine ⟨⟨by decide, by decide, by decide⟩, fun info h => ?_, fun info h => ?_⟩
  · rcases mem_allocate_vkCreateBuffer d ext p bs q bytes info 0 h with ⟨_, rfl⟩ | ⟨h0, _⟩
    · refine ⟨rfl, fun hlt => ?_⟩
      show (bs + 64) % 2 ^ 64 = bs + 64
      exact Nat.mod_eq_of_lt hlt
    · omega
  · rcases mem_allocate_vkAllocateMemory d ext p bs q bytes info 1 h with
      ⟨h0, _⟩ | ⟨_, rfl⟩ | ⟨h0, _⟩
    · omega
    · have hsize : (deviceMemAllocInfo p bs (d.vkGetBufferMemoryRequirements 1)).allocationSize =
          Nat.max ((2 * bs) % 2 ^ 64) (d.vkGetBufferMemoryRequirements 1).size := by
        show max ((bs * 2) % 2 ^ 64) _ = _
        unfold max
        rw [Nat.mul_comm bs 2]
        split_ifs with hgt
        · exact (Nat.max_eq_left (Nat.le_of_lt hgt)).symm
        · exact (Nat.max_eq_right (Nat.le_of_not_lt hgt)).symm
      refine ⟨hsize, fun hlt => ?_⟩
      rw [hsize, Nat.mod_eq_of_lt hlt]
      exact ⟨rfl, Nat.le_max_left _ _⟩
    · omega

theorem acceptingDriver_staging_create_mem :
    Call.vkCreateBuffer (hostBufCreateInfo 16 0) 0 ∈
      (AllocateMemoryAndBuffers acceptingDriver none sampleProperties 16 0
        (RunState.init fun _ => 0)).2.trace := by
  rw [AllocateMemoryAndBuffers_trace_of_ok _ _ _ _ _ _ acceptingDriver_allocOk]
  simp

/-- Witness of C6, amended: for a payload of 16 bytes the staging buffer is
created with 80 bytes. -/
theorem C6_witness :
    Call.vkCreateBuffer (hostBufCreateInfo 16 0) 0 ∈
      (AllocateMemoryAndBuffers acceptingDriver none sampleProperties 16 0
        (RunState.init fun _ => 0)).2.trace ∧
    16 + 64 < 2 ^ 64 ∧ (hostBufCreateInfo 16 0).size = 16 + 64 :=
  ⟨acceptingDriver_staging_create_mem, by decide,
    ((C6_sizes_without_wraparound acceptingDriver none sampleProperties 16 0 (fun _ => 0)).2.1
      _ acceptingDriver_staging_create_mem).2 (by decide)⟩

/-- C7, the code at the input of the program: with the payload size 104857600
of `RunComputeTest` the address-table buffer `deviceBuffers[3]` is created from
`deviceBufCreateInfo`, with size 104857600 and not the 64 bytes of
`addressWrapperDeviceBufCreateInfo`. -/
theorem C7_address_table_buffer_created_with_payload_size :
    Call.vkCreateBuffer (deviceBufCreateInfo bufferSize 0) 3 ∈
      (AllocateMemoryAndBuffers acceptingDriver none sampleProperties bufferSize 0
        (RunState.init fun _ => 0)).2.trace ∧
    Call.vkCreateBuffer (addressWrapperDeviceBufCreateInfo 0) 3 ∉
      (AllocateMemoryAndBuffers acceptingDriver none sampleProperties bufferSize 0
        (RunState.init fun _ => 0)).2.trace ∧
    (deviceBufCreateInfo bufferSize 0).size = 104857600 ∧
    (addressWrapperDeviceBufCreateInfo 0).size = ADDITIONAL_ADDRESS_BUFFER_SIZE ∧
    ADDITIONAL_ADDRESS_BUFFER_SIZE = 64 := by
  refine ⟨?_, fun h => ?_, by decide, rfl, rfl⟩
  · rw [AllocateMemoryAndBuffers_trace_of_ok _ _ _ _ _ _ acceptingDriver_allocOk]
    simp
  · rcases mem_allocate_vkCreateBuffer _ _ _ _ _ _ _ _ h with ⟨h0, _⟩ | ⟨_, h1⟩
    · omega
    · have : (addressWrapperDeviceBufCreateInfo 0).size = (deviceBufCreateInfo bufferSize 0).size :=
        congrArg VkBufferCreateInfo.size h1
      revert this
      decide

theorem acceptingDriver_address_allocate_mem :
    Call.vkAllocateMemory (addressMemAllocInfo sampleProperties 16 sampleRequirements
      sampleRequirements) 2 ∈
      (AllocateMemoryAndBuffers acceptingDriver none sampleProperties 16 0
        (RunState.init fun _ => 0)).2.trace := by
  rw [AllocateMemoryAndBuffers_trace_of_ok _ _ _ _ _ _ acceptingDriver_allocOk]
  simp [acceptingDriver]

/-- C8, counterexample: the allocation for the address-table memory
`deviceMemories[2]` is requested with the device-address flag. -/
theorem C8_counterexample :
    Call.vkAllocateMemory (addressMemAllocInfo sampleProperties 16 sampleRequirements
      sampleRequirements) 2 ∈
      (AllocateMemoryAndBuffers acceptingDriver none sampleProperties 16 0
        (RunState.init fun _ => 0)).2.trace ∧
    hasDeviceAddressFlag (addressMemAllocInfo sampleProperties 16 sampleRequirements
      sampleRequirements) = true :=
  ⟨acceptingDriver_address_allocate_mem, by decide⟩

/-- C8, amended: of the three memory allocations that `AllocateMemoryAndBuffers`
requests, the one for the staging memory `deviceMemories[0]` is requested without
the device-address flag, and the ones for the working buffers
(`deviceMemories[1]`) and for the address table (`deviceMemories[2]`) are both
requested with it. -/
theorem C8_device_address_flag_on_both_device_allocations (d : Driver)
    (ext : Option (Nat → Nat)) (p : VkPhysicalDeviceMemoryProperties) (bs q : Nat)
    (bytes : Nat → Nat) (info : VkMemoryAllocateInfo) (slot : Nat)
    (h : Call.vkAllocateMemory info slot ∈
      (AllocateMemoryAndBuffers d ext p bs q (RunState.init bytes)).2.trace) :
    (slot = 0 ∧ hasDeviceAddressFlag info = false) ∨
    (slot = 1 ∧ hasDeviceAddressFlag info = true) ∨
    (slot = 2 ∧ hasDeviceAddressFlag info = true) := by
  rcases mem_allocate_vkAllocateMemory d ext p bs q bytes info slot h with
    ⟨rfl, rfl⟩ | ⟨rfl, rfl⟩ | ⟨rfl, rfl⟩
  · exact Or.inl ⟨rfl, rfl⟩
  · exact Or.inr (Or.inl ⟨rfl, rfl⟩)
  · exact Or.inr (Or.inr ⟨rfl, rfl⟩)

/-- Witness of C8, amended: the third allocation of the run with the accepting
driver. -/
theorem C8_witness :
    Call.vkAllocateMemory (addressMemAllocInfo sampleProperties 16 sampleRequirements
      sampleRequirements) 2 ∈
      (AllocateMemoryAndBuffers acceptingDriver none sampleProperties 16 0
        (RunState.init fun _ => 0)).2.trace ∧
    (((2 : Nat) = 0 ∧ hasDeviceAddressFlag (addressMemAllocInfo sampleProperties 16
        sampleRequirements sampleRequirements) = false) ∨
      ((2 : Nat) = 1 ∧ hasDeviceAddressFlag (addressMemAllocInfo sampleProperties 16
        sampleRequirements sampleRequirements) = true) ∨
      ((2 : Nat) = 2 ∧ hasDeviceAddressFlag (addressMemAllocInfo sampleProperties 16
        sampleRequirements sampleRequirements) = true)) :=
  ⟨acceptingDriver_address_allocate_mem,
    C8_device_address_flag_on_both_device_allocations acceptingDriver none sampleProperties 16 0
      (fun _ => 0) _ 2 acceptingDriver_address_allocate_mem⟩

/-! ## The address table -/

/-- C9: after `AllocateMemoryAndBuffers` succeeds, the eight 64-bit entries of
the staging buffer's address-table region (the 64 bytes at offset `bufferSize`)
hold the device address of `deviceBuffers[1]` in entry 0, the device address of
`deviceBuffers[2]` in entry 1 and zero in entries 2 to 7, device addresses being
64-bit values. -/
theorem C9_address_table_entries (d : Driver) (ext : Option (Nat → Nat))
    (p : VkPhysicalDeviceMemoryProperties) (bs q : Nat) (bytes : Nat → Nat)
    (hcore : ∀ b, d.vkGetBufferDeviceAddress b < 2 ^ 64)
    (hext : ∀ f, ext = some f → ∀ b, f b < 2 ^ 64)
    (h : (AllocateMemoryAndBuffers d ext p bs q (RunState.init bytes)).1 = VK_SUCCESS) :
    loadAddress (AllocateMemoryAndBuffers d ext p bs q (RunState.init bytes)).2.host.bytes bs 0 =
      (queryAddress d ext ((AllocateMemoryAndBuffers d ext p bs q
        (RunState.init bytes)).2.handles.deviceBuffers.getD 1 VK_NULL_HANDLE)).1 ∧
    loadAddress (AllocateMemoryAndBuffers d ext p bs q (RunState.init bytes)).2.host.bytes bs 1 =
      (queryAddress d ext ((AllocateMemoryAndBuffers d ext p bs q
        (RunState.init bytes)).2.handles.deviceBuffers.getD 2 VK_NULL_HANDLE)).1 ∧
    ∀ i, 2 ≤ i → i < 8 →
      loadAddress (AllocateMemoryAndBuffers d ext p bs q (RunState.init bytes)).2.host.bytes
        bs i = 0 := by
  have hok := (AllocateMemoryAndBuffers_success_iff _ _ _ _ _ _).1 h
  have hq : ∀ b, (queryAddress d ext b).1 < 2 ^ 64 := by
    intro b
    cases hx : ext with
    | none => exact hcore b
    | some f => exact hext f hx b
  rw [AllocateMemoryAndBuffers_host_of_ok _ _ _ _ _ _ hok,
    AllocateMemoryAndBuffers_handles_of_ok _ _ _ _ _ _ hok]
  exact loadAddress_initStaging bs _ _ _ (hq _) (hq _)

/-- Witness of C9: the run with the accepting driver and a payload of 16 bytes;
the working buffers are the handles 12 and 13, at the addresses 49152 and
53248. -/
theorem C9_witness :
    (∀ b, acceptingDriver.vkGetBufferDeviceAddress b < 2 ^ 64) ∧
    (AllocateMemoryAndBuffers acceptingDriver none sampleProperties 16 0
      (RunState.init fun _ => 0)).1 = VK_SUCCESS ∧
    loadAddress (AllocateMemoryAndBuffers acceptingDriver none sampleProperties 16 0
      (RunState.init fun _ => 0)).2.host.bytes 16 0 = 49152 ∧
    loadAddress (AllocateMemoryAndBuffers acceptingDriver none sampleProperties 16 0
      (RunState.init fun _ => 0)).2.host.bytes 16 1 = 53248 := by
  have hcore : ∀ b, acceptingDriver.vkGetBufferDeviceAddress b < 2 ^ 64 :=
    fun b => Nat.mod_lt _ (by decide)
  have hs := (AllocateMemoryAndBuffers_success_iff acceptingDriver none sampleProperties 16 0
    (RunState.init fun _ => 0)).2 acceptingDriver_allocOk
  have h := C9_address_table_entries acceptingDriver none sampleProperties 16 0 (fun _ => 0)
    hcore (fun f hf => by cases hf) hs
  rw [AllocateMemoryAndBuffers_handles_of_ok _ _ _ _ _ _ acceptingDriver_allocOk] at h
  exact ⟨hcore, hs, h.1, h.2.1⟩

/-! ## The entry point of the address query -/

/-- The bytes after the loop that fills `srcMem`: element `a / 4` little endian
inside the filled range, the old byte outside. -/
theorem fillLoop_bytes (n : Nat) :
    ∀ (fuel i : Nat) (m : HostMem) (a : Nat), i + fuel = n →
      (fillLoop (n : Int) fuel i m).bytes a =
        if 4 * i ≤ a ∧ a < 4 * n then ((a / 4) / 256 ^ (a % 4)) % 256 else m.bytes a := by
  intro fuel
  induction fuel with
  | zero =>
    intro i m a h
    have : ¬ (4 * i ≤ a ∧ a < 4 * n) := by omega
    simp [fillLoop, this]
  | succ k ih =>
    intro i m a h
    have hlt : (i : Int) < (n : Int) := by omega
    rw [fillLoop, if_pos hlt, ih (i + 1) _ a (by omega)]
    by_cases h1 : 4 * (i + 1) ≤ a ∧ a < 4 * n
    · have h2 : 4 * i ≤ a ∧ a < 4 * n := by omega
      rw [if_pos h1, if_pos h2]
    · rw [if_neg h1]
      simp only [HostMem.store]
      by_cases h3 : 4 * i ≤ a ∧ a < 4 * i + 4
      · have h2 : 4 * i ≤ a ∧ a < 4 * n := by omega
        have e1 : a / 4 = i := by omega
        have e2 : a % 4 = a - 4 * i := by omega
        rw [if_pos h3, if_pos h2, e1, e2]
      · have h2 : ¬ (4 * i ≤ a ∧ a < 4 * n) := by omega
        rw [if_neg h3, if_neg h2]

theorem loadBytes_four (bytes : Nat → Nat) (off : Nat) :
    loadBytes bytes off 4 =
      bytes off % 256 + 256 * (bytes (off + 1) % 256 + 256 * (bytes (off + 2) % 256 +
        256 * (bytes (off + 3) % 256))) := by
  simp [loadBytes, Nat.add_assoc]

/-- An `int` element whose four bytes are those of `v`, little endian, reads as
`v` when `v` is below `2 ^ 31`. -/
theorem loadInt32_of_bytes (bytes : Nat → Nat) (i v : Nat) (hv : v < 2 ^ 31)
    (hb : ∀ k, k < 4 → bytes (4 * i + k) = (v / 256 ^ k) % 256) :
    loadInt32 bytes i = (v : Int) := by
  have h0 := hb 0 (by omega)
  have h1 := hb 1 (by omega)
  have h2 := hb 2 (by omega)
  have h3 := hb 3 (by omega)
  have hload : loadBytes bytes (4 * i) 4 = v := by
    rw [loadBytes_four, h1, h2, h3]
    rw [Nat.add_zero] at h0
    rw [h0]
    norm_num
    omega
  rw [loadInt32, hload, toInt32]
  have hm : v % 2 ^ 32 = v := Nat.mod_eq_of_lt (by omega)
  rw [hm, if_pos hv]

/-- The bytes of the payload region after `initStaging`. -/
theorem initStaging_payload_bytes (bs a0 a1 : Nat) (m : HostMem) (a : Nat) (ha : a < bs) :
    (initStaging bs a0 a1 m).bytes a =
      (fillLoop (toInt32 (bs / 4)) (toInt32 (bs / 4)).toNat 0 m).bytes a := by
  simp only [initStaging, HostMem.store, HostMem.memset]
  have h1 : ¬ (bs + 8 * 1 ≤ a ∧ a < bs + 8 * 1 + 8) := by omega
  have h2 : ¬ (bs + 8 * 0 ≤ a ∧ a < bs + 8 * 0 + 8) := by omega
  have h3 : ¬ (bs ≤ a ∧ a < bs + ADDITIONAL_ADDRESS_BUFFER_SIZE) := by omega
  rw [if_neg h1, if_neg h2, if_neg h3]

theorem toInt32_of_lt (x : Nat) (h : x < 2 ^ 31) : toInt32 x = (x : Int) := by
  have hm : x % 2 ^ 32 = x := Nat.mod_eq_of_lt (by omega)
  rw [toInt32, hm, if_pos h]

/-- The elements of the payload region after `initStaging`. -/
theorem loadInt32_initStaging (bs a0 a1 : Nat) (m : HostMem) (h4 : bs % 4 = 0)
    (hn : bs / 4 < 2 ^ 31) (i : Nat) (hi : i < bs / 4) :
    loadInt32 (initStaging bs a0 a1 m).bytes i = (i : Int) := by
  refine loadInt32_of_bytes _ i i (by omega) fun k hk => ?_
  rw [initStaging_payload_bytes bs a0 a1 m _ (by omega), toInt32_of_lt _ hn, Int.toNat_ofNat,
    fillLoop_bytes (bs / 4) (bs / 4) 0 m _ (by omega)]
  have hr : 4 * 0 ≤ 4 * i + k ∧ 4 * i + k < 4 * (bs / 4) := by omega
  have e1 : (4 * i + k) / 4 = i := by omega
  have e2 : (4 * i + k) % 4 = k := by omega
  rw [if_pos hr, e1, e2]

/-! ## The payload region -/

/-- C11: for every payload size that is a multiple of 4 with `payload / 4`
representable as a signed 32-bit integer, after `AllocateMemoryAndBuffers`
succeeds the staging buffer's payload region, read as 32-bit integers, holds the
value `i` at element `i` for every `i` below `payload / 4`. -/
theorem C11_payload_region_holds_the_index_sequence (d : Driver) (ext : Option (Nat → Nat))
    (p : VkPhysicalDeviceMemoryProperties) (bs q : Nat) (bytes : Nat → Nat)
    (h4 : bs % 4 = 0) (hn : bs / 4 < 2 ^ 31)
    (h : (AllocateMemoryAndBuffers d ext p bs q (RunState.init bytes)).1 = VK_SUCCESS)
    (i : Nat) (hi : i < bs / 4) :
    loadInt32 (AllocateMemoryAndBuffers d ext p bs q (RunState.init bytes)).2.host.bytes i =
      (i : Int) := by
  rw [AllocateMemoryAndBuffers_host_of_ok _ _ _ _ _ _
    ((AllocateMemoryAndBuffers_success_iff _ _ _ _ _ _).1 h)]
  exact loadInt32_initStaging bs _ _ _ h4 hn i hi

/-- Witness of C11: with a payload of 16 bytes element 3 of the staging buffer
holds 3. -/
theorem C11_witness :
    16 % 4 = 0 ∧ 16 / 4 < 2 ^ 31 ∧
    (AllocateMemoryAndBuffers acceptingDriver none sampleProperties 16 0
      (RunState.init fun _ => 0)).1 = VK_SUCCESS ∧
    3 < 16 / 4 ∧
    loadInt32 (AllocateMemoryAndBuffers acceptingDriver none sampleProperties 16 0
      (RunState.init fun _ => 0)).2.host.bytes 3 = 3 :=
  have hs := (AllocateMemoryAndBuffers_success_iff acceptingDriver none sampleProperties 16 0
    (RunState.init fun _ => 0)).2 acceptingDriver_allocOk
  ⟨by decide, by decide, hs, by decide,
    C11_payload_region_holds_the_index_sequence acceptingDriver none sampleProperties 16 0
      (fun _ => 0) (by decide) (by decide) hs 3 (by decide)⟩

/-! ## Lemmas on the result check -/

/-- The loop of the result check stops at the least index whose element is not
twice the index, and prints that index and the element found there. -/
theorem verifyLoop_spec (n : Nat) (dstMem : Nat → Nat) :
    ∀ fuel i, n ≤ i + fuel →
      ((∀ j, i ≤ j → j < n → loadInt32 dstMem j = (j : Int) * 2) ∧
        verifyLoop (n : Int) dstMem fuel i = []) ∨
      ∃ j, i ≤ j ∧ j < n ∧ loadInt32 dstMem j ≠ (j : Int) * 2 ∧
        (∀ k, i ≤ k → k < j → loadInt32 dstMem k = (k : Int) * 2) ∧
        verifyLoop (n : Int) dstMem fuel i = [Call.resultError j (loadInt32 dstMem j)] := by
  intro fuel
  induction fuel with
  | zero =>
    intro i h
    exact Or.inl ⟨fun j h1 h2 => by omega, rfl⟩
  | succ f ih =>
    intro i h
    rw [verifyLoop]
    by_cases hlt : (i : Int) < (n : Int)
    · rw [if_pos hlt]
      have hlt' : i < n := by omega
      by_cases hm : loadInt32 dstMem i ≠ (i : Int) * 2
      · rw [if_pos hm]
        exact Or.inr ⟨i, Nat.le_refl _, hlt', hm, fun k h1 h2 => by omega, rfl⟩
      · rw [if_neg hm]
        have hm' : loadInt32 dstMem i = (i : Int) * 2 := not_not.1 hm
        rcases ih (i + 1) (by omega) with ⟨hall, heq⟩ | ⟨j, h1, h2, h3, h4, heq⟩
        · refine Or.inl ⟨fun j h1 h2 => ?_, heq⟩
          rcases Nat.eq_or_lt_of_le h1 with e | e
          · exact e ▸ hm'
          · exact hall j e h2
        · refine Or.inr ⟨j, by omega, h2, h3, fun k hk1 hk2 => ?_, heq⟩
          rcases Nat.eq_or_lt_of_le hk1 with e | e
          · exact e ▸ hm'
          · exact h4 k e hk2
    · rw [if_neg hlt]
      exact Or.inl ⟨fun j h1 h2 => by omega, rfl⟩

/-- The loop of the result check names no index below the one it starts at. -/
theorem verifyLoop_index_ge (n : Int) (dstMem : Nat → Nat) (fuel i j : Nat) (v : Int)
    (h : Call.resultError j v ∈ verifyLoop n dstMem fuel i) : i ≤ j := by
  induction fuel generalizing i with
  | zero => simp [verifyLoop] at h
  | succ f ih =>
    unfold verifyLoop at h
    split_ifs at h with h1 h2
    · simp only [List.mem_singleton, Call.resultError.injEq] at h
      omega
    · exact Nat.le_of_succ_le (ih _ h)
    · simp at h

/-- The per-element messages of the result check are those of its loop. -/
theorem filter_isResultError_verifyResult (n : Nat) (dstMem : Nat → Nat) :
    (verifyResult n dstMem).filter isResultError =
      verifyLoop (toInt32 n) dstMem (toInt32 n).toNat 1 := by
  have h1 : ∀ c ∈ verifyLoop (toInt32 n) dstMem (toInt32 n).toNat 1, isResultError c = true := by
    intro c hc
    obtain ⟨j, v, rfl⟩ := mem_verifyLoop _ _ _ _ _ hc
    rfl
  unfold verifyResult
  rw [List.filter_append, List.filter_append, List.filter_eq_self.2 h1]
  split_ifs <;> simp [isResultError]

theorem elemCount_eq : elemCount = 26214400 := by decide

theorem toInt32_elemCount : toInt32 elemCount = 26214400 := by decide

/-- Element `i` of `doubledBytes` is `2 * i`. -/
theorem loadInt32_doubledBytes (i : Nat) (hi : 2 * i < 2 ^ 31) :
    loadInt32 doubledBytes i = (i : Int) * 2 := by
  have h := loadInt32_of_bytes doubledBytes i (2 * i) hi (fun k hk => by
    have e1 : (4 * i + k) / 4 = i := by omega
    have e2 : (4 * i + k) % 4 = k := by omega
    simp only [doubledBytes, e1, e2])
  rw [h]
  push_cast
  ring

theorem verifyLoop_doubledBytes :
    verifyLoop (toInt32 elemCount) doubledBytes (toInt32 elemCount).toNat 1 = [] := by
  rw [toInt32_elemCount]
  rcases verifyLoop_spec 26214400 doubledBytes 26214400 1 (by omega) with
    ⟨_, heq⟩ | ⟨j, _, h2, h3, _, _⟩
  · exact heq
  · exact absurd (loadInt32_doubledBytes j (by omega)) h3

/-! ## The result check -/

/-- The sum of the result check wraps around in 32 bits: five elements equal to
`INT_MAX` add up to 2147483643. -/
theorem addInt32_wraps_around :
    addInt32 (addInt32 (addInt32 (addInt32 2147483647 2147483647) 2147483647) 2147483647)
      2147483647 = 2147483643 := by
  decide

/-- The dispatches recorded by a run whose `do` block ends with `VK_SUCCESS`:
one, with the workgroup counts `(elemCount / 1024, 1, 1)`. -/
theorem dispatches_of_success (d : Driver) (g : Globals) (bytes : Nat → Nat)
    (h : (runBlock d g (RunState.init bytes)).1 = VK_SUCCESS) :
    (recorded (RunComputeTest d g bytes).trace).filter isDispatch =
      [Call.vkCmdDispatch d.vkAllocateCommandBuffers.2 (elemCount / 1024) 1 1] := by
  rw [recorded_RunComputeTest, if_pos (setup_success_of_runBlock_success d g _ h)]
  simp [recordCommands, WriteBufferAndSync, SyncAndReadBuffer, isDispatch]

/-- C12: a run whose `do` block passes every check records exactly one
dispatch, `vkCmdDispatch` with the workgroup counts `(elemCount / 1024, 1, 1)`,
and no run records a dispatch with other counts; for every `n`,
`(n / 1024) * 1024 ≤ n` with equality exactly when 1024 divides `n`; for the
`elemCount` of the program the count is 25600 and `25600 * 1024 = elemCount`, so
every element index below `elemCount` belongs to exactly one workgroup of size
1024. -/
theorem C12_dispatch_workgroup_count (d : Driver) (g : Globals) (bytes : Nat → Nat) (n : Nat) :
    ((runBlock d g (RunState.init bytes)).1 = VK_SUCCESS →
      (recorded (RunComputeTest d g bytes).trace).filter isDispatch =
        [Call.vkCmdDispatch d.vkAllocateCommandBuffers.2 (elemCount / 1024) 1 1]) ∧
    (∀ c ∈ recorded (RunComputeTest d g bytes).trace, isDispatch c = true →
      c = Call.vkCmdDispatch d.vkAllocateCommandBuffers.2 (elemCount / 1024) 1 1) ∧
    (n / 1024 * 1024 ≤ n ∧ (n / 1024 * 1024 = n ↔ 1024 ∣ n)) ∧
    elemCount = 25 * 1024 * 1024 ∧ elemCount / 1024 = 25600 ∧ 25600 * 1024 = elemCount ∧
    ∀ i, i < elemCount →
      ∃! w : Nat × Nat, w.1 < elemCount / 1024 ∧ w.2 < 1024 ∧ i = w.1 * 1024 + w.2 := by
  refine ⟨dispatches_of_success d g bytes, fun c hc hd => ?_,
    ⟨Nat.div_mul_le_self n 1024, ?_⟩, by decide, by decide, by decide, fun i hi => ?_⟩
  · rw [recorded_RunComputeTest] at hc
    split_ifs at hc
    · simp only [recordCommands, WriteBufferAndSync, SyncAndReadBuffer, List.cons_append,
        List.nil_append, List.mem_cons, List.mem_singleton, List.not_mem_nil, or_false] at hc
      rcases hc with rfl | rfl | rfl | rfl | rfl | rfl | rfl | rfl <;>
        first | rfl | simp [isDispatch] at hd
    · simp at hc
  · constructor
    · intro h
      exact ⟨n / 1024, by omega⟩
    · rintro ⟨k, rfl⟩
      omega
  · rw [elemCount_eq] at hi ⊢
    refine ⟨(i / 1024, i % 1024), ⟨by omega, by omega, by omega⟩, ?_⟩
    rintro ⟨a, b⟩ ⟨h1, h2, h3⟩
    simp only at h1 h2 h3
    have ea : a = i / 1024 := by omega
    have eb : b = i % 1024 := by omega
    rw [ea, eb]

/-- Witness of C12: the run in which every call succeeds records the dispatch
`vkCmdDispatch(38, 25600, 1, 1)` and no other. -/
theorem C12_witness :
    (runBlock acceptingDriver sampleGlobals (RunState.init fun _ => 0)).1 = VK_SUCCESS ∧
    (recorded (RunComputeTest acceptingDriver sampleGlobals fun _ => 0).trace).filter
      isDispatch = [Call.vkCmdDispatch 38 25600 1 1] :=
  ⟨acceptingDriver_runBlock_success sampleGlobals fun _ => 0,
    (C12_dispatch_workgroup_count acceptingDriver sampleGlobals (fun _ => 0) 0).1
      (acceptingDriver_runBlock_success sampleGlobals fun _ => 0)⟩

/-- C13: for every read-back payload of `n` 32-bit integers (`n` at most
`2 ^ 30`, which covers the `elemCount` of the program), the result check prints a
per-element message if and only if some index `i` with `1 ≤ i < n` has an
element different from `2 * i`, and then it prints exactly one such message,
with the least such index and the element found there. -/
theorem C13_first_mismatch_is_reported (n : Nat) (hn : n ≤ 2 ^ 30) (dstMem : Nat → Nat) :
    ((verifyResult n dstMem).filter isResultError ≠ [] ↔
      ∃ i, 1 ≤ i ∧ i < n ∧ loadInt32 dstMem i ≠ 2 * (i : Int)) ∧
    (∀ i, 1 ≤ i → i < n → loadInt32 dstMem i ≠ 2 * (i : Int) →
      (∀ j, 1 ≤ j → j < i → loadInt32 dstMem j = 2 * (j : Int)) →
      (verifyResult n dstMem).filter isResultError =
        [Call.resultError i (loadInt32 dstMem i)]) ∧
    elemCount ≤ 2 ^ 30 := by
  have hcast : toInt32 n = (n : Int) := toInt32_of_lt n (by omega)
  rw [filter_isResultError_verifyResult, hcast, Int.toNat_ofNat]
  refine ⟨⟨fun h => ?_, fun ⟨i, h1, h2, h3⟩ => ?_⟩, fun i h1 h2 h3 h4 => ?_, by decide⟩
  · rcases verifyLoop_spec n dstMem n 1 (by omega) with ⟨_, heq⟩ | ⟨j, j1, j2, j3, _, _⟩
    · exact absurd heq h
    · exact ⟨j, j1, j2, by rwa [mul_comm]⟩
  · rcases verifyLoop_spec n dstMem n 1 (by omega) with ⟨hall, _⟩ | ⟨j, _, _, _, _, heq⟩
    · exact absurd (by rw [hall i h1 h2, mul_comm]) h3
    · rw [heq]
      exact List.cons_ne_nil _ _
  · rcases verifyLoop_spec n dstMem n 1 (by omega) with ⟨hall, _⟩ | ⟨j, j1, j2, j3, j4, heq⟩
    · exact absurd (by rw [hall i h1 h2, mul_comm]) h3
    · have hij : i = j := by
        rcases Nat.lt_trichotomy i j with hlt | heq' | hgt
        · exact absurd (by rw [j4 i h1 hlt, mul_comm]) h3
        · exact heq'
        · exact absurd (by rw [h4 j j1 hgt, mul_comm]) j3
      rw [heq, hij]

/-- Witness of C13: in a read-back memory of four elements that is zero except
for element 2, which is 9, the check reports index 1 with the value 0. -/
theorem C13_witness :
    (4 : Nat) ≤ 2 ^ 30 ∧ loadInt32 spoiledBytes 1 ≠ 2 * ((1 : Nat) : Int) ∧
    (verifyResult 4 spoiledBytes).filter isResultError =
      [Call.resultError 1 (loadInt32 spoiledBytes 1)] ∧
    loadInt32 spoiledBytes 1 = 0 :=
  ⟨by decide, by decide,
    (C13_first_mismatch_is_reported 4 (by decide) spoiledBytes).2.1 1 (by decide) (by decide)
      (by decide) (fun j h1 h2 => by omega),
    by decide⟩

/-- C14, counterexample: a read-back payload in which every element is `2 * i`,
so that element 0 is 0 and differs from `elemCount`: the result check prints the
sum of five elements and nothing else, no message reports a failure. -/
theorem C14_counterexample :
    loadInt32 doubledBytes 0 ≠ toInt32 elemCount ∧
    verifyResult elemCount doubledBytes = [Call.firstFiveSum 30] := by
  have h0 : loadInt32 doubledBytes 0 = 0 := by decide
  refine ⟨by rw [h0, toInt32_elemCount]; decide, ?_⟩
  have hne : ¬ loadInt32 doubledBytes 0 = toInt32 elemCount := by
    rw [h0, toInt32_elemCount]; decide
  have hsum : addInt32 (addInt32 (addInt32 (addInt32 (loadInt32 doubledBytes 1)
      (loadInt32 doubledBytes 2)) (loadInt32 doubledBytes 3)) (loadInt32 doubledBytes 4))
      (loadInt32 doubledBytes 5) = 30 := by decide
  rw [verifyResult, verifyLoop_doubledBytes, if_neg hne, hsum]
  rfl

/-- C14, amended: for every read-back payload the result check compares element
0 with the element count and prints the confirmation
`total_data_elem_count is the same as elemCount!` exactly when they are equal;
when they differ it prints nothing about element 0: every per-element message
names an index of at least 1. -/
theorem C14_element_zero_is_only_confirmed (n : Nat) (dstMem : Nat → Nat) :
    (Call.sameAsElemCount ∈ verifyResult n dstMem ↔ loadInt32 dstMem 0 = toInt32 n) ∧
    (∀ c ∈ verifyResult n dstMem, ∀ i v, c = Call.resultError i v → 1 ≤ i) := by
  constructor
  · unfold verifyResult
    constructor
    · intro h
      rcases List.mem_append.1 h with h | h
      · rcases List.mem_append.1 h with h | h
        · obtain ⟨j, v, hj⟩ := mem_verifyLoop _ _ _ _ _ h
          cases hj
        · simp at h
      · split_ifs at h with he
        · exact he
        · simp at h
    · intro he
      rw [if_pos he]
      simp
  · intro c hc i v hcv
    subst hcv
    unfold verifyResult at hc
    rcases List.mem_append.1 hc with h | h
    · rcases List.mem_append.1 h with h | h
      · exact verifyLoop_index_ge _ _ _ _ _ _ h
      · simp at h
    · split_ifs at h <;> simp at h

/-! ## The calls of a whole run -/

/-- All the calls of the steps of the `do` block, in order. -/
theorem allCalls_eq (d : Driver) (g : Globals) :
    ((setupSteps d g ++ (recordStep d g :: completionSteps d)).map Step.calls).flatten =
      [Call.vkCreateBuffer (hostBufCreateInfo bufferSize g.s_specQueueFamilyIndex) 0,
       Call.vkGetBufferMemoryRequirements (d.vkCreateBuffer 0).2,
       Call.vkAllocateMemory
         (hostMemAllocInfo g.s_memoryProperties (d.vkGetBufferMemoryRequirements 0)) 0,
       Call.vkBindBufferMemory (d.vkCreateBuffer 0).2 (d.vkAllocateMemory 0).2 0,
       Call.vkCreateBuffer (deviceBufCreateInfo bufferSize g.s_specQueueFamilyIndex) 1,
       Call.vkCreateBuffer (deviceBufCreateInfo bufferSize g.s_specQueueFamilyIndex) 2,
       Call.vkGetBufferMemoryRequirements (d.vkCreateBuffer 1).2,
       Call.vkAllocateMemory (deviceMemAllocInfo g.s_memoryProperties bufferSize
         (d.vkGetBufferMemoryRequirements 1)) 1,
       Call.vkBindBufferMemory (d.vkCreateBuffer 1).2 (d.vkAllocateMemory 1).2 0,
       Call.vkBindBufferMemory (d.vkCreateBuffer 2).2 (d.vkAllocateMemory 1).2 bufferSize,
       Call.vkCreateBuffer (deviceBufCreateInfo bufferSize g.s_specQueueFamilyIndex) 3,
       Call.vkGetBufferMemoryRequirements (d.vkCreateBuffer 3).2,
       Call.vkAllocateMemory (addressMemAllocInfo g.s_memoryProperties bufferSize
         (d.vkGetBufferMemoryRequirements 1) (d.vkGetBufferMemoryRequirements 3)) 2,
       Call.vkBindBufferMemory (d.vkCreateBuffer 3).2 (d.vkAllocateMemory 2).2 0,
       Call.vkMapMemory (d.vkAllocateMemory 0).2 0 bufferSize,
       (queryAddress d g.s_vkGetBufferDeviceAddressEXT (d.vkCreateBuffer 1).2).2,
       (queryAddress d g.s_vkGetBufferDeviceAddressEXT (d.vkCreateBuffer 2).2).2,
       Call.vkUnmapMemory (d.vkAllocateMemory 0).2,
       Call.vkCreateShaderModule (d.fopen.getD 0),
       Call.vkCreateDescriptorSetLayout,
       Call.vkCreatePipelineLayout d.vkCreateDescriptorSetLayout.2,
       Call.vkCreateComputePipelines d.vkCreateShaderModule.2 d.vkCreatePipelineLayout.2
         elemCount,
       Call.vkCreateDescriptorPool,
       Call.vkAllocateDescriptorSets d.vkCreateDescriptorPool.2 d.vkCreateDescriptorSetLayout.2,
       Call.vkUpdateDescriptorSets d.vkAllocateDescriptorSets.2 (d.vkCreateBuffer 3).2 0
         ADDITIONAL_ADDRESS_BUFFER_SIZE,
       Call.vkCreateCommandPool g.s_specQueueFamilyIndex,
       Call.vkAllocateCommandBuffers d.vkCreateCommandPool.2 1,
       Call.vkGetDeviceQueue g.s_specQueueFamilyIndex 0,
       Call.vkBeginCommandBuffer d.vkAllocateCommandBuffers.2] ++
      (recordCommands d.vkAllocateCommandBuffers.2 d.vkCreateComputePipelines.2
        d.vkCreatePipelineLayout.2 d.vkAllocateDescriptorSets.2 g.s_specQueueFamilyIndex
        (d.vkCreateBuffer 0).2 (d.vkCreateBuffer 1).2 (d.vkCreateBuffer 2).2
        (d.vkCreateBuffer 3).2 elemCount bufferSize ++
      ([Call.vkEndCommandBuffer d.vkAllocateCommandBuffers.2,
        Call.vkCreateFence,
        Call.vkQueueSubmit d.vkGetDeviceQueue [d.vkAllocateCommandBuffers.2] d.vkCreateFence.2,
        Call.vkWaitForFences d.vkCreateFence.2 UINT64_MAX,
        Call.vkMapMemory (d.vkAllocateMemory 0).2 0 bufferSize] ++
      (verifyResult elemCount d.readBack ++ [Call.vkUnmapMemory (d.vkAllocateMemory 0).2]))) := by
  simp [setupSteps, allocateSteps, shaderModuleSteps, computePipelineSteps, descriptorSetsSteps,
    commandBufferSteps, beginStep, recordStep, completionSteps]

theorem RunComputeTest_trace (d : Driver) (g : Globals) (bytes : Nat → Nat) :
    (RunComputeTest d g bytes).trace =
      (runBlock d g (RunState.init bytes)).2.trace ++
        teardown (runBlock d g (RunState.init bytes)).2.handles := rfl

/-- The release section assigns to no handle. -/
theorem RunComputeTest_handles (d : Driver) (g : Globals) (bytes : Nat → Nat) :
    (RunComputeTest d g bytes).handles = (runBlock d g (RunState.init bytes)).2.handles := rfl

/-- Every call of a run is a call of the steps of the `do` block or a release
call of the release section. -/
theorem mem_RunComputeTest (d : Driver) (g : Globals) (bytes : Nat → Nat) (c : Call)
    (hc : c ∈ (RunComputeTest d g bytes).trace) :
    c ∈ ((setupSteps d g ++ (recordStep d g :: completionSteps d)).map Step.calls).flatten ∨
      c ∈ teardown (RunComputeTest d g bytes).handles := by
  rw [RunComputeTest_trace] at hc
  rw [RunComputeTest_handles]
  rcases List.mem_append.1 hc with h | h
  · rw [runBlock_eq] at h
    rcases mem_runSteps_trace _ _ _ h with h0 | ⟨st, hst, hcs⟩
    · simp [RunState.init] at h0
    · exact Or.inl (List.mem_flatten.2 ⟨st.calls, List.mem_map.2 ⟨st, hst, rfl⟩, hcs⟩)
  · exact Or.inr h

/-- The trace of a run whose `do` block ends with `VK_SUCCESS`. -/
theorem trace_of_success (d : Driver) (g : Globals) (bytes : Nat → Nat)
    (h : (runBlock d g (RunState.init bytes)).1 = VK_SUCCESS) :
    (RunComputeTest d g bytes).trace =
      ((setupSteps d g ++ (recordStep d g :: completionSteps d)).map Step.calls).flatten ++
        teardown (RunComputeTest d g bytes).handles := by
  have hok := h
  rw [runBlock_eq, runSteps_success_iff] at hok
  have htrace : (runBlock d g (RunState.init bytes)).2.trace =
      ((setupSteps d g ++ (recordStep d g :: completionSteps d)).map Step.calls).flatten := by
    rw [runBlock_eq, runSteps_trace_of_ok _ _ hok]
    exact List.nil_append _
  rw [RunComputeTest_trace, RunComputeTest_handles, htrace]

theorem isMessage_queryAddress (d : Driver) (ext : Option (Nat → Nat)) (b : Nat) :
    isMessage (queryAddress d ext b).2 = false := by
  cases ext <;> rfl

theorem isMessage_of_isRelease (c : Call) (h : isRelease c = true) : isMessage c = false := by
  cases c <;> simp [isRelease] at h <;> rfl

/-- The messages of a run whose `do` block ends with `VK_SUCCESS` are those of
the result check on the read-back memory. -/
theorem messages_of_success (d : Driver) (g : Globals) (bytes : Nat → Nat)
    (h : (runBlock d g (RunState.init bytes)).1 = VK_SUCCESS) :
    (RunComputeTest d g bytes).trace.filter isMessage = verifyResult elemCount d.readBack := by
  have hv : (verifyResult elemCount d.readBack).filter isMessage =
      verifyResult elemCount d.readBack :=
    List.filter_eq_self.2 fun c hc => isMessage_of_mem_verifyResult _ _ _ hc
  have ht : (teardown (RunComputeTest d g bytes).handles).filter isMessage = [] :=
    List.filter_eq_nil_iff.2 fun c hc => by
      simp [isMessage_of_isRelease c (isRelease_of_mem_teardown _ _ hc)]
  rw [trace_of_success d g bytes h, allCalls_eq, List.filter_append, ht]
  generalize g.s_vkGetBufferDeviceAddressEXT = ext
  cases ext <;>
    simp [List.filter_append, List.filter_cons, isMessage, queryAddress, hv, recordCommands,
      WriteBufferAndSync, SyncAndReadBuffer]

/-! ## Lemmas on the first failure -/

theorem Step.passes_iff_ok (st : Step) : st.passes = true ↔ st.ok := by
  unfold Step.passes Step.ok
  cases h : st.res with
  | none => simp
  | some res => simp

/-- A run leaves at the first step whose check fails: the steps before it and
the step itself have run, each once and in order, and no later step has. -/
theorem runSteps_first_failure (l : List Step) (s : RunState) (k : Nat) (st : Step)
    (hk : l[k]? = some st) (hpre : ∀ x ∈ l.take k, x.passes = true)
    (hfail : st.passes = false) :
    ∃ res, st.res = some res ∧ res ≠ VK_SUCCESS ∧
      runSteps l s = (res, (l.take (k + 1)).foldl (fun s st => st.run s) s) := by
  have hlt : k < l.length := (List.getElem?_eq_some_iff.1 hk).1
  have hget : l[k] = st := (List.getElem?_eq_some_iff.1 hk).2
  have hsplit : l = l.take k ++ st :: l.drop (k + 1) := by
    rw [← hget, ← List.drop_eq_getElem_cons hlt, List.take_append_drop]
  have hres : ∃ res, st.res = some res ∧ res ≠ VK_SUCCESS := by
    unfold Step.passes at hfail
    cases h : st.res with
    | none => rw [h] at hfail; cases hfail
    | some res =>
      rw [h] at hfail
      exact ⟨res, rfl, by simpa using hfail⟩
  obtain ⟨res, hr1, hr2⟩ := hres
  refine ⟨res, hr1, hr2, ?_⟩
  have hok : ∀ x ∈ l.take k, x.ok := fun x hx => (Step.passes_iff_ok x).1 (hpre x hx)
  have htake : l.take (k + 1) = l.take k ++ [st] := by
    rw [List.take_succ, hk]
    rfl
  rw [htake, List.foldl_append]
  conv_lhs => rw [hsplit]
  rw [runSteps_append, runSteps_of_ok _ _ hok, runSteps_cons_some _ _ _ _ hr1]
  simp [hr2]

/-! ## The fence wait -/

theorem mem_allCalls_vkWaitForFences (d : Driver) (g : Globals) (fence timeout : Nat)
    (h : Call.vkWaitForFences fence timeout ∈ ((setupSteps d g ++
      (recordStep d g :: completionSteps d)).map Step.calls).flatten) :
    fence = d.vkCreateFence.2 ∧ timeout = UINT64_MAX := by
  rw [allCalls_eq] at h
  simp only [List.mem_append] at h
  rcases h with h | h | h | h | h
  · generalize g.s_vkGetBufferDeviceAddressEXT = ext at h
    cases ext <;> simp [queryAddress] at h
  · simp [recordCommands, WriteBufferAndSync, SyncAndReadBuffer] at h
  · simpa using h
  · have := isMessage_of_mem_verifyResult _ _ _ h
    simp [isMessage] at this
  · simp at h

theorem acceptingDriver_wait_mem :
    Call.vkWaitForFences 40 UINT64_MAX ∈
      (RunComputeTest acceptingDriver sampleGlobals fun _ => 0).trace := by
  rw [trace_of_success _ _ _ (acceptingDriver_runBlock_success sampleGlobals fun _ => 0),
    allCalls_eq]
  simp [acceptingDriver]

/-- C15, counterexample: in the run with the accepting driver the fence wait is
issued with the timeout `UINT64_MAX`, which is not smaller than the maximum
64-bit value. -/
theorem C15_counterexample :
    Call.vkWaitForFences 40 UINT64_MAX ∈
      (RunComputeTest acceptingDriver sampleGlobals fun _ => 0).trace ∧
    ¬ UINT64_MAX < 2 ^ 64 - 1 :=
  ⟨acceptingDriver_wait_mem, by decide⟩

/-- C15, amended: every fence wait of a run is issued on the fence of the run
with the timeout `UINT64_MAX = 2 ^ 64 - 1`, the maximum 64-bit value, that is
without a bounded budget; a wait that returns anything but `VK_SUCCESS`,
`VK_TIMEOUT` included, makes the run leave its `do` block with that result. -/
theorem C15_fence_wait_is_unbounded (d : Driver) (g : Globals) (bytes : Nat → Nat) :
    (∀ fence timeout, Call.vkWaitForFences fence timeout ∈ (RunComputeTest d g bytes).trace →
      fence = d.vkCreateFence.2 ∧ timeout = UINT64_MAX) ∧
    UINT64_MAX = 2 ^ 64 - 1 ∧
    (d.vkWaitForFences ≠ VK_SUCCESS →
      (runBlock d g (RunState.init bytes)).1 ≠ VK_SUCCESS) := by
  refine ⟨fun fence timeout h => ?_, rfl, fun hw hs => ?_⟩
  · rcases mem_RunComputeTest d g bytes _ h with h | h
    · exact mem_allCalls_vkWaitForFences d g fence timeout h
    · have := isRelease_of_mem_teardown _ _ h
      simp [isRelease] at this
  · rw [runBlock_eq, runSteps_success_iff] at hs
    have := hs { calls := [Call.vkWaitForFences d.vkCreateFence.2 UINT64_MAX]
                 res := some d.vkWaitForFences } (by simp [completionSteps])
    exact hw (this _ rfl)

/-- Witness of C15, amended: the wait of the run with the accepting driver. -/
theorem C15_witness :
    Call.vkWaitForFences 40 UINT64_MAX ∈
      (RunComputeTest acceptingDriver sampleGlobals fun _ => 0).trace ∧
    (40 = acceptingDriver.vkCreateFence.2 ∧ UINT64_MAX = UINT64_MAX) :=
  ⟨acceptingDriver_wait_mem,
    (C15_fence_wait_is_unbounded acceptingDriver sampleGlobals fun _ => 0).1 40 UINT64_MAX
      acceptingDriver_wait_mem⟩

/-! ## The first failure of a run -/

theorem runBlock_blockSteps (d : Driver) (g : Globals) (s : RunState) :
    runBlock d g s = runSteps (blockSteps d g) s :=
  runBlock_eq d g s

theorem timeoutDriver_prefix_passes :
    ∀ x ∈ (blockSteps timeoutDriver sampleGlobals).take 27, x.passes = true := by
  intro x hx
  simp [blockSteps, setupSteps, allocateSteps, shaderModuleSteps, computePipelineSteps,
    descriptorSetsSteps, commandBufferSteps, beginStep, recordStep, completionSteps] at hx
  rcases hx with hx | hx | hx | hx | hx | hx | hx | hx | hx | hx | hx | hx | hx | hx | hx | hx |
    hx | hx | hx | hx | hx | hx | hx | hx | hx | hx | hx <;> subst hx <;> rfl

/-! ## Lemmas on handles and creation calls -/

theorem length_eq_four {α : Type} (l : List α) (h : l.length = 4) :
    ∃ a b c d, l = [a, b, c, d] := by
  match l, h with
  | [a, b, c, d], _ => exact ⟨a, b, c, d, rfl⟩

theorem length_eq_three {α : Type} (l : List α) (h : l.length = 3) :
    ∃ a b c, l = [a, b, c] := by
  match l, h with
  | [a, b, c], _ => exact ⟨a, b, c, rfl⟩

theorem Handles.init_wf : Handles.init.wf := ⟨rfl, rfl⟩

theorem tracksHandles_init (d : Driver) (bytes : Nat → Nat) :
    tracksHandles d (RunState.init bytes) := by
  refine ⟨Handles.init_wf, fun r => ?_⟩
  cases r with
  | buffer i => fin_cases i <;> rfl
  | memory i => fin_cases i <;> rfl
  | _ => rfl

theorem Step.run_tracks (d : Driver) (st : Step) (s : RunState) (hst : st.tracks d)
    (hs : tracksHandles d s) : tracksHandles d (st.run s) := by
  obtain ⟨hwf, hget⟩ := hs
  obtain ⟨hwf2, hr⟩ := hst s.handles hwf
  refine ⟨hwf2, fun r => ?_⟩
  show r.get (st.store s.handles) =
    if (s.trace ++ st.calls).any r.isCreation = true then _ else _
  rw [List.any_append]
  rcases hr r with ⟨h1, h2⟩ | ⟨h1, h2⟩
  · rw [h2, hget r, h1, Bool.or_false]
  · rw [h2, h1, Bool.or_true]
    rfl

theorem runSteps_tracks (d : Driver) (l : List Step) (s : RunState)
    (hl : ∀ st ∈ l, st.tracks d) (hs : tracksHandles d s) :
    tracksHandles d (runSteps l s).2 := by
  induction l generalizing s with
  | nil => exact hs
  | cons st rest ih =>
    have h1 := Step.run_tracks d st s (hl st (List.mem_cons_self _ _)) hs
    have h2 := ih (st.run s) (fun x hx => hl x (List.mem_cons_of_mem _ hx)) h1
    simp only [runSteps]
    cases hres : st.res with
    | none => exact h2
    | some res =>
      by_cases hr : res = VK_SUCCESS
      · simpa [hr] using h2
      · simpa [hr] using h1

theorem isCreation_of_creates_none (r : Resource) (c : Call) (h : creates c = none) :
    r.isCreation c = false := by
  simp [Resource.isCreation, h]

theorem creates_queryAddress (d : Driver) (ext : Option (Nat → Nat)) (b : Nat) :
    creates (queryAddress d ext b).2 = none := by
  cases ext <;> rfl

theorem creates_of_isMessage (c : Call) (h : isMessage c = true) : creates c = none := by
  cases c <;> first | rfl | simp [isMessage] at h

theorem creates_of_isCmd (c : Call) (h : isCmd c = true) : creates c = none := by
  cases c <;> first | rfl | simp [isCmd] at h

theorem any_isCreation_false (r : Resource) (l : List Call) (h : ∀ c ∈ l, creates c = none) :
    l.any r.isCreation = false := by
  rw [List.any_eq_false]
  intro c hc
  simp [isCreation_of_creates_none r c (h c hc)]

/-- A step that stores no handle and holds no creation call. -/
theorem Step.tracks_of_plain (d : Driver) (st : Step) (hs : st.store = id)
    (hc : ∀ c ∈ st.calls, creates c = none) : st.tracks d := by
  intro h hwf
  rw [hs]
  exact ⟨hwf, fun r => Or.inl ⟨any_isCreation_false r _ hc, rfl⟩⟩

theorem computePipelineSteps_tracks (d : Driver) (m n : Nat) :
    ∀ st ∈ computePipelineSteps d m n, st.tracks d := by
  intro st hst
  simp only [computePipelineSteps, List.mem_cons, List.mem_singleton, List.not_mem_nil,
    or_false] at hst
  rcases hst with rfl | rfl | rfl <;>
  · intro h hwf
    refine ⟨hwf, fun r => ?_⟩
    cases r with
    | buffer i => fin_cases i <;> simp [Resource.isCreation, creates, Resource.get]
    | memory i => fin_cases i <;> simp [Resource.isCreation, creates, Resource.get]
    | _ => simp [Resource.isCreation, creates, Resource.get, Resource.handle]

theorem shaderModuleSteps_tracks (d : Driver) : ∀ st ∈ shaderModuleSteps d, st.tracks d := by
  intro st hst
  simp only [shaderModuleSteps, List.mem_cons, List.mem_singleton, List.not_mem_nil,
    or_false] at hst
  rcases hst with rfl | rfl <;>
  · intro h hwf
    refine ⟨hwf, fun r => ?_⟩
    cases r with
    | buffer i => fin_cases i <;> simp [Resource.isCreation, creates, Resource.get]
    | memory i => fin_cases i <;> simp [Resource.isCreation, creates, Resource.get]
    | _ => simp [Resource.isCreation, creates, Resource.get, Resource.handle]

theorem descriptorSetsSteps_tracks (d : Driver) (b n l : Nat) :
    ∀ st ∈ descriptorSetsSteps d b n l, st.tracks d := by
  intro st hst
  simp only [descriptorSetsSteps, List.mem_cons, List.mem_singleton, List.not_mem_nil,
    or_false] at hst
  rcases hst with rfl | rfl | rfl <;>
  · intro h hwf
    refine ⟨hwf, fun r => ?_⟩
    cases r with
    | buffer i => fin_cases i <;> simp [Resource.isCreation, creates, Resource.get]
    | memory i => fin_cases i <;> simp [Resource.isCreation, creates, Resource.get]
    | _ => simp [Resource.isCreation, creates, Resource.get, Resource.handle]

theorem commandBufferSteps_tracks (d : Driver) (q n : Nat) :
    ∀ st ∈ commandBufferSteps d q n, st.tracks d := by
  intro st hst
  simp only [commandBufferSteps, List.mem_cons, List.mem_singleton, List.not_mem_nil,
    or_false] at hst
  rcases hst with rfl | rfl <;>
  · intro h hwf
    refine ⟨hwf, fun r => ?_⟩
    cases r with
    | buffer i => fin_cases i <;> simp [Resource.isCreation, creates, Resource.get]
    | memory i => fin_cases i <;> simp [Resource.isCreation, creates, Resource.get]
    | _ => simp [Resource.isCreation, creates, Resource.get, Resource.handle]

theorem beginStep_tracks (d : Driver) (g : Globals) : (beginStep d g).tracks d := by
  refine Step.tracks_of_plain d _ rfl fun c hc => ?_
  simp only [beginStep, List.mem_cons, List.mem_singleton, List.not_mem_nil, or_false] at hc
  rcases hc with rfl | rfl <;> rfl

theorem recordStep_tracks (d : Driver) (g : Globals) : (recordStep d g).tracks d := by
  refine Step.tracks_of_plain d _ rfl fun c hc => ?_
  simp only [recordStep, recordCommands, WriteBufferAndSync, SyncAndReadBuffer, List.mem_append,
    List.mem_cons, List.mem_singleton, List.not_mem_nil, or_false] at hc
  rcases hc with (((hc | hc) | hc) | hc) | hc
  · rcases hc with rfl | rfl <;> rfl
  · rcases hc with rfl | rfl | rfl <;> rfl
  · rw [hc]; rfl
  · rcases hc with rfl | rfl <;> rfl
  · rw [hc]; rfl

theorem completionSteps_tracks (d : Driver) : ∀ st ∈ completionSteps d, st.tracks d := by
  intro st hst
  simp only [completionSteps, List.mem_cons, List.mem_singleton, List.not_mem_nil,
    or_false] at hst
  rcases hst with rfl | rfl | rfl | rfl | rfl
  · intro h hwf
    refine ⟨hwf, fun r => ?_⟩
    cases r with
    | buffer i => fin_cases i <;> simp [Resource.isCreation, creates, Resource.get]
    | memory i => fin_cases i <;> simp [Resource.isCreation, creates, Resource.get]
    | _ => simp [Resource.isCreation, creates, Resource.get, Resource.handle]
  · exact Step.tracks_of_plain d _ rfl fun c hc => by
      simp only [List.mem_singleton] at hc; rw [hc]; rfl
  · exact Step.tracks_of_plain d _ rfl fun c hc => by
      simp only [List.mem_singleton] at hc; rw [hc]; rfl
  · exact Step.tracks_of_plain d _ rfl fun c hc => by
      simp only [List.mem_singleton] at hc; rw [hc]; rfl
  · refine Step.tracks_of_plain d _ rfl fun c hc => ?_
    simp only [List.mem_append, List.mem_singleton] at hc
    rcases hc with hc | rfl
    · exact creates_of_isMessage c (isMessage_of_mem_verifyResult _ _ c hc)
    · rfl

theorem Handles.setBuffer_wf (h : Handles) (i v : Nat) (hwf : h.wf) : (h.setBuffer i v).wf := by
  obtain ⟨h1, h2⟩ := hwf
  exact ⟨by simp [Handles.setBuffer, h1], h2⟩

theorem Handles.setMemory_wf (h : Handles) (i v : Nat) (hwf : h.wf) : (h.setMemory i v).wf := by
  obtain ⟨h1, h2⟩ := hwf
  exact ⟨h1, by simp [Handles.setMemory, h2]⟩

theorem allocateSteps_tracks (d : Driver) (ext : Option (Nat → Nat))
    (p : VkPhysicalDeviceMemoryProperties) (bs q : Nat) :
    ∀ st ∈ allocateSteps d ext p bs q, st.tracks d := by
  intro st hst
  simp only [allocateSteps, List.mem_cons, List.mem_singleton, List.not_mem_nil,
    or_false] at hst
  rcases hst with rfl | rfl | rfl | rfl | rfl | rfl | rfl | rfl | rfl | rfl | rfl | rfl | rfl
  case inr.inr.inr.inr.inr.inr.inr.inr.inr.inr.inr.inr =>
    refine Step.tracks_of_plain d _ rfl fun c hc => ?_
    simp only [List.mem_cons, List.mem_singleton, List.not_mem_nil, or_false] at hc
    rcases hc with rfl | rfl | rfl
    · exact creates_queryAddress _ _ _
    · exact creates_queryAddress _ _ _
    · rfl
  all_goals
    intro h hwf
    obtain ⟨a0, a1, a2, a3, hb⟩ := length_eq_four _ hwf.1
    obtain ⟨c0, c1, c2, hm⟩ := length_eq_three _ hwf.2
    refine ⟨by first | exact hwf | exact Handles.setBuffer_wf _ _ _ hwf
                     | exact Handles.setMemory_wf _ _ _ hwf, fun r => ?_⟩
    cases r with
    | buffer i =>
      fin_cases i <;>
        simp [Resource.isCreation, creates, Resource.get, Resource.handle, Handles.setBuffer,
          Handles.setMemory, hb, hm]
    | memory i =>
      fin_cases i <;>
        simp [Resource.isCreation, creates, Resource.get, Resource.handle, Handles.setBuffer,
          Handles.setMemory, hb, hm]
    | _ =>
      simp [Resource.isCreation, creates, Resource.get, Resource.handle, Handles.setBuffer,
        Handles.setMemory]

theorem blockSteps_tracks (d : Driver) (g : Globals) : ∀ st ∈ blockSteps d g, st.tracks d := by
  intro st hst
  simp only [blockSteps, setupSteps, List.mem_append, List.mem_cons, List.mem_singleton,
    List.not_mem_nil, or_false] at hst
  rcases hst with (h | h | h | h | h | h) | h | h
  · exact allocateSteps_tracks _ _ _ _ _ st h
  · exact shaderModuleSteps_tracks _ st h
  · exact computePipelineSteps_tracks _ _ _ st h
  · exact descriptorSetsSteps_tracks _ _ _ _ st h
  · exact commandBufferSteps_tracks _ _ _ st h
  · rw [h]; exact beginStep_tracks d g
  · rw [h]; exact recordStep_tracks d g
  · exact completionSteps_tracks _ st h

theorem runBlock_tracks (d : Driver) (g : Globals) (bytes : Nat → Nat) :
    tracksHandles d (runBlock d g (RunState.init bytes)).2 := by
  rw [runBlock_blockSteps]
  exact runSteps_tracks d _ _ (blockSteps_tracks d g) (tracksHandles_init d bytes)

/-! ## Lemmas on the release section -/

theorem flatMap_filter_cons {α β : Type} (p : α → Bool) (f : α → List β) (a : α) (l : List α) :
    ((a :: l).filter p).flatMap f = (if p a = true then f a else []) ++ (l.filter p).flatMap f := by
  cases h : p a <;> simp [List.filter_cons, h]

theorem releaseAll_cons (release : Nat → Call) (a : Nat) (l : List Nat) :
    releaseAll release (a :: l) =
      (if a ≠ VK_NULL_HANDLE then [release a] else []) ++ releaseAll release l := by
  by_cases h : a = VK_NULL_HANDLE <;> simp [releaseAll, List.filter_cons, h]

theorem releaseAll_nil (release : Nat → Call) : releaseAll release [] = [] := rfl

/-- The release section issues, in the order of `teardownOrder`, the release
calls of the resources whose handle is not `VK_NULL_HANDLE`. -/
theorem teardown_eq (h : Handles) (hwf : h.wf) :
    teardown h = (releasedResources h).flatMap (Resource.release h) := by
  obtain ⟨a0, a1, a2, a3, hb⟩ := length_eq_four _ hwf.1
  obtain ⟨c0, c1, c2, hm⟩ := length_eq_three _ hwf.2
  unfold teardown releasedResources teardownOrder
  simp only [flatMap_filter_cons, hb, hm, releaseAll_cons, releaseAll_nil, List.filter_nil]
  simp [Resource.get, Resource.release, hb, hm]
  rfl

theorem mem_teardownOrder (r : Resource) : r ∈ teardownOrder := by
  cases r with
  | buffer i => fin_cases i <;> decide
  | memory i => fin_cases i <;> decide
  | _ => decide

theorem teardownOrder_nodup : teardownOrder.Nodup := by decide

theorem Resource.release_ne_nil (h : Handles) (r : Resource) : r.release h ≠ [] := by
  cases r <;> simp [Resource.release]

theorem teardown_eq_nil_iff (h : Handles) (hwf : h.wf) :
    teardown h = [] ↔ ∀ r : Resource, r.get h = VK_NULL_HANDLE := by
  rw [teardown_eq h hwf]
  constructor
  · intro hnil r
    by_contra hne
    have hr : r ∈ releasedResources h :=
      List.mem_filter.2 ⟨mem_teardownOrder r, by simpa using hne⟩
    have hsub : ∀ c ∈ r.release h, c ∈ (releasedResources h).flatMap (Resource.release h) :=
      fun c hc => List.mem_flatMap.2 ⟨r, hr, hc⟩
    rw [hnil] at hsub
    cases hrel : r.release h with
    | nil => exact Resource.release_ne_nil h r hrel
    | cons c rest =>
      have := hsub c (by rw [hrel]; exact List.mem_cons_self _ _)
      cases this
  · intro hall
    have : releasedResources h = [] := by
      unfold releasedResources
      rw [List.filter_eq_nil_iff]
      intro r _
      simp [hall r]
    rw [this]
    rfl

/-- With a driver that follows the convention on creation calls, the handle of
a resource is not `VK_NULL_HANDLE` exactly when the resource was created. -/
theorem get_ne_null_iff_created (d : Driver) (s : RunState) (ht : tracksHandles d s)
    (hd : d.wellBehaved) (r : Resource) :
    r.get s.handles ≠ VK_NULL_HANDLE ↔ created d s.trace r = true := by
  rw [ht.2 r, created, Bool.and_eq_true, decide_eq_true_eq, hd r]
  by_cases h : s.trace.any r.isCreation = true
  · simp [h]
  · simp [h]

theorem releasedResources_eq_created (d : Driver) (s : RunState) (ht : tracksHandles d s)
    (hd : d.wellBehaved) :
    releasedResources s.handles = teardownOrder.filter (created d s.trace) := by
  unfold releasedResources
  apply List.filter_congr
  intro r _
  have := get_ne_null_iff_created d s ht hd r
  by_cases h : created d s.trace r = true
  · rw [h]; exact decide_eq_true (this.2 h)
  · rw [Bool.not_eq_true] at h
    rw [h]
    exact decide_eq_false fun hne => by
      have := this.1 hne
      rw [h] at this
      cases this

/-! ## Lemmas on the calls of the block -/

theorem creates_of_isRelease (c : Call) (h : isRelease c = true) : creates c = none := by
  cases c <;> first | rfl | simp [isRelease] at h

theorem isRelease_of_creates (c : Call) (r : Resource) (h : creates c = some r) :
    isRelease c = false := by
  cases c <;> first | rfl | simp [creates] at h

theorem filterMap_creates_eq_nil (l : List Call) (h : ∀ c ∈ l, creates c = none) :
    l.filterMap creates = [] := by
  induction l with
  | nil => rfl
  | cons c rest ih =>
    rw [List.filterMap_cons, h c (List.mem_cons_self _ _)]
    exact ih fun x hx => h x (List.mem_cons_of_mem _ hx)

theorem acquired_verifyResult (n : Nat) (dstMem : Nat → Nat) :
    (verifyResult n dstMem).filterMap creates = [] :=
  filterMap_creates_eq_nil _ fun c hc =>
    creates_of_isMessage c (isMessage_of_mem_verifyResult _ _ c hc)

theorem acquired_teardown (h : Handles) : acquired (teardown h) = [] :=
  filterMap_creates_eq_nil _ fun c hc => creates_of_isRelease c (isRelease_of_mem_teardown _ _ hc)

/-- The creation calls of the whole block come in the order of
`acquisitionOrder`. -/
theorem acquired_blockSteps (d : Driver) (g : Globals) :
    acquired (((blockSteps d g).map Step.calls).flatten) = acquisitionOrder := by
  unfold blockSteps acquired
  rw [allCalls_eq]
  generalize g.s_vkGetBufferDeviceAddressEXT = ext
  cases ext <;>
    simp [List.filterMap_append, List.filterMap_cons, acquired_verifyResult, creates,
      queryAddress, recordCommands, WriteBufferAndSync, SyncAndReadBuffer, acquisitionOrder]

theorem acquired_runBlock_prefix (d : Driver) (g : Globals) (bytes : Nat → Nat) :
    acquired (runBlock d g (RunState.init bytes)).2.trace <+: acquisitionOrder := by
  obtain ⟨k, hk⟩ := runSteps_trace_prefix (blockSteps d g) (RunState.init bytes)
  rw [runBlock_blockSteps, hk, ← acquired_blockSteps d g]
  show acquired ([] ++ _) <+: _
  rw [List.nil_append]
  conv_rhs => rw [← List.take_append_drop k (blockSteps d g)]
  rw [List.map_append, List.flatten_append]
  unfold acquired
  rw [List.filterMap_append]
  exact List.prefix_append _ _

theorem acquired_RunComputeTest (d : Driver) (g : Globals) (bytes : Nat → Nat) :
    acquired (RunComputeTest d g bytes).trace =
      acquired (runBlock d g (RunState.init bytes)).2.trace := by
  rw [RunComputeTest_trace]
  unfold acquired
  rw [List.filterMap_append]
  have := acquired_teardown (runBlock d g (RunState.init bytes)).2.handles
  unfold acquired at this
  rw [this, List.append_nil]

theorem isRelease_of_mem_runBlock (d : Driver) (g : Globals) (bytes : Nat → Nat) (c : Call)
    (hc : c ∈ (runBlock d g (RunState.init bytes)).2.trace) : isRelease c = false := by
  rw [runBlock_eq] at hc
  rcases mem_runSteps_trace _ _ _ hc with h0 | ⟨st, hst, hcs⟩
  · simp [RunState.init] at h0
  · have hmem : c ∈ ((setupSteps d g ++ (recordStep d g :: completionSteps d)).map
        Step.calls).flatten :=
      List.mem_flatten.2 ⟨st.calls, List.mem_map.2 ⟨st, hst, rfl⟩, hcs⟩
    rw [allCalls_eq] at hmem
    simp only [List.mem_append] at hmem
    rcases hmem with h | h | h | h | h
    · generalize g.s_vkGetBufferDeviceAddressEXT = ext at h
      cases ext <;> simp [queryAddress] at h <;> casesm* _ ∨ _ <;> subst_vars <;> rfl
    · simp [recordCommands, WriteBufferAndSync, SyncAndReadBuffer] at h
      casesm* _ ∨ _ <;> subst_vars <;> rfl
    · simp at h
      casesm* _ ∨ _ <;> subst_vars <;> rfl
    · have := isMessage_of_mem_verifyResult _ _ _ h
      cases c <;> first | rfl | simp [isMessage] at this
    · simp at h
      subst h
      rfl

/-- The release calls of a run are those of its release section. -/
theorem filter_isRelease_RunComputeTest (d : Driver) (g : Globals) (bytes : Nat → Nat) :
    (RunComputeTest d g bytes).trace.filter isRelease =
      teardown (runBlock d g (RunState.init bytes)).2.handles := by
  rw [RunComputeTest_trace, List.filter_append,
    List.filter_eq_nil_iff.2 fun c hc => by
      simp [isRelease_of_mem_runBlock d g bytes c hc],
    List.nil_append,
    List.filter_eq_self.2 fun c hc => isRelease_of_mem_teardown _ _ hc]

/-! ## Lemmas on the checked calls -/

/-- A run leaves at the first checked call whose result is not `VK_SUCCESS`:
the calls issued are those up to and including it. -/
theorem runSteps_checkpoints_failure (l : List Step) :
    ∀ (pending : List Call) (s : RunState) (t0 : List Call) (k : Nat)
      (seg : List Call × VkResult),
      s.trace = t0 ++ pending →
      (checkpointsOf l pending).1[k]? = some seg →
      (∀ x ∈ (checkpointsOf l pending).1.take k, x.2 = VK_SUCCESS) →
      seg.2 ≠ VK_SUCCESS →
      (runSteps l s).1 = seg.2 ∧
      (runSteps l s).2.trace =
        t0 ++ (((checkpointsOf l pending).1.take (k + 1)).map Prod.fst).flatten := by
  induction l with
  | nil =>
    intro pending s t0 k seg _ hk _ _
    simp [checkpointsOf] at hk
  | cons st rest ih =>
    intro pending s t0 k seg hs hk hpre hfail
    cases hres : st.res with
    | none =>
      have hcp : checkpointsOf (st :: rest) pending = checkpointsOf rest (pending ++ st.calls) := by
        simp only [checkpointsOf, hres]
      rw [hcp] at hk hpre ⊢
      have hrun : runSteps (st :: rest) s = runSteps rest (st.run s) := by
        simp only [runSteps, hres]
      rw [hrun]
      exact ih (pending ++ st.calls) (st.run s) t0 k seg
        (by show s.trace ++ st.calls = _; rw [hs, List.append_assoc]) hk hpre hfail
    | some res =>
      have hcp : (checkpointsOf (st :: rest) pending).1 =
          (pending ++ st.calls, res) :: (checkpointsOf rest []).1 := by
        simp only [checkpointsOf, hres]
      rw [hcp] at hk hpre ⊢
      rw [runSteps_cons_some _ _ _ _ hres]
      cases k with
      | zero =>
        have hseg : seg = (pending ++ st.calls, res) := by simpa using hk.symm
        subst hseg
        rw [if_pos hfail]
        refine ⟨rfl, ?_⟩
        show s.trace ++ st.calls = _
        rw [hs]
        simp
      | succ k =>
        have hok : res = VK_SUCCESS := hpre (pending ++ st.calls, res) (by simp)
        rw [if_neg (not_not.mpr hok)]
        have hk2 : (checkpointsOf rest []).1[k]? = some seg := by simpa using hk
        have hpre2 : ∀ x ∈ (checkpointsOf rest []).1.take k, x.2 = VK_SUCCESS := by
          intro x hx
          exact hpre x (by rw [List.take_succ_cons]; exact List.mem_cons_of_mem _ hx)
        obtain ⟨h1, h2⟩ := ih [] (st.run s) (t0 ++ (pending ++ st.calls)) k seg
          (by show s.trace ++ st.calls = _; rw [hs]; simp) hk2 hpre2 hfail
        refine ⟨h1, ?_⟩
        rw [h2]
        simp

/-- A run in which every checked call returns `VK_SUCCESS` issues every call. -/
theorem runSteps_checkpoints_success (l : List Step) :
    ∀ (pending : List Call) (s : RunState) (t0 : List Call),
      s.trace = t0 ++ pending →
      (∀ x ∈ (checkpointsOf l pending).1, x.2 = VK_SUCCESS) →
      (runSteps l s).1 = VK_SUCCESS ∧
      (runSteps l s).2.trace =
        t0 ++ (((checkpointsOf l pending).1.map Prod.fst).flatten ++
          (checkpointsOf l pending).2) := by
  induction l with
  | nil =>
    intro pending s t0 hs _
    simp [checkpointsOf, runSteps, hs]
  | cons st rest ih =>
    intro pending s t0 hs hall
    cases hres : st.res with
    | none =>
      have hcp : checkpointsOf (st :: rest) pending = checkpointsOf rest (pending ++ st.calls) := by
        simp only [checkpointsOf, hres]
      rw [hcp] at hall ⊢
      have hrun : runSteps (st :: rest) s = runSteps rest (st.run s) := by
        simp only [runSteps, hres]
      rw [hrun]
      exact ih (pending ++ st.calls) (st.run s) t0
        (by show s.trace ++ st.calls = _; rw [hs, List.append_assoc]) hall
    | some res =>
      have hcp : checkpointsOf (st :: rest) pending =
          ((pending ++ st.calls, res) :: (checkpointsOf rest []).1, (checkpointsOf rest []).2) := by
        simp only [checkpointsOf, hres]
      rw [hcp] at hall ⊢
      rw [runSteps_cons_some _ _ _ _ hres]
      have hok : res = VK_SUCCESS := hall (pending ++ st.calls, res) (by simp)
      rw [if_neg (not_not.mpr hok)]
      obtain ⟨h1, h2⟩ := ih [] (st.run s) (t0 ++ (pending ++ st.calls))
        (by show s.trace ++ st.calls = _; rw [hs]; simp)
        (fun x hx => hall x (List.mem_cons_of_mem _ hx))
      refine ⟨h1, ?_⟩
      rw [h2]
      simp

/-- The checked calls of the `do` block of `RunComputeTest` are the twenty-seven
of `checkpoints`, followed by the unchecked result check. -/
theorem blockSteps_checkpoints (d : Driver) (g : Globals) :
    checkpointsOf (blockSteps d g) [] = (checkpoints d g, uncheckedTail d) := by
  simp [checkpointsOf, blockSteps, setupSteps, allocateSteps, shaderModuleSteps,
    computePipelineSteps, descriptorSetsSteps, commandBufferSteps, beginStep, recordStep,
    completionSteps, checkpoints, uncheckedTail]

/-! ## The calls of the block, once each -/

theorem checkpointsOf_calls (l : List Step) :
    ∀ pending : List Call,
      ((checkpointsOf l pending).1.map Prod.fst).flatten ++ (checkpointsOf l pending).2 =
        pending ++ (l.map Step.calls).flatten := by
  induction l with
  | nil => intro pending; simp [checkpointsOf]
  | cons st rest ih =>
    intro pending
    cases hres : st.res with
    | none =>
      have hcp : checkpointsOf (st :: rest) pending = checkpointsOf rest (pending ++ st.calls) := by
        simp only [checkpointsOf, hres]
      rw [hcp, ih]
      simp
    | some res =>
      have hcp : checkpointsOf (st :: rest) pending =
          ((pending ++ st.calls, res) :: (checkpointsOf rest []).1, (checkpointsOf rest []).2) := by
        simp only [checkpointsOf, hres]
      rw [hcp]
      have := ih []
      simp only [List.nil_append] at this
      simp only [List.map_cons, List.flatten_cons, List.append_assoc, this]

/-- The calls of a `do` block that passes every check, in program order. -/
theorem blockCalls_eq (d : Driver) (g : Globals) :
    ((blockSteps d g).map Step.calls).flatten =
      ((checkpoints d g).map Prod.fst).flatten ++ uncheckedTail d := by
  have h := checkpointsOf_calls (blockSteps d g) []
  rw [blockSteps_checkpoints] at h
  exact h.symm

/-- The calls of the `do` block of any run are an initial part of the calls of
a `do` block that passes every check. -/
theorem runBlock_trace_initial (d : Driver) (g : Globals) (bytes : Nat → Nat) :
    (runBlock d g (RunState.init bytes)).2.trace <+:
      ((checkpoints d g).map Prod.fst).flatten ++ uncheckedTail d := by
  obtain ⟨k, hk⟩ := runSteps_trace_prefix (blockSteps d g) (RunState.init bytes)
  rw [runBlock_blockSteps, hk, ← blockCalls_eq]
  show [] ++ _ <+: _
  rw [List.nil_append]
  conv_rhs => rw [← List.take_append_drop k (blockSteps d g)]
  rw [List.map_append, List.flatten_append]
  exact List.prefix_append _ _

theorem countP_verifyResult (p : Call → Bool) (n : Nat) (dstMem : Nat → Nat)
    (hp : ∀ c, isMessage c = true → p c = false) : (verifyResult n dstMem).countP p = 0 := by
  rw [List.countP_eq_zero]
  intro c hc
  simp [hp c (isMessage_of_mem_verifyResult _ _ c hc)]

theorem countP_teardown (p : Call → Bool) (h : Handles)
    (hp : ∀ c, isRelease c = true → p c = false) : (teardown h).countP p = 0 := by
  rw [List.countP_eq_zero]
  intro c hc
  simp [hp c (isRelease_of_mem_teardown _ _ hc)]

/-- A run issues no more calls of a kind than a `do` block that passes every
check holds, when neither the messages nor the release calls are of that
kind. -/
theorem countP_RunComputeTest_le (p : Call → Bool) (d : Driver) (g : Globals)
    (bytes : Nat → Nat) (hr : ∀ c, isRelease c = true → p c = false) :
    (RunComputeTest d g bytes).trace.countP p ≤
      (((checkpoints d g).map Prod.fst).flatten ++ uncheckedTail d).countP p := by
  rw [RunComputeTest_trace, List.countP_append, countP_teardown p _ hr, Nat.add_zero]
  exact (runBlock_trace_initial d g bytes).sublist.countP_le p

theorem countP_isEndCommandBuffer_block (d : Driver) (g : Globals) :
    (((checkpoints d g).map Prod.fst).flatten ++ uncheckedTail d).countP isEndCommandBuffer =
      1 := by
  have hv := countP_verifyResult isEndCommandBuffer elemCount d.readBack
    (fun c hc => by cases c <;> first | rfl | simp [isMessage] at hc)
  unfold checkpoints uncheckedTail
  generalize g.s_vkGetBufferDeviceAddressEXT = ext
  cases ext <;>
    simp [List.countP_cons, hv, isEndCommandBuffer, queryAddress, recordCommands, WriteBufferAndSync,
      SyncAndReadBuffer]

theorem countP_isQueueSubmit_block (d : Driver) (g : Globals) :
    (((checkpoints d g).map Prod.fst).flatten ++ uncheckedTail d).countP isQueueSubmit = 1 := by
  have hv := countP_verifyResult isQueueSubmit elemCount d.readBack
    (fun c hc => by cases c <;> first | rfl | simp [isMessage] at hc)
  unfold checkpoints uncheckedTail
  generalize g.s_vkGetBufferDeviceAddressEXT = ext
  cases ext <;>
    simp [List.countP_cons, hv, isQueueSubmit, queryAddress, recordCommands, WriteBufferAndSync,
      SyncAndReadBuffer]

theorem countP_isFenceWait_block (d : Driver) (g : Globals) :
    (((checkpoints d g).map Prod.fst).flatten ++ uncheckedTail d).countP isFenceWait = 1 := by
  have hv := countP_verifyResult isFenceWait elemCount d.readBack
    (fun c hc => by cases c <;> first | rfl | simp [isMessage] at hc)
  unfold checkpoints uncheckedTail
  generalize g.s_vkGetBufferDeviceAddressEXT = ext
  cases ext <;>
    simp [List.countP_cons, hv, isFenceWait, queryAddress, recordCommands, WriteBufferAndSync,
      SyncAndReadBuffer]

/-! ## C16: the first failure of a run -/

theorem timeoutDriver_checks_before_wait :
    ∀ x ∈ (checkpoints timeoutDriver sampleGlobals).take 25, x.2 = VK_SUCCESS := by
  intro x hx
  simp only [checkpoints, List.take_succ_cons, List.take_zero, List.mem_cons, List.mem_singleton,
    List.not_mem_nil, or_false] at hx
  casesm* _ ∨ _ <;> subst_vars <;> rfl

/-- C16: whatever results the calls of a run return.  The `do` block of
`RunComputeTest` tests twenty-seven results, in this order: the twelve of
`AllocateMemoryAndBuffers` (four buffer creations, three allocations, four
binds, the map), the opening of the shader file and `vkCreateShaderModule`, the
three creations of `CreateComputePipeline`, `vkCreateDescriptorPool` and
`vkAllocateDescriptorSets`, `vkCreateCommandPool` and `vkAllocateCommandBuffers`,
`vkBeginCommandBuffer`, `vkEndCommandBuffer`, `vkCreateFence`, `vkQueueSubmit`,
`vkWaitForFences`, and the `vkMapMemory` of the result check.  If check `k` is
the first whose result is not `VK_SUCCESS`, the block is left with that result
and the calls of the run are exactly the calls up to and including checked call
`k`, each once and in program order, followed by the release section: no call
after `k` is issued.  If every check passes, every call is issued, the result
check included.  In every run the release calls are those of the release
section, one group for each handle that is not null, and the run holds at most
one `vkEndCommandBuffer`, one `vkQueueSubmit` and one `vkWaitForFences`: nothing
is retried. -/
theorem C16_first_failure_ends_the_run (d : Driver) (g : Globals) (bytes : Nat → Nat) :
    (checkpoints d g).map Prod.snd =
      [(d.vkCreateBuffer 0).1, (d.vkAllocateMemory 0).1, d.vkBindBufferMemory 0,
       (d.vkCreateBuffer 1).1, (d.vkCreateBuffer 2).1, (d.vkAllocateMemory 1).1,
       d.vkBindBufferMemory 1, d.vkBindBufferMemory 2, (d.vkCreateBuffer 3).1,
       (d.vkAllocateMemory 2).1, d.vkBindBufferMemory 3, d.vkMapMemory 0,
       if d.fopen.isNone then VK_ERROR_INITIALIZATION_FAILED else VK_SUCCESS,
       d.vkCreateShaderModule.1, d.vkCreateDescriptorSetLayout.1, d.vkCreatePipelineLayout.1,
       d.vkCreateComputePipelines.1, d.vkCreateDescriptorPool.1, d.vkAllocateDescriptorSets.1,
       d.vkCreateCommandPool.1, d.vkAllocateCommandBuffers.1, d.vkBeginCommandBuffer,
       d.vkEndCommandBuffer, d.vkCreateFence.1, d.vkQueueSubmit, d.vkWaitForFences,
       d.vkMapMemory 1] ∧
    (∀ (k : Nat) (seg : List Call × VkResult), (checkpoints d g)[k]? = some seg →
      (∀ x ∈ (checkpoints d g).take k, x.2 = VK_SUCCESS) → seg.2 ≠ VK_SUCCESS →
      (runBlock d g (RunState.init bytes)).1 = seg.2 ∧
      (RunComputeTest d g bytes).trace =
        (((checkpoints d g).take (k + 1)).map Prod.fst).flatten ++
          teardown (RunComputeTest d g bytes).handles) ∧
    ((∀ x ∈ checkpoints d g, x.2 = VK_SUCCESS) →
      (runBlock d g (RunState.init bytes)).1 = VK_SUCCESS ∧
      (RunComputeTest d g bytes).trace =
        ((checkpoints d g).map Prod.fst).flatten ++ uncheckedTail d ++
          teardown (RunComputeTest d g bytes).handles) ∧
    ((RunComputeTest d g bytes).trace.filter isRelease =
        teardown (RunComputeTest d g bytes).handles ∧
      teardown (RunComputeTest d g bytes).handles =
        (releasedResources (RunComputeTest d g bytes).handles).flatMap
          (Resource.release (RunComputeTest d g bytes).handles)) ∧
    ((RunComputeTest d g bytes).trace.countP isEndCommandBuffer ≤ 1 ∧
      (RunComputeTest d g bytes).trace.countP isQueueSubmit ≤ 1 ∧
      (RunComputeTest d g bytes).trace.countP isFenceWait ≤ 1) := by
  have hcp := blockSteps_checkpoints d g
  have hcp1 : (checkpointsOf (blockSteps d g) []).1 = checkpoints d g := by rw [hcp]
  have hcp2 : (checkpointsOf (blockSteps d g) []).2 = uncheckedTail d := by rw [hcp]
  have ht := runBlock_tracks d g bytes
  refine ⟨rfl, fun k seg hk hpre hfail => ?_, fun hall => ?_, ⟨?_, ?_⟩, ?_, ?_, ?_⟩
  · obtain ⟨h1, h2⟩ := runSteps_checkpoints_failure (blockSteps d g) [] (RunState.init bytes) []
      k seg rfl (by rw [hcp1]; exact hk) (by rw [hcp1]; exact hpre) hfail
    rw [hcp1] at h2
    refine ⟨by rw [runBlock_blockSteps]; exact h1, ?_⟩
    rw [RunComputeTest_trace, RunComputeTest_handles, runBlock_blockSteps, h2, List.nil_append]
  · obtain ⟨h1, h2⟩ := runSteps_checkpoints_success (blockSteps d g) [] (RunState.init bytes) []
      rfl (by rw [hcp1]; exact hall)
    rw [hcp1, hcp2] at h2
    refine ⟨by rw [runBlock_blockSteps]; exact h1, ?_⟩
    rw [RunComputeTest_trace, RunComputeTest_handles, runBlock_blockSteps, h2, List.nil_append]
  · rw [filter_isRelease_RunComputeTest, RunComputeTest_handles]
  · rw [RunComputeTest_handles]
    exact teardown_eq _ ht.1
  · exact le_trans (countP_RunComputeTest_le isEndCommandBuffer d g bytes
      (fun c hc => by cases c <;> first | rfl | simp [isRelease] at hc))
      (le_of_eq (countP_isEndCommandBuffer_block d g))
  · exact le_trans (countP_RunComputeTest_le isQueueSubmit d g bytes
      (fun c hc => by cases c <;> first | rfl | simp [isRelease] at hc))
      (le_of_eq (countP_isQueueSubmit_block d g))
  · exact le_trans (countP_RunComputeTest_le isFenceWait d g bytes
      (fun c hc => by cases c <;> first | rfl | simp [isRelease] at hc))
      (le_of_eq (countP_isFenceWait_block d g))

/-- Witness of C16: the fence wait, check 25, times out; the run ends with
`VK_TIMEOUT`, its last call before the release section is that wait, and
neither the `vkMapMemory` of the result check nor any message follows. -/
theorem C16_witness :
    (checkpoints timeoutDriver sampleGlobals)[25]? =
      some ([Call.vkWaitForFences 40 UINT64_MAX], VK_TIMEOUT) ∧
    (∀ x ∈ (checkpoints timeoutDriver sampleGlobals).take 25, x.2 = VK_SUCCESS) ∧
    VK_TIMEOUT ≠ VK_SUCCESS ∧
    (runBlock timeoutDriver sampleGlobals (RunState.init fun _ => 0)).1 = VK_TIMEOUT ∧
    (RunComputeTest timeoutDriver sampleGlobals fun _ => 0).trace =
      (((checkpoints timeoutDriver sampleGlobals).take (25 + 1)).map Prod.fst).flatten ++
        teardown (RunComputeTest timeoutDriver sampleGlobals fun _ => 0).handles :=
  ⟨rfl, timeoutDriver_checks_before_wait, by decide,
    (C16_first_failure_ends_the_run timeoutDriver sampleGlobals (fun _ => 0)).2.1 25
      ([Call.vkWaitForFences 40 UINT64_MAX], VK_TIMEOUT) rfl timeoutDriver_checks_before_wait
      (by decide)⟩

/-! ## Sample runs -/

theorem acceptingDriver_wellBehaved : acceptingDriver.wellBehaved := by
  intro r
  cases r with
  | buffer i => fin_cases i <;> decide
  | memory i => fin_cases i <;> decide
  | _ => decide

theorem noCommandBufferDriver_wellBehaved : noCommandBufferDriver.wellBehaved := by
  intro r
  cases r with
  | buffer i => fin_cases i <;> decide
  | memory i => fin_cases i <;> decide
  | _ => decide

theorem acceptingDriver_handles :
    (RunComputeTest acceptingDriver sampleGlobals fun _ => 0).handles =
      { deviceMemories := [21, 22, 23]
        deviceBuffers := [11, 12, 13, 14]
        computeShaderModule := 31
        computePipeline := 34
        descriptorSetLayout := 32
        pipelineLayout := 33
        descriptorPool := 35
        commandPool := 37
        commandBuffers := [38]
        fence := 40 } := by
  rfl

theorem noCommandBufferDriver_handles :
    (RunComputeTest noCommandBufferDriver sampleGlobals fun _ => 0).handles =
      { deviceMemories := [21, 22, 23]
        deviceBuffers := [11, 12, 13, 14]
        computeShaderModule := 31
        computePipeline := 34
        descriptorSetLayout := 32
        pipelineLayout := 33
        descriptorPool := 35
        commandPool := 37
        commandBuffers := [VK_NULL_HANDLE]
        fence := VK_NULL_HANDLE } := by
  rfl

theorem created_RunComputeTest (d : Driver) (g : Globals) (bytes : Nat → Nat) (r : Resource) :
    created d (RunComputeTest d g bytes).trace r =
      created d (runBlock d g (RunState.init bytes)).2.trace r := by
  rw [RunComputeTest_trace]
  unfold created
  rw [List.any_append,
    any_isCreation_false r (teardown _) fun c hc =>
      creates_of_isRelease c (isRelease_of_mem_teardown _ _ hc),
    Bool.or_false]

theorem mem_acquired_of_get_ne_null (d : Driver) (s : RunState) (ht : tracksHandles d s)
    (r : Resource) (h : r.get s.handles ≠ VK_NULL_HANDLE) : r ∈ acquired s.trace := by
  rw [ht.2 r] at h
  by_cases hany : s.trace.any r.isCreation = true
  · obtain ⟨c, hc, hcr⟩ := List.any_eq_true.1 hany
    exact List.mem_filterMap.2 ⟨c, hc, by simpa [Resource.isCreation] using hcr⟩
  · rw [if_neg hany] at h
    exact absurd rfl h

/-! ## C17: what the release section releases -/

/-- C17, counterexample: when `vkAllocateCommandBuffers` fails and leaves the
command buffer handle null, the release section still issues
`vkFreeCommandBuffers` on that command buffer, which was never created; and no
release call of the run names the descriptor set, which was created. -/
theorem C17_counterexample :
    noCommandBufferDriver.vkAllocateCommandBuffers.1 ≠ VK_SUCCESS ∧
    noCommandBufferDriver.vkAllocateDescriptorSets = (VK_SUCCESS, 36) ∧
    (RunComputeTest noCommandBufferDriver sampleGlobals fun _ => 0).handles.commandBuffers =
      [VK_NULL_HANDLE] ∧
    Call.vkFreeCommandBuffers 37 [VK_NULL_HANDLE] ∈
      teardown (RunComputeTest noCommandBufferDriver sampleGlobals fun _ => 0).handles ∧
    Call.vkFreeCommandBuffers 37 [VK_NULL_HANDLE] ∈
      (RunComputeTest noCommandBufferDriver sampleGlobals fun _ => 0).trace ∧
    (RunComputeTest noCommandBufferDriver sampleGlobals fun _ => 0).trace.filter isRelease =
      [Call.vkFreeCommandBuffers 37 [VK_NULL_HANDLE], Call.vkDestroyCommandPool 37,
       Call.vkDestroyDescriptorPool 35, Call.vkDestroyDescriptorSetLayout 32,
       Call.vkDestroyPipelineLayout 33, Call.vkDestroyPipeline 34,
       Call.vkDestroyShaderModule 31, Call.vkDestroyBuffer 11, Call.vkDestroyBuffer 12,
       Call.vkDestroyBuffer 13, Call.vkDestroyBuffer 14, Call.vkFreeMemory 21,
       Call.vkFreeMemory 22, Call.vkFreeMemory 23] := by
  have hmem : Call.vkFreeCommandBuffers 37 [VK_NULL_HANDLE] ∈
      teardown (RunComputeTest noCommandBufferDriver sampleGlobals fun _ => 0).handles := by
    rw [noCommandBufferDriver_handles]
    decide
  refine ⟨by decide, rfl, by rw [noCommandBufferDriver_handles], hmem, ?_, ?_⟩
  · rw [RunComputeTest_trace, ← RunComputeTest_handles]
    exact List.mem_append_right _ hmem
  · rw [filter_isRelease_RunComputeTest, ← RunComputeTest_handles,
      noCommandBufferDriver_handles]
    decide

/-- C17, amended: with a driver that follows the convention on creation calls
(success leaves a handle that is not null, failure leaves it null), wherever the
run fails, its release calls are, for each of the fourteen resources held in a
handle variable, the release calls of that resource when it was created and none
when it was not; each resource is listed once.  The release of one resource is
one call on its handle, except for the command pool, for which
`vkFreeCommandBuffers` is issued on the command buffer handles before
`vkDestroyCommandPool`, whether or not the command buffers were allocated. -/
theorem C17_release_calls_follow_creation (d : Driver) (g : Globals) (bytes : Nat → Nat)
    (hd : d.wellBehaved) :
    (RunComputeTest d g bytes).trace.filter isRelease =
      (teardownOrder.filter (created d (RunComputeTest d g bytes).trace)).flatMap
        (Resource.release (RunComputeTest d g bytes).handles) ∧
    teardownOrder.Nodup ∧ (∀ r : Resource, r ∈ teardownOrder) ∧
    (∀ r : Resource, created d (RunComputeTest d g bytes).trace r = true →
      r.get (RunComputeTest d g bytes).handles = r.handle d ∧ r.handle d ≠ VK_NULL_HANDLE) ∧
    Resource.release (RunComputeTest d g bytes).handles Resource.commandPool =
      [Call.vkFreeCommandBuffers (RunComputeTest d g bytes).handles.commandPool
         (RunComputeTest d g bytes).handles.commandBuffers,
       Call.vkDestroyCommandPool (RunComputeTest d g bytes).handles.commandPool] := by
  have ht := runBlock_tracks d g bytes
  have hfun : created d (RunComputeTest d g bytes).trace =
      created d (runBlock d g (RunState.init bytes)).2.trace :=
    funext fun r => created_RunComputeTest d g bytes r
  refine ⟨?_, teardownOrder_nodup, mem_teardownOrder, fun r hr => ?_, rfl⟩
  · rw [filter_isRelease_RunComputeTest, RunComputeTest_handles, hfun,
      teardown_eq _ ht.1, releasedResources_eq_created d _ ht hd]
  · rw [hfun] at hr
    rw [RunComputeTest_handles]
    have hne := (get_ne_null_iff_created d _ ht hd r).2 hr
    have hget := ht.2 r
    by_cases hany : (runBlock d g (RunState.init bytes)).2.trace.any r.isCreation = true
    · rw [if_pos hany] at hget
      exact ⟨hget, by rw [← hget]; exact hne⟩
    · rw [if_neg hany] at hget
      exact absurd hget hne

/-- Witness of C17, amended: the run in which `vkAllocateCommandBuffers`
fails. -/
theorem C17_witness :
    noCommandBufferDriver.wellBehaved ∧
    (RunComputeTest noCommandBufferDriver sampleGlobals fun _ => 0).trace.filter isRelease =
      (teardownOrder.filter
          (created noCommandBufferDriver
            (RunComputeTest noCommandBufferDriver sampleGlobals fun _ => 0).trace)).flatMap
        (Resource.release
          (RunComputeTest noCommandBufferDriver sampleGlobals fun _ => 0).handles) :=
  ⟨noCommandBufferDriver_wellBehaved,
    (C17_release_calls_follow_creation noCommandBufferDriver sampleGlobals (fun _ => 0)
      noCommandBufferDriver_wellBehaved).1⟩

/-! ## C18: the order of the release section -/

theorem acceptingDriver_acquired :
    acquired (RunComputeTest acceptingDriver sampleGlobals fun _ => 0).trace =
      acquisitionOrder := by
  rw [trace_of_success _ _ _ (acceptingDriver_runBlock_success sampleGlobals fun _ => 0)]
  unfold acquired
  rw [List.filterMap_append]
  have := acquired_teardown (RunComputeTest acceptingDriver sampleGlobals fun _ => 0).handles
  unfold acquired at this
  rw [this, List.append_nil]
  exact acquired_blockSteps acceptingDriver sampleGlobals

theorem acceptingDriver_released :
    releasedResources (RunComputeTest acceptingDriver sampleGlobals fun _ => 0).handles =
      teardownOrder := by
  rw [acceptingDriver_handles]
  decide

theorem acceptingDriver_teardown :
    teardown (RunComputeTest acceptingDriver sampleGlobals fun _ => 0).handles =
      [Call.vkDestroyFence 40, Call.vkFreeCommandBuffers 37 [38], Call.vkDestroyCommandPool 37,
       Call.vkDestroyDescriptorPool 35, Call.vkDestroyDescriptorSetLayout 32,
       Call.vkDestroyPipelineLayout 33, Call.vkDestroyPipeline 34,
       Call.vkDestroyShaderModule 31, Call.vkDestroyBuffer 11, Call.vkDestroyBuffer 12,
       Call.vkDestroyBuffer 13, Call.vkDestroyBuffer 14, Call.vkFreeMemory 21,
       Call.vkFreeMemory 22, Call.vkFreeMemory 23] := by
  rw [acceptingDriver_handles]
  decide

/-- C18, counterexample: in the run in which every call succeeds, the resources
are acquired in the order of `acquisitionOrder` and released in the order of
`teardownOrder`, which is not the reverse: the descriptor-set layout, created
before the pipeline layout and the pipeline, is destroyed before them, and the
buffers and memory blocks are released last, in index order. -/
theorem C18_counterexample :
    acquired (RunComputeTest acceptingDriver sampleGlobals fun _ => 0).trace =
      acquisitionOrder ∧
    releasedResources (RunComputeTest acceptingDriver sampleGlobals fun _ => 0).handles =
      teardownOrder ∧
    (RunComputeTest acceptingDriver sampleGlobals fun _ => 0).trace.filter isRelease =
      [Call.vkDestroyFence 40, Call.vkFreeCommandBuffers 37 [38], Call.vkDestroyCommandPool 37,
       Call.vkDestroyDescriptorPool 35, Call.vkDestroyDescriptorSetLayout 32,
       Call.vkDestroyPipelineLayout 33, Call.vkDestroyPipeline 34,
       Call.vkDestroyShaderModule 31, Call.vkDestroyBuffer 11, Call.vkDestroyBuffer 12,
       Call.vkDestroyBuffer 13, Call.vkDestroyBuffer 14, Call.vkFreeMemory 21,
       Call.vkFreeMemory 22, Call.vkFreeMemory 23] ∧
    releasedResources (RunComputeTest acceptingDriver sampleGlobals fun _ => 0).handles ≠
      (acquired (RunComputeTest acceptingDriver sampleGlobals fun _ => 0).trace).reverse := by
  refine ⟨acceptingDriver_acquired, acceptingDriver_released, ?_, ?_⟩
  · rw [filter_isRelease_RunComputeTest, ← RunComputeTest_handles]
    exact acceptingDriver_teardown
  · rw [acceptingDriver_acquired, acceptingDriver_released]
    decide

/-- C18, amended: in every run the creation calls come in the order of
`acquisitionOrder` (an initial part of it when the run fails), and the release
calls of the run are those of the resources whose handle is not null, in the
fixed order of `teardownOrder`: fence, command pool, descriptor pool,
descriptor-set layout, pipeline layout, pipeline, shader module, buffers 0 to 3,
memory blocks 0 to 2.  Every resource released has been acquired, and the fixed
order is not the reverse of the acquisition order. -/
theorem C18_release_order_is_fixed (d : Driver) (g : Globals) (bytes : Nat → Nat) :
    acquired (RunComputeTest d g bytes).trace <+: acquisitionOrder ∧
    (RunComputeTest d g bytes).trace.filter isRelease =
      (releasedResources (RunComputeTest d g bytes).handles).flatMap
        (Resource.release (RunComputeTest d g bytes).handles) ∧
    (releasedResources (RunComputeTest d g bytes).handles).Sublist teardownOrder ∧
    (∀ r ∈ releasedResources (RunComputeTest d g bytes).handles,
      r ∈ acquired (RunComputeTest d g bytes).trace) ∧
    teardownOrder =
      [Resource.fence, Resource.commandPool, Resource.descriptorPool,
       Resource.descriptorSetLayout, Resource.pipelineLayout, Resource.pipeline,
       Resource.shaderModule, Resource.buffer 0, Resource.buffer 1, Resource.buffer 2,
       Resource.buffer 3, Resource.memory 0, Resource.memory 1, Resource.memory 2] ∧
    teardownOrder ≠ acquisitionOrder.reverse := by
  have ht := runBlock_tracks d g bytes
  refine ⟨?_, ?_, List.filter_sublist _, fun r hr => ?_, rfl, by decide⟩
  · rw [acquired_RunComputeTest]
    exact acquired_runBlock_prefix d g bytes
  · rw [filter_isRelease_RunComputeTest, RunComputeTest_handles, teardown_eq _ ht.1]
  · rw [acquired_RunComputeTest]
    rw [RunComputeTest_handles] at hr
    have hne : r.get (runBlock d g (RunState.init bytes)).2.handles ≠ VK_NULL_HANDLE := by
      simpa using (List.mem_filter.1 hr).2
    exact mem_acquired_of_get_ne_null d _ ht r hne

/-! ## C19: the handles after the release section -/

/-- C19, counterexample: after the run in which every call succeeds, the
handles still hold the released objects (the fence handle is 40, not null), and
the release section executed on them issues all fifteen release calls again. -/
theorem C19_counterexample :
    (RunComputeTest acceptingDriver sampleGlobals fun _ => 0).handles.fence = 40 ∧
    (RunComputeTest acceptingDriver sampleGlobals fun _ => 0).trace.filter isRelease =
      teardown (RunComputeTest acceptingDriver sampleGlobals fun _ => 0).handles ∧
    teardown (RunComputeTest acceptingDriver sampleGlobals fun _ => 0).handles ≠ [] ∧
    (teardown (RunComputeTest acceptingDriver sampleGlobals fun _ => 0).handles).length = 15 := by
  refine ⟨by rw [acceptingDriver_handles], ?_, ?_, ?_⟩
  · rw [filter_isRelease_RunComputeTest, ← RunComputeTest_handles]
  · rw [acceptingDriver_teardown]
    exact List.cons_ne_nil _ _
  · rw [acceptingDriver_teardown]
    rfl

/-- C19, amended: the release section clears no handle.  The handles at the end
of `RunComputeTest` are those at the end of its `do` block; the release calls of
the run are those of one execution of the release section on these handles;
and executing the release section on them again would issue no call only when
every handle is null, that is when the first execution released nothing.  The
same holds of `DestroyInstanceAndDevice`, which reads the two globals and
assigns to neither. -/
theorem C19_release_clears_no_handle (d : Driver) (g : Globals) (bytes : Nat → Nat) :
    (RunComputeTest d g bytes).handles = (runBlock d g (RunState.init bytes)).2.handles ∧
    (RunComputeTest d g bytes).trace.filter isRelease =
      teardown (RunComputeTest d g bytes).handles ∧
    (teardown (RunComputeTest d g bytes).handles = [] ↔
      ∀ r : Resource, r.get (RunComputeTest d g bytes).handles = VK_NULL_HANDLE) ∧
    (DestroyInstanceAndDevice g = [] ↔
      g.s_specDevice = VK_NULL_HANDLE ∧ g.s_instance = VK_NULL_HANDLE) := by
  have ht := runBlock_tracks d g bytes
  refine ⟨RunComputeTest_handles d g bytes, ?_, ?_, ?_⟩
  · rw [filter_isRelease_RunComputeTest, RunComputeTest_handles]
  · rw [RunComputeTest_handles]
    exact teardown_eq_nil_iff _ ht.1
  · unfold DestroyInstanceAndDevice
    by_cases h1 : g.s_specDevice = VK_NULL_HANDLE <;>
      by_cases h2 : g.s_instance = VK_NULL_HANDLE <;> simp [h1, h2]

/-! ## C20: the upload copy of the address table -/

theorem loadBytes_congr (f g : Nat → Nat) (len off off2 : Nat)
    (h : ∀ k, k < len → f (off + k) = g (off2 + k)) :
    loadBytes f off len = loadBytes g off2 len := by
  induction len generalizing off off2 with
  | zero => rfl
  | succ n ih =>
    unfold loadBytes
    have h0 := h 0 (Nat.succ_pos n)
    rw [Nat.add_zero, Nat.add_zero] at h0
    rw [h0, ih (off + 1) (off2 + 1) fun k hk => by
      have := h (k + 1) (Nat.succ_lt_succ hk)
      rwa [Nat.add_assoc, Nat.add_assoc, Nat.add_comm 1 k]]

theorem execCalls_WriteBufferAndSync (cb q data addr staging size : Nat) (mem : Buffers) :
    execCalls mem (WriteBufferAndSync cb q data addr staging size) =
      execCopy (execCopy mem staging data { srcOffset := 0, dstOffset := 0, size := size })
        staging addr { srcOffset := size, dstOffset := 0, size := ADDITIONAL_ADDRESS_BUFFER_SIZE } :=
  rfl

theorem execCopy_upload_staging (data staging size : Nat) (mem : Buffers) (a : Nat) :
    execCopy mem staging data { srcOffset := 0, dstOffset := 0, size := size } staging a =
      mem staging a := by
  unfold execCopy
  split_ifs <;> simp

theorem upload_address_bytes (cb q data addr staging size : Nat) (mem : Buffers) (j : Nat)
    (hj : j < 64) :
    execCalls mem (WriteBufferAndSync cb q data addr staging size) addr j =
      mem staging (size + j) := by
  rw [execCalls_WriteBufferAndSync]
  show (if addr = addr ∧ 0 ≤ j ∧ j < 0 + ADDITIONAL_ADDRESS_BUFFER_SIZE then _ else _) = _
  rw [if_pos ⟨rfl, Nat.zero_le _, by simpa [ADDITIONAL_ADDRESS_BUFFER_SIZE] using hj⟩]
  show execCopy mem staging data _ staging (j - 0 + size) = _
  rw [execCopy_upload_staging, Nat.sub_zero, Nat.add_comm]

theorem upload_staging_bytes (cb q data addr staging size : Nat) (mem : Buffers)
    (hne : addr ≠ staging) (a : Nat) :
    execCalls mem (WriteBufferAndSync cb q data addr staging size) staging a = mem staging a := by
  rw [execCalls_WriteBufferAndSync]
  show (if staging = addr ∧ _ then _ else _) = _
  rw [if_neg fun h => hne h.1.symm]
  exact execCopy_upload_staging data staging size mem a

/-- C20: with buffers as byte arrays and a copy command as a byte-range copy,
for every payload size `size` and every content `mem`, after the commands of
`WriteBufferAndSync` have executed (the address-table buffer being another
buffer than the staging buffer), bytes `[0, 64)` of the address-table buffer are
bytes `[size, size + 64)` of the staging buffer, which the copies have left as
they were; so the eight 64-bit entries read from the address table are the eight
entries of the staging buffer at offset `size`. -/
theorem C20_address_table_is_copied_byte_for_byte (cb q data addr staging size : Nat)
    (mem : Buffers) (hne : addr ≠ staging) :
    (∀ j, j < 64 →
      execCalls mem (WriteBufferAndSync cb q data addr staging size) addr j =
        execCalls mem (WriteBufferAndSync cb q data addr staging size) staging (size + j)) ∧
    (∀ a, execCalls mem (WriteBufferAndSync cb q data addr staging size) staging a =
      mem staging a) ∧
    (∀ i, i < 8 →
      loadAddress (execCalls mem (WriteBufferAndSync cb q data addr staging size) addr) 0 i =
        loadAddress (mem staging) size i) := by
  refine ⟨fun j hj => ?_, upload_staging_bytes cb q data addr staging size mem hne, fun i hi => ?_⟩
  · rw [upload_address_bytes cb q data addr staging size mem j hj,
      upload_staging_bytes cb q data addr staging size mem hne]
  · unfold loadAddress
    apply loadBytes_congr
    intro k hk
    rw [upload_address_bytes cb q data addr staging size mem _ (by omega)]
    congr 1
    omega

/-- Witness of C20: command buffer 38, working buffer 13, address table 14,
staging buffer 11, a payload of 16 bytes. -/
theorem C20_witness :
    (14 : Nat) ≠ 11 ∧
    execCalls sampleBuffers (WriteBufferAndSync 38 0 13 14 11 16) 14 5 =
      execCalls sampleBuffers (WriteBufferAndSync 38 0 13 14 11 16) 11 (16 + 5) ∧
    execCalls sampleBuffers (WriteBufferAndSync 38 0 13 14 11 16) 14 5 = 74 :=
  ⟨by decide,
    (C20_address_table_is_copied_byte_for_byte 38 0 13 14 11 16 sampleBuffers (by decide)).1 5
      (by decide),
    by decide⟩

/-! ## C21: the queue family -/

theorem queueFamilyLoop_spec (q : Nat) (props : List Nat) (count : Nat) :
    ∀ fuel i, count ≤ i + fuel →
      (queueFamilyLoop q props count fuel i = none ∧
        ∀ j, i ≤ j → j < count → props.getD j 0 &&& q = 0) ∨
      (∃ k, queueFamilyLoop q props count fuel i = some k ∧ i ≤ k ∧ k < count ∧
        props.getD k 0 &&& q ≠ 0 ∧ ∀ j, i ≤ j → j < k → props.getD j 0 &&& q = 0) := by
  intro fuel
  induction fuel with
  | zero =>
    intro i h
    left
    exact ⟨rfl, fun j h1 h2 => by omega⟩
  | succ n ih =>
    intro i h
    unfold queueFamilyLoop
    by_cases hi : i < count
    · rw [if_pos hi]
      by_cases hf : props.getD i 0 &&& q ≠ 0
      · rw [if_pos hf]
        right
        exact ⟨i, rfl, le_refl _, hi, hf, fun j h1 h2 => by omega⟩
      · rw [if_neg hf]
        have hz : props.getD i 0 &&& q = 0 := not_not.1 hf
        rcases ih (i + 1) (by omega) with ⟨h1, h2⟩ | ⟨k, h1, h2, h3, h4, h5⟩
        · left
          refine ⟨h1, fun j hj1 hj2 => ?_⟩
          rcases Nat.eq_or_lt_of_le hj1 with rfl | hlt
          · exact hz
          · exact h2 j hlt hj2
        · right
          refine ⟨k, h1, by omega, h3, h4, fun j hj1 hj2 => ?_⟩
          rcases Nat.eq_or_lt_of_le hj1 with rfl | hlt
          · exact hz
          · exact h5 j hlt hj2
    · rw [if_neg hi]
      left
      exact ⟨rfl, fun j h1 h2 => by omega⟩

/-- What the loop over the queue families leaves in `queue_info.queueFamilyIndex`:
the least index below the count whose flags share a bit with `queueFlag`, and 0
when no family below the count shares one. -/
theorem selectedQueueFamilyIndex_spec (e : DeviceEnv) (queueFlag : Nat) :
    (selectedQueueFamilyIndex e queueFlag < queueFamilyPropertyCount e ∧
      e.queueFamilyProperties.getD (selectedQueueFamilyIndex e queueFlag) 0 &&& queueFlag ≠ 0 ∧
      ∀ j, j < selectedQueueFamilyIndex e queueFlag →
        e.queueFamilyProperties.getD j 0 &&& queueFlag = 0) ∨
    (selectedQueueFamilyIndex e queueFlag = 0 ∧
      ∀ j, j < queueFamilyPropertyCount e →
        e.queueFamilyProperties.getD j 0 &&& queueFlag = 0) := by
  unfold selectedQueueFamilyIndex
  rcases queueFamilyLoop_spec queueFlag e.queueFamilyProperties (queueFamilyPropertyCount e)
      (queueFamilyPropertyCount e) 0 (by omega) with ⟨h1, h2⟩ | ⟨k, h1, _, h3, h4, h5⟩
  · right
    rw [h1]
    exact ⟨rfl, fun j hj => h2 j (Nat.zero_le _) hj⟩
  · left
    rw [h1]
    exact ⟨h3, h4, fun j hj => h5 j (Nat.zero_le _) hj⟩

theorem InitializeDevice_index (e : DeviceEnv) (queueFlag : Nat) (g : Globals)
    (h : (InitializeDevice e queueFlag g).1 = VK_SUCCESS) :
    (InitializeDevice e queueFlag g).2.s_specQueueFamilyIndex =
      selectedQueueFamilyIndex e queueFlag ∧
    (InitializeDevice e queueFlag g).2.s_specDevice = e.vkCreateDevice.2 ∧
    e.vkCreateDevice.1 = VK_SUCCESS := by
  unfold InitializeDevice at h ⊢
  split_ifs at h ⊢ with h1 h2 h3 h4 h5 h6 h7 h8
  · exact absurd h h1
  · exact absurd h h2
  · exact absurd h VK_ERROR_DEVICE_LOST_ne
  · exact absurd h VK_ERROR_DEVICE_LOST_ne
  · exact absurd h h5
  · exact absurd h h6
  · exact absurd h VK_ERROR_UNKNOWN_ne
  · exact absurd h VK_ERROR_UNKNOWN_ne
  · exact ⟨rfl, rfl, h⟩

theorem InitializeInstanceAndeDevice_index (e : DeviceEnv) (g : Globals)
    (h : (InitializeInstanceAndeDevice e g).1 = VK_SUCCESS) :
    (InitializeInstanceAndeDevice e g).2.s_specQueueFamilyIndex =
      selectedQueueFamilyIndex e (VK_QUEUE_COMPUTE_BIT ||| VK_QUEUE_TRANSFER_BIT) ∧
    (InitializeInstanceAndeDevice e g).2.s_specDevice = e.vkCreateDevice.2 ∧
    e.vkCreateDevice.1 = VK_SUCCESS := by
  unfold InitializeInstanceAndeDevice at h ⊢
  by_cases hi : e.InitializeInstance.1 = VK_SUCCESS
  · simp only [hi, ne_eq, not_true_eq_false, if_false] at h ⊢
    exact InitializeDevice_index e _ _ h
  · simp only [ne_eq, hi, not_false_eq_true, if_true] at h

/-- C21, the code on two devices and in general.  On a device whose family 0
has the transfer flag alone and whose family 1 has both flags, the device is
created and the index stored is 0, a family without the compute flag.  On a
device whose only family has neither flag, the device is created and the index
stored is 0 as well: `found` stays `false` and is not read.  In general, when
the device is created, the index stored is the least index below the clamped
count whose flags share at least one bit with `VK_QUEUE_COMPUTE_BIT |
VK_QUEUE_TRANSFER_BIT`, and 0 when there is no such index. -/
theorem C21_queue_family_selected_on_any_shared_bit :
    ((InitializeInstanceAndeDevice transferFirstEnv Globals.init).1 = VK_SUCCESS ∧
      (InitializeInstanceAndeDevice transferFirstEnv Globals.init).2.s_specDevice = 2 ∧
      (InitializeInstanceAndeDevice transferFirstEnv Globals.init).2.s_specQueueFamilyIndex = 0 ∧
      ¬ computeAndTransfer (transferFirstEnv.queueFamilyProperties.getD 0 0) ∧
      computeAndTransfer (transferFirstEnv.queueFamilyProperties.getD 1 0)) ∧
    ((InitializeInstanceAndeDevice sparseOnlyEnv Globals.init).1 = VK_SUCCESS ∧
      (InitializeInstanceAndeDevice sparseOnlyEnv Globals.init).2.s_specDevice = 2 ∧
      (InitializeInstanceAndeDevice sparseOnlyEnv Globals.init).2.s_specQueueFamilyIndex = 0 ∧
      (∀ j, ¬ computeAndTransfer (sparseOnlyEnv.queueFamilyProperties.getD j 0))) ∧
    (∀ (e : DeviceEnv) (g : Globals), (InitializeInstanceAndeDevice e g).1 = VK_SUCCESS →
      ((InitializeInstanceAndeDevice e g).2.s_specQueueFamilyIndex < queueFamilyPropertyCount e ∧
        e.queueFamilyProperties.getD (InitializeInstanceAndeDevice e g).2.s_specQueueFamilyIndex 0
          &&& (VK_QUEUE_COMPUTE_BIT ||| VK_QUEUE_TRANSFER_BIT) ≠ 0 ∧
        ∀ j, j < (InitializeInstanceAndeDevice e g).2.s_specQueueFamilyIndex →
          e.queueFamilyProperties.getD j 0 &&&
            (VK_QUEUE_COMPUTE_BIT ||| VK_QUEUE_TRANSFER_BIT) = 0) ∨
      ((InitializeInstanceAndeDevice e g).2.s_specQueueFamilyIndex = 0 ∧
        ∀ j, j < queueFamilyPropertyCount e →
          e.queueFamilyProperties.getD j 0 &&&
            (VK_QUEUE_COMPUTE_BIT ||| VK_QUEUE_TRANSFER_BIT) = 0)) := by
  refine ⟨⟨by decide, by decide, by decide, by decide, by decide⟩,
    ⟨by decide, by decide, by decide, fun j => ?_⟩, fun e g h => ?_⟩
  · match j with
    | 0 => decide
    | j + 1 => simp [computeAndTransfer, sparseOnlyEnv]
  · rw [(InitializeInstanceAndeDevice_index e g h).1]
    exact selectedQueueFamilyIndex_spec e _

/-! ## C22: the allocation shared by the two working buffers -/

theorem deviceMemTotalSize_eq (bs : Nat) (r : VkMemoryRequirements) :
    deviceMemTotalSize bs r = Nat.max ((2 * bs) % 2 ^ 64) r.size := by
  unfold deviceMemTotalSize max
  rw [Nat.mul_comm bs 2]
  split_ifs with hgt
  · exact (Nat.max_eq_left (Nat.le_of_lt hgt)).symm
  · exact (Nat.max_eq_right (Nat.le_of_not_lt hgt)).symm

/-- The ranges `[0, r)` and `[p, p + r)` are disjoint and inside an allocation
of `max(2 * p, r)` bytes exactly when `r ≤ p`. -/
theorem ranges_fit_iff (p r : Nat) :
    (rangesDisjoint 0 r p r ∧ rangeWithin 0 r (Nat.max (2 * p) r) ∧
      rangeWithin p r (Nat.max (2 * p) r)) ↔ r ≤ p := by
  constructor
  · rintro ⟨hd, _, _⟩
    by_contra hlt
    exact hd p ⟨Nat.zero_le _, by omega, le_refl _, by omega⟩
  · intro hle
    have h1 : r ≤ Nat.max (2 * p) r := Nat.le_max_right _ _
    have h2 : 2 * p ≤ Nat.max (2 * p) r := Nat.le_max_left _ _
    refine ⟨fun x hx => ?_, fun x _ hx => ?_, fun x _ hx => ?_⟩
    · omega
    · omega
    · omega

theorem allocate_shared_calls (d : Driver) (ext : Option (Nat → Nat))
    (props : VkPhysicalDeviceMemoryProperties) (p q : Nat) (bytes : Nat → Nat)
    (h : d.allocOk) :
    Call.vkAllocateMemory (deviceMemAllocInfo props p (d.vkGetBufferMemoryRequirements 1)) 1 ∈
      (AllocateMemoryAndBuffers d ext props p q (RunState.init bytes)).2.trace ∧
    Call.vkBindBufferMemory (d.vkCreateBuffer 1).2 (d.vkAllocateMemory 1).2 0 ∈
      (AllocateMemoryAndBuffers d ext props p q (RunState.init bytes)).2.trace ∧
    Call.vkBindBufferMemory (d.vkCreateBuffer 2).2 (d.vkAllocateMemory 1).2 p ∈
      (AllocateMemoryAndBuffers d ext props p q (RunState.init bytes)).2.trace := by
  rw [AllocateMemoryAndBuffers_trace_of_ok _ _ _ _ _ _ h]
  refine ⟨?_, ?_, ?_⟩ <;> simp

/-- C22, counterexample: for the payload size `2 ^ 63` and a reported
requirement of 100 bytes, which is no more than the payload size, the shared
allocation is requested with 100 bytes, not `max(2 * payload, 100)`, and the
range `[2 ^ 63, 2 ^ 63 + 100)` of the second working buffer, bound at offset
`2 ^ 63`, is not inside it. -/
theorem C22_counterexample :
    (0 : Nat) < 2 ^ 63 ∧
    (acceptingDriver.vkGetBufferMemoryRequirements 1).size = 100 ∧ (100 : Nat) ≤ 2 ^ 63 ∧
    Call.vkAllocateMemory { pNext := some 2, allocationSize := 100, memoryTypeIndex := 0 } 1 ∈
      (AllocateMemoryAndBuffers acceptingDriver none sampleProperties (2 ^ 63) 0
        (RunState.init fun _ => 0)).2.trace ∧
    Call.vkBindBufferMemory 13 22 (2 ^ 63) ∈
      (AllocateMemoryAndBuffers acceptingDriver none sampleProperties (2 ^ 63) 0
        (RunState.init fun _ => 0)).2.trace ∧
    (100 : Nat) ≠ Nat.max (2 * 2 ^ 63) 100 ∧
    ¬ rangeWithin (2 ^ 63) 100 100 := by
  have hc := allocate_shared_calls acceptingDriver none sampleProperties (2 ^ 63) 0 (fun _ => 0)
    acceptingDriver_allocOk
  have hinfo : deviceMemAllocInfo sampleProperties (2 ^ 63)
      (acceptingDriver.vkGetBufferMemoryRequirements 1) =
      { pNext := some 2, allocationSize := 100, memoryTypeIndex := 0 } := by decide
  rw [hinfo] at hc
  refine ⟨by decide, rfl, by decide, hc.1, hc.2.2, by decide, fun hw => ?_⟩
  have := hw (2 ^ 63) (le_refl _) (by omega)
  omega

/-- C22, amended: for every payload size `p` with `2 * p < 2 ^ 64` and every
requirement size `r` reported for the first working buffer, when
`AllocateMemoryAndBuffers` succeeds the two working buffers are bound at offsets
0 and `p` of the allocation of `deviceMemories[1]`, which is requested with
`max(2 * p, r)` bytes; and the ranges `[0, r)` and `[p, p + r)` are disjoint and
both inside the allocation if and only if `r ≤ p`. -/
theorem C22_working_buffers_share_one_allocation (d : Driver) (ext : Option (Nat → Nat))
    (props : VkPhysicalDeviceMemoryProperties) (p q : Nat) (bytes : Nat → Nat)
    (hp : 2 * p < 2 ^ 64)
    (h : (AllocateMemoryAndBuffers d ext props p q (RunState.init bytes)).1 = VK_SUCCESS) :
    Call.vkBindBufferMemory (d.vkCreateBuffer 1).2 (d.vkAllocateMemory 1).2 0 ∈
      (AllocateMemoryAndBuffers d ext props p q (RunState.init bytes)).2.trace ∧
    Call.vkBindBufferMemory (d.vkCreateBuffer 2).2 (d.vkAllocateMemory 1).2 p ∈
      (AllocateMemoryAndBuffers d ext props p q (RunState.init bytes)).2.trace ∧
    (∃ info, Call.vkAllocateMemory info 1 ∈
      (AllocateMemoryAndBuffers d ext props p q (RunState.init bytes)).2.trace) ∧
    (∀ info, Call.vkAllocateMemory info 1 ∈
        (AllocateMemoryAndBuffers d ext props p q (RunState.init bytes)).2.trace →
      info.allocationSize = Nat.max (2 * p) (d.vkGetBufferMemoryRequirements 1).size) ∧
    ((rangesDisjoint 0 (d.vkGetBufferMemoryRequirements 1).size p
          (d.vkGetBufferMemoryRequirements 1).size ∧
        rangeWithin 0 (d.vkGetBufferMemoryRequirements 1).size
          (Nat.max (2 * p) (d.vkGetBufferMemoryRequirements 1).size) ∧
        rangeWithin p (d.vkGetBufferMemoryRequirements 1).size
          (Nat.max (2 * p) (d.vkGetBufferMemoryRequirements 1).size)) ↔
      (d.vkGetBufferMemoryRequirements 1).size ≤ p) := by
  have hok := (AllocateMemoryAndBuffers_success_iff d ext props p q (RunState.init bytes)).1 h
  obtain ⟨h1, h2, h3⟩ := allocate_shared_calls d ext props p q bytes hok
  refine ⟨h2, h3, ⟨_, h1⟩, fun info hinfo => ?_, ranges_fit_iff p _⟩
  rcases mem_allocate_vkAllocateMemory d ext props p q bytes info 1 hinfo with
    ⟨h0, _⟩ | ⟨_, rfl⟩ | ⟨h0, _⟩
  · omega
  · show deviceMemTotalSize p _ = _
    rw [deviceMemTotalSize_eq, Nat.mod_eq_of_lt hp]
  · omega

/-- Witness of C22, amended: a payload of 128 bytes and a requirement of 100
bytes. -/
theorem C22_witness :
    2 * 128 < 2 ^ 64 ∧
    (AllocateMemoryAndBuffers acceptingDriver none sampleProperties 128 0
      (RunState.init fun _ => 0)).1 = VK_SUCCESS ∧
    Call.vkBindBufferMemory (acceptingDriver.vkCreateBuffer 2).2
        (acceptingDriver.vkAllocateMemory 1).2 128 ∈
      (AllocateMemoryAndBuffers acceptingDriver none sampleProperties 128 0
        (RunState.init fun _ => 0)).2.trace :=
  ⟨by decide,
    (AllocateMemoryAndBuffers_success_iff acceptingDriver none sampleProperties 128 0
      (RunState.init fun _ => 0)).2 acceptingDriver_allocOk,
    (C22_working_buffers_share_one_allocation acceptingDriver none sampleProperties 128 0
      (fun _ => 0) (by decide)
      ((AllocateMemoryAndBuffers_success_iff acceptingDriver none sampleProperties 128 0
        (RunState.init fun _ => 0)).2 acceptingDriver_allocOk)).2.1⟩

/-! ## C23: the host writes and the mapped range -/

theorem fillLoop_writes (c : Int) :
    ∀ (fuel i : Nat) (m : HostMem), i + fuel = c.toNat →
      (fillLoop c fuel i m).writes =
        m.writes ++ (List.range' i fuel).map fun k => (4 * k, 4) := by
  intro fuel
  induction fuel with
  | zero =>
    intro i m _
    simp [fillLoop]
  | succ n ih =>
    intro i m h
    have hlt : (i : Int) < c := by omega
    unfold fillLoop
    rw [if_pos hlt, ih (i + 1) _ (by omega)]
    simp [HostMem.store, List.range'_succ]

/-- The stores of `initStaging`, in program order: the payload elements, the
`memset` of the address table, and its first two entries. -/
theorem initStaging_writes (bs a0 a1 : Nat) (m : HostMem) :
    (initStaging bs a0 a1 m).writes =
      m.writes ++ payloadWrites (toInt32 (bs / 4)).toNat ++
        [(bs, ADDITIONAL_ADDRESS_BUFFER_SIZE), (bs, 8), (bs + 8, 8)] := by
  unfold initStaging payloadWrites
  simp only [HostMem.store, HostMem.memset]
  rw [fillLoop_writes _ _ 0 m (Nat.zero_add _), List.range_eq_range']
  simp

theorem toInt32_toNat_le (x : Nat) : (toInt32 x).toNat ≤ x := by
  unfold toInt32
  have := Nat.mod_le x (2 ^ 32)
  split_ifs <;> omega

theorem payloadWrites_inside (bs : Nat) (w : Nat × Nat)
    (hw : w ∈ payloadWrites (toInt32 (bs / 4)).toNat) : writeInside bs w := by
  unfold payloadWrites at hw
  obtain ⟨i, hi, rfl⟩ := List.mem_map.1 hw
  have h1 := List.mem_range.1 hi
  have h2 := toInt32_toNat_le (bs / 4)
  have h3 := Nat.div_mul_le_self bs 4
  show 4 * i + 4 ≤ bs
  omega

theorem allocate_map_calls (d : Driver) (ext : Option (Nat → Nat))
    (props : VkPhysicalDeviceMemoryProperties) (bs q : Nat) (bytes : Nat → Nat)
    (h : d.allocOk) :
    Call.vkMapMemory (d.vkAllocateMemory 0).2 0 bs ∈
      (AllocateMemoryAndBuffers d ext props bs q (RunState.init bytes)).2.trace ∧
    ∀ memory offset size, Call.vkMapMemory memory offset size ∈
        (AllocateMemoryAndBuffers d ext props bs q (RunState.init bytes)).2.trace →
      memory = (d.vkAllocateMemory 0).2 ∧ offset = 0 ∧ size = bs := by
  rw [AllocateMemoryAndBuffers_trace_of_ok _ _ _ _ _ _ h]
  refine ⟨by simp, fun memory offset size hm => ?_⟩
  cases ext <;> simpa [queryAddress, RunState.init] using hm

theorem allocate_writes (d : Driver) (ext : Option (Nat → Nat))
    (props : VkPhysicalDeviceMemoryProperties) (bs q : Nat) (bytes : Nat → Nat)
    (h : d.allocOk) :
    (AllocateMemoryAndBuffers d ext props bs q (RunState.init bytes)).2.host.writes =
      payloadWrites (toInt32 (bs / 4)).toNat ++
        [(bs, ADDITIONAL_ADDRESS_BUFFER_SIZE), (bs, 8), (bs + 8, 8)] := by
  rw [AllocateMemoryAndBuffers_host_of_ok _ _ _ _ _ _ h, initStaging_writes]
  rfl

/-- C23, the code at the input of the program and in general.  With the payload
size 104857600 of `RunComputeTest` the staging memory is mapped with `offset = 0`
and `size = 104857600`, and the `memset` of the address table writes 64 bytes at
offset 104857600 from the mapped pointer, past the end of the requested range.
For every payload size, when `AllocateMemoryAndBuffers` succeeds, its one map
call requests `[0, payload)`; the stores of the payload elements lie inside that
range, and the three stores to the address table, at `[payload, payload + 64)`,
lie outside it. -/
theorem C23_address_table_written_past_the_mapped_range :
    (Call.vkMapMemory 21 0 bufferSize ∈
        (AllocateMemoryAndBuffers acceptingDriver none sampleProperties bufferSize 0
          (RunState.init fun _ => 0)).2.trace ∧
      bufferSize = 104857600 ∧
      (bufferSize, 64) ∈
        (AllocateMemoryAndBuffers acceptingDriver none sampleProperties bufferSize 0
          (RunState.init fun _ => 0)).2.host.writes ∧
      ¬ writeInside bufferSize (bufferSize, 64)) ∧
    (∀ (d : Driver) (ext : Option (Nat → Nat)) (props : VkPhysicalDeviceMemoryProperties)
        (bs q : Nat) (bytes : Nat → Nat),
      (AllocateMemoryAndBuffers d ext props bs q (RunState.init bytes)).1 = VK_SUCCESS →
      (Call.vkMapMemory (d.vkAllocateMemory 0).2 0 bs ∈
          (AllocateMemoryAndBuffers d ext props bs q (RunState.init bytes)).2.trace ∧
        ∀ memory offset size, Call.vkMapMemory memory offset size ∈
            (AllocateMemoryAndBuffers d ext props bs q (RunState.init bytes)).2.trace →
          memory = (d.vkAllocateMemory 0).2 ∧ offset = 0 ∧ size = bs) ∧
      (AllocateMemoryAndBuffers d ext props bs q (RunState.init bytes)).2.host.writes =
        payloadWrites (toInt32 (bs / 4)).toNat ++ [(bs, 64), (bs, 8), (bs + 8, 8)] ∧
      (∀ w ∈ payloadWrites (toInt32 (bs / 4)).toNat, writeInside bs w) ∧
      ¬ writeInside bs (bs, 64) ∧ ¬ writeInside bs (bs, 8) ∧ ¬ writeInside bs (bs + 8, 8)) := by
  refine ⟨⟨?_, by decide, ?_, ?_⟩, fun d ext props bs q bytes h => ?_⟩
  · exact (allocate_map_calls acceptingDriver none sampleProperties bufferSize 0 (fun _ => 0)
      acceptingDriver_allocOk).1
  · rw [allocate_writes acceptingDriver none sampleProperties bufferSize 0 (fun _ => 0)
      acceptingDriver_allocOk]
    exact List.mem_append_right _ (List.mem_cons_self _ _)
  · show ¬ (bufferSize + 64 ≤ bufferSize)
    omega
  · have hok := (AllocateMemoryAndBuffers_success_iff d ext props bs q (RunState.init bytes)).1 h
    refine ⟨allocate_map_calls d ext props bs q bytes hok,
      allocate_writes d ext props bs q bytes hok,
      fun w hw => payloadWrites_inside bs w hw, ?_, ?_, ?_⟩
    · show ¬ (bs + 64 ≤ bs)
      omega
    · show ¬ (bs + 8 ≤ bs)
      omega
    · show ¬ (bs + 8 + 8 ≤ bs)
      omega

end VulkanVariableBuffers
